import Mathlib

/-! gc_n64_usb : the USB device engine of `src/usb.c`

A shallow embedding of the endpoint-0 control transfer engine of `src/usb.c`,
of the button mappings of `src/mappings.c` and of the report building and the
output reports of `src/usbpad.c`.

* C globals (`g_device_state`, `g_current_config`, the control-write
  accumulator) and the software-written registers are the fields of `Engine`.
* A pointer to bytes is a function `Nat → Nat` (the byte found at each offset
  from the pointer); pointer arithmetic `data+pos` is `fun i => data (pos + i)`.
* Everything the firmware does to the USB controller is appended, in program
  order, to `Engine.log`.  A busy-wait on a hardware flag
  (`while (!(UEINTX & (1<<TXINI)));`) is recorded as a `wait_*` event: the
  model assumes the hardware eventually raises the flag, so the wait completes.
* What an interrupt handler reads from the controller (flag registers, the
  bytes of a bank, the RAM behind a pending pointer) is an argument of its
  model; a statement `if (c) { f }` of a handler is `run_if c f`.
* A pointer kept in an interrupt slot is an address, `0` being `NULL`; a slot
  length is a 16-bit `int`, `-1` meaning idle.
* Conditional compilation on a register macro (`#ifdef USBSTA`) is an `Option`
  argument: `none` when the controller has no such register.
* `printf_P` debug output on the serial port is not modelled.
* `uint8_t` / `uint16_t` / 16-bit `int` conversions are written out with
  explicit `%` where a value is narrowed; signed values are in `Int`, taken
  back to their range by `int8_of_int` and `int16_of_int`.
* The constants of headers that are not among the sources (`gamepads.h`,
  `usbpad.h`, `config.h`) are the fields of the parameter `pad_constants`.
* A PROGMEM table is the list of its rows; an index or a walk past its end
  gives `none`.
* A report buffer is a function `Nat → Nat`, written with `store`.
-/

namespace Usb

/-! ## Constants of `usb.c` -/

def STATE_POWERED : Nat := 0
def STATE_DEFAULT : Nat := 1
def STATE_ADDRESS : Nat := 2
def STATE_CONFIGURED : Nat := 3

def CONTROL_WRITE_BUFSIZE : Nat := 64

/-! ## Constants of `usb.h` and of the AVR register map -/

/-- Modelled from the spec: `usb.h` is not among the sources; the request-type
direction bit is bit 7 of `bmRequestType` (USB 2.0, table 9-2). -/
def USB_RQT_IS_HOST_TO_DEVICE (r : Nat) : Bool := (r &&& 0x80) == 0

/-- Modelled from the spec: `usb.h` is not among the sources; bit 7 of
`bmRequestType` set means device-to-host (USB 2.0, table 9-2). -/
def USB_RQT_IS_DEVICE_TO_HOST (r : Nat) : Bool := (r &&& 0x80) != 0

/-- Modelled from the spec: `usb.h` is not among the sources; recipient field of
`bmRequestType`, bits 4..0 (USB 2.0, table 9-2). -/
def USB_RQT_RECIPIENT_MASK : Nat := 0x1F
/-- Modelled from the spec: `usb.h` is not among the sources; recipient code Device. -/
def USB_RQT_RECIPIENT_DEVICE : Nat := 0
/-- Modelled from the spec: `usb.h` is not among the sources; recipient code Interface. -/
def USB_RQT_RECIPIENT_INTERFACE : Nat := 1
/-- Modelled from the spec: `usb.h` is not among the sources; recipient code Endpoint. -/
def USB_RQT_RECIPIENT_ENDPOINT : Nat := 2
/-- Modelled from the spec: `usb.h` is not among the sources; recipient code Other. -/
def USB_RQT_RECIPIENT_OTHER : Nat := 3

/-- Modelled from the spec: `usb.h` is not among the sources; type field of
`bmRequestType`, bits 6..5 (USB 2.0, table 9-2). -/
def USB_RQT_TYPE_MASK : Nat := 0x60
/-- Modelled from the spec: `usb.h` is not among the sources; type code Standard. -/
def USB_RQT_STANDARD : Nat := 0x00
/-- Modelled from the spec: `usb.h` is not among the sources; type code Class. -/
def USB_RQT_CLASS : Nat := 0x20
/-- Modelled from the spec: `usb.h` is not among the sources; type code Vendor. -/
def USB_RQT_VENDOR : Nat := 0x40

/-- Modelled from the spec: `usb.h` is not among the sources; standard request
codes of USB 2.0, table 9-4. -/
def USB_RQ_GET_STATUS : Nat := 0x00
/-- Modelled from the spec: `usb.h` is not among the sources (USB 2.0, table 9-4). -/
def USB_RQ_CLEAR_FEATURE : Nat := 0x01
/-- Modelled from the spec: `usb.h` is not among the sources (USB 2.0, table 9-4). -/
def USB_RQ_SET_FEATURE : Nat := 0x03
/-- Modelled from the spec: `usb.h` is not among the sources (USB 2.0, table 9-4). -/
def USB_RQ_SET_ADDRESS : Nat := 0x05
/-- Modelled from the spec: `usb.h` is not among the sources (USB 2.0, table 9-4). -/
def USB_RQ_GET_DESCRIPTOR : Nat := 0x06
/-- Modelled from the spec: `usb.h` is not among the sources (USB 2.0, table 9-4). -/
def USB_RQ_GET_CONFIGURATION : Nat := 0x08
/-- Modelled from the spec: `usb.h` is not among the sources (USB 2.0, table 9-4). -/
def USB_RQ_SET_CONFIGURATION : Nat := 0x09

/-- Modelled from the spec: `usb.h` is not among the sources; descriptor type
codes of USB 2.0, table 9-5. -/
def DEVICE_DESCRIPTOR : Nat := 0x01
/-- Modelled from the spec: `usb.h` is not among the sources (USB 2.0, table 9-5). -/
def CONFIGURATION_DESCRIPTOR : Nat := 0x02
/-- Modelled from the spec: `usb.h` is not among the sources (USB 2.0, table 9-5). -/
def STRING_DESCRIPTOR : Nat := 0x03
/-- Modelled from the spec: `usb.h` is not among the sources (USB 2.0, table 9-5). -/
def DEVICE_QUALIFIER_DESCRIPTOR : Nat := 0x06
/-- Modelled from the spec: `usb.h` is not among the sources; HID 1.11, section 7.1. -/
def REPORT_DESCRIPTOR : Nat := 0x22

/-- Modelled from the spec: `usb.h` is not among the sources; HID 1.11, section 7.2. -/
def HID_CLSRQ_GET_REPORT : Nat := 0x01
/-- Modelled from the spec: `usb.h` is not among the sources; HID 1.11, section 7.2. -/
def HID_CLSRQ_SET_REPORT : Nat := 0x09
/-- Modelled from the spec: `usb.h` is not among the sources; HID 1.11, section 7.2. -/
def HID_CLSRQ_SET_IDLE : Nat := 0x0A

/-- Modelled from the spec: `usb.h` is not among the sources; the flags say which
descriptor blobs live in program memory and need the other copy routine. -/
def USB_PARAM_FLAG_DEVDESC_PROGMEM : Nat := 1
/-- Modelled from the spec: `usb.h` is not among the sources; see
`USB_PARAM_FLAG_DEVDESC_PROGMEM`. -/
def USB_PARAM_FLAG_CONFDESC_PROGMEM : Nat := 2
/-- Modelled from the spec: `usb.h` is not among the sources; see
`USB_PARAM_FLAG_DEVDESC_PROGMEM`. -/
def USB_PARAM_FLAG_REPORTDESC_PROGMEM : Nat := 4

/-- Modelled from the spec: `usb.h` is not among the sources;
`sizeof(struct usb_device_descriptor)`, the 18-byte standard device descriptor
(USB 2.0, table 9-8). -/
def sizeof_usb_device_descriptor : Nat := 18

/-- Bit number of `ADDEN` in `UDADDR` (ATmega32U4 register map, `avr/io.h`). -/
def ADDEN : Nat := 7
/-- Bit number of `STALLRQ` in `UECONX` (ATmega32U4 register map, `avr/io.h`). -/
def STALLRQ : Nat := 5

/-- Bit number of `TXINI` in `UEINTX` (ATmega32U2/U4 register map, `avr/io.h`). -/
def TXINI : Nat := 0
/-- Bit number of `RXOUTI` in `UEINTX` (ATmega32U2/U4 register map, `avr/io.h`). -/
def RXOUTI : Nat := 2
/-- Bit number of `RXSTPI` in `UEINTX` (ATmega32U2/U4 register map, `avr/io.h`). -/
def RXSTPI : Nat := 3
/-- Bit number of `NAKINI` in `UEINTX` (ATmega32U2/U4 register map, `avr/io.h`). -/
def NAKINI : Nat := 6
/-- Bit number of `FIFOCON` in `UEINTX` (ATmega32U2/U4 register map, `avr/io.h`). -/
def FIFOCON : Nat := 7
/-- Bit number of `TXINE` in `UEIENX` (ATmega32U2/U4 register map, `avr/io.h`). -/
def TXINE : Nat := 0
/-- Bit number of `RXOUTE` in `UEIENX` (ATmega32U2/U4 register map, `avr/io.h`). -/
def RXOUTE : Nat := 2
/-- Bit number of `RXSTPE` in `UEIENX` (ATmega32U2/U4 register map, `avr/io.h`). -/
def RXSTPE : Nat := 3
/-- Bit number of `NAKINE` in `UEIENX` (ATmega32U2/U4 register map, `avr/io.h`). -/
def NAKINE : Nat := 6
/-- Bit number of `EPEN` in `UECONX` (ATmega32U2/U4 register map, `avr/io.h`). -/
def EPEN : Nat := 0
/-- Bit number of `EPDIR` in `UECFG0X` (ATmega32U2/U4 register map, `avr/io.h`). -/
def EPDIR : Nat := 0
/-- Bit number of `ALLOC` in `UECFG1X` (ATmega32U2/U4 register map, `avr/io.h`). -/
def ALLOC : Nat := 1
/-- Bit number of `EPSIZE0` in `UECFG1X` (ATmega32U2/U4 register map, `avr/io.h`). -/
def EPSIZE0 : Nat := 4
/-- Bit number of `EPSIZE1` in `UECFG1X` (ATmega32U2/U4 register map, `avr/io.h`). -/
def EPSIZE1 : Nat := 5
/-- Bit number of `CFGOK` in `UESTA0X` (ATmega32U2/U4 register map, `avr/io.h`). -/
def CFGOK : Nat := 7
/-- Bit number of `EPINT0` in `UEINT` (ATmega32U2/U4 register map, `avr/io.h`). -/
def EPINT0 : Nat := 0
/-- Bit number of `EPINT1` in `UEINT` (ATmega32U2/U4 register map, `avr/io.h`). -/
def EPINT1 : Nat := 1
/-- Bit number of `EPINT2` in `UEINT` (ATmega32U2/U4 register map, `avr/io.h`). -/
def EPINT2 : Nat := 2
/-- Bit number of `EPINT3` in `UEINT` (ATmega32U2/U4 register map, `avr/io.h`). -/
def EPINT3 : Nat := 3
/-- Bit number of `SUSPI` in `UDINT` (ATmega32U2/U4 register map, `avr/io.h`). -/
def SUSPI : Nat := 0
/-- Bit number of `SOFI` in `UDINT` (ATmega32U2/U4 register map, `avr/io.h`). -/
def SOFI : Nat := 2
/-- Bit number of `EORSTI` in `UDINT` (ATmega32U2/U4 register map, `avr/io.h`). -/
def EORSTI : Nat := 3
/-- Bit number of `WAKEUPI` in `UDINT` (ATmega32U2/U4 register map, `avr/io.h`). -/
def WAKEUPI : Nat := 4
/-- Bit number of `EORSMI` in `UDINT` (ATmega32U2/U4 register map, `avr/io.h`). -/
def EORSMI : Nat := 5
/-- Bit number of `UPRSMI` in `UDINT` (ATmega32U2/U4 register map, `avr/io.h`). -/
def UPRSMI : Nat := 6
/-- Bit number of `WAKEUPE` in `UDIEN` (ATmega32U2/U4 register map, `avr/io.h`). -/
def WAKEUPE : Nat := 4
/-- Bit number of `DETACH` in `UDCON` (ATmega32U2/U4 register map, `avr/io.h`). -/
def DETACH : Nat := 0
/-- Bit number of `VBUS` in `USBSTA` (ATmega32U4 register map, `avr/io.h`). -/
def VBUS : Nat := 0

/-- The attach state `STATE_WAIT_VBUS` of `usb_doTasks`. -/
def STATE_WAIT_VBUS : Nat := 0
/-- The attach state `STATE_ATTACHED` of `usb_doTasks`. -/
def STATE_ATTACHED : Nat := 1

/-! ## Data model -/

/-- The 8-byte setup request, `struct usb_request` (fields are `uint8_t`,
`uint8_t`, `uint16_t`, `uint16_t`, `uint16_t`). -/
structure usb_request where
  bmRequestType : Nat
  bRequest : Nat
  wValue : Nat
  wIndex : Nat
  wLength : Nat
deriving DecidableEq, Repr

/-- One entry of `g_params->hid_params[]`.  A callback is a nullable function
pointer: `none` is `NULL`.  `getReport ctx rq` yields the returned length and
the pointer stored through its third argument; `setReport ctx rq dat len`
yields the returned status byte. -/
structure usb_hid_parameters where
  reportdesc_len : Nat
  reportdesc : Nat → Nat
  endpoint_size : Nat
  ctx : Nat
  getReport : Option (Nat → usb_request → Nat × (Nat → Nat))
  setReport : Option (Nat → usb_request → (Nat → Nat) → Nat → Nat)

/-- The device parameters, `struct usb_parameters`.  `strings i` is the pointer
`strings[i]` to 16-bit `wchar_t` cells; `hid_params i` is whatever the memory
holds at `hid_params[i]`, also past the `n_hid_interfaces` entries in use. -/
structure usb_parameters where
  flags : Nat
  devdesc : Nat → Nat
  configdesc : Nat → Nat
  configdesc_ttllen : Nat
  num_strings : Nat
  strings : Nat → (Nat → Nat)
  n_hid_interfaces : Nat
  hid_params : Nat → usb_hid_parameters

/-- The controller registers written by `setupEndpoints`, `usb_doTasks` and the
device interrupt handler. -/
inductive Reg where
  | UENUM | UECONX | UECFG0X | UECFG1X | UEIENX | UEINTX | UDINT | UDIEN | UDCON
deriving DecidableEq, Repr

/-- What the firmware does to the USB controller and to the callbacks, in
program order. -/
inductive HwEvent where
  /-- The write `UEDATX = b` while endpoint `ep` is selected in `UENUM`. -/
  | UEDATX (ep : Nat) (b : Nat)
  /-- The busy-wait `while (!(UEINTX & (1<<TXINI)));` -/
  | wait_TXINI
  /-- The statement `UEINTX &= ~(1<<TXINI);`: releases the loaded bank. -/
  | clear_TXINI
  /-- The loop of `handleSetupPacket` that re-clears `TXINI` until `RXOUTI` is seen. -/
  | wait_RXOUTI
  /-- The statement `UEINTX &= ~(1<<RXOUTI);` -/
  | clear_RXOUTI
  /-- A write of `v` to `UDADDR`. -/
  | UDADDR (v : Nat)
  /-- The statement `UECONX |= (1<<STALLRQ);` -/
  | STALLRQ
  /-- An access to the table entry `g_params->hid_params[i]`. -/
  | hid_params (i : Nat)
  /-- A call of `hid_params[i].getReport`. -/
  | getReport (i : Nat)
  /-- A call of `hid_params[i].setReport` with `len`. -/
  | setReport (i : Nat) (len : Nat)
  /-- A store `*dst = UEDATX` of byte `b` to `control_write_buf[i]`. -/
  | buf_write (i : Nat) (b : Nat)
  /-- The statement `UEINTX &= ~(1<<RXSTPI);` -/
  | clear_RXSTPI
  /-- The statement `UEINTX &= ~(1<<NAKINI);` -/
  | clear_NAKINI
  /-- The statement `UEIENX &= ~(1<<TXINE);` while endpoint `ep` is selected. -/
  | ep_clear_TXINE (ep : Nat)
  /-- The statement `UEIENX |= (1<<TXINE);` while endpoint `ep` is selected. -/
  | ep_set_TXINE (ep : Nat)
  /-- The statement `UEINTX &= ~(1<<TXINI);` while endpoint `ep` is selected. -/
  | ep_clear_TXINI (ep : Nat)
  /-- The statement `UEINTX &= ~(1<<FIFOCON);` while endpoint `ep` is selected. -/
  | ep_clear_FIFOCON (ep : Nat)
  /-- The call `cli();` -/
  | cli
  /-- The statement `SREG = sreg;` -/
  | restore_SREG
  /-- A plain write `reg = v` to a controller register. -/
  | reg_set (reg : Reg) (v : Nat)
  /-- A statement `reg |= mask` on a controller register. -/
  | reg_or (reg : Reg) (mask : Nat)
  /-- A statement `reg &= mask` on a controller register. -/
  | reg_and (reg : Reg) (mask : Nat)
deriving DecidableEq, Repr

/-- The engine: the globals of `usb.c` used by the control transfer engine, the
software-written registers, and the log of hardware events.  A pointer held in
an interrupt slot (`interrupt_data`) is an address, `0` being `NULL`; `UDCON`
starts at the value `usb_init` writes. -/
structure Engine where
  g_device_state : Nat
  g_current_config : Nat
  control_write_rq : usb_request
  control_write_len : Nat
  control_write_in_progress : Nat
  control_write_buf : List Nat
  UDADDR : Nat
  UENUM : Nat
  UECONX : Nat
  log : List HwEvent
  g_usb_suspend : Nat
  interrupt_data : Nat
  interrupt_data_len : Int
  interrupt_data2 : Nat
  interrupt_data_len2 : Int
  interrupt_data3 : Nat
  interrupt_data_len3 : Int
  usb_state : Nat
  UDCON : Nat
deriving DecidableEq, Repr

/-- The engine after reset: `g_device_state = STATE_DEFAULT`, the interrupt
slots idle (`-1`), the other statics zero-initialised, nothing done yet. -/
def Engine.init : Engine where
  g_device_state := STATE_DEFAULT
  g_current_config := 0
  control_write_rq := ⟨0, 0, 0, 0, 0⟩
  control_write_len := 0
  control_write_in_progress := 0
  control_write_buf := List.replicate CONTROL_WRITE_BUFSIZE 0
  UDADDR := 0
  UENUM := 0
  UECONX := 0
  log := []
  g_usb_suspend := 0
  interrupt_data := 0
  interrupt_data_len := -1
  interrupt_data2 := 0
  interrupt_data_len2 := -1
  interrupt_data3 := 0
  interrupt_data_len3 := -1
  usb_state := STATE_WAIT_VBUS
  UDCON := 0x01

/-- Append one event to the log. -/
def Engine.emit (e : Engine) (ev : HwEvent) : Engine :=
  { e with log := e.log ++ [ev] }

/-- The byte source made of the bytes of a local array. -/
def bytes (l : List Nat) : Nat → Nat := fun i => l.getD i 0

/-- The byte view `(unsigned char*)str` of 16-bit cells (AVR is little-endian). -/
def wchar_bytes (str : Nat → Nat) : Nat → Nat :=
  fun j => if j % 2 = 0 then str (j / 2) % 256 else str (j / 2) / 256 % 256

/-- The read `pgm_read_byte(s)`: the byte at offset `i` of a program-memory source. -/
def pgm_read_byte (s : Nat → Nat) (i : Nat) : Nat := s i

/-- Conversion of a 16-bit `int` to `uint16_t`. -/
def uint16_of_int (x : Int) : Nat := (x % 65536).toNat

/-- Conversion of a `uint16_t` to the 16-bit `int` of the AVR. -/
def int_of_uint16 (x : Nat) : Int := if x < 32768 then (x : Int) else (x : Int) - 65536

/-! ## Functions of `usb.c` -/

/-- Function `initControlWrite`. -/
def initControlWrite (rq : usb_request) (e : Engine) : Engine :=
  { e with control_write_rq := rq, control_write_len := 0, control_write_in_progress := 1 }

/-- The loop of `wcslen`: `fuel` bounds the count `i`, a 16-bit `int`. -/
def wcslen_loop (str : Nat → Nat) : Nat → Nat → Nat
  | 0, i => i
  | fuel + 1, i => if str i ≠ 0 then wcslen_loop str fuel (i + 1) else i

/-- Function `wcslen`: the number of cells before the first zero cell.  The count is a
16-bit `int`, so the loop is followed for at most 32767 steps. -/
def wcslen (str : Nat → Nat) : Nat := wcslen_loop str 32767 0

/-- The statement `UEDATX = b;` -/
def write_UEDATX (b : Nat) (e : Engine) : Engine := e.emit (HwEvent.UEDATX e.UENUM b)

/-- Function `buf2EP`: select the endpoint, cap `len` to `max_len`, write `len` bytes. -/
def buf2EP (epnum : Nat) (src : Nat → Nat) (len max_len progmem : Nat) (e : Engine) : Engine :=
  let e := { e with UENUM := epnum }
  let len := if len > max_len then max_len else len
  if progmem ≠ 0 then
    (List.range len).foldl (fun e i => write_UEDATX (pgm_read_byte src i) e) e
  else
    (List.range len).foldl (fun e i => write_UEDATX (src i) e) e

/-- The statement `UEINTX &= ~(1<<TXINI);` -/
def clear_TXINI (e : Engine) : Engine := e.emit HwEvent.clear_TXINI

/-- The busy-wait `while (!(UEINTX & (1<<TXINI)));` -/
def wait_TXINI (e : Engine) : Engine := e.emit HwEvent.wait_TXINI

/-- The `while(1)` loop of `longDescriptorHelper`. -/
def longDescriptorHelper_loop (data : Nat → Nat) (progmem : Nat) (todo pos : Nat)
    (e : Engine) : Engine :=
  if todo > 64 then
    let e := buf2EP 0 (fun i => data (pos + i)) 64 64 progmem e
    let e := clear_TXINI e
    let e := wait_TXINI e
    longDescriptorHelper_loop data progmem (todo - 64) (pos + 64) e
  else
    let e := buf2EP 0 (fun i => data (pos + i)) todo todo progmem e
    let e := clear_TXINI e
    wait_TXINI e
termination_by todo
decreasing_by omega

/-- Function `longDescriptorHelper`. -/
def longDescriptorHelper (data : Nat → Nat) (len rq_len progmem : Nat) (e : Engine) : Engine :=
  let todo := if rq_len > len then len else rq_len
  longDescriptorHelper_loop data progmem todo 0 e

/-- The write `UDADDR = v;` to the 8-bit register. -/
def write_UDADDR (v : Nat) (e : Engine) : Engine :=
  { e with UDADDR := v % 256 }.emit (HwEvent.UDADDR (v % 256))

/-- The statement `UECONX |= (1<<STALLRQ);` -/
def set_STALLRQ (e : Engine) : Engine :=
  { e with UECONX := e.UECONX ||| (1 <<< STALLRQ) }.emit HwEvent.STALLRQ

/-- An evaluation of the expression `g_params->hid_params[i]`. -/
def access_hid_params (i : Nat) (e : Engine) : Engine := e.emit (HwEvent.hid_params i)

/-- The host-to-device block of `handleSetupPacket` (lines 242-348): the new
engine and the value of `unhandled`. -/
def handleSetupPacket_out (rq : usb_request) (unhandled : Nat) (e : Engine) : Engine × Nat :=
  let recipient := rq.bmRequestType &&& USB_RQT_RECIPIENT_MASK
  if recipient = USB_RQT_RECIPIENT_DEVICE then
    if rq.bRequest = USB_RQ_SET_ADDRESS then
      let e := write_UDADDR rq.wValue e
      let e := wait_TXINI e
      let e := clear_TXINI e
      let e := wait_TXINI e
      let e := write_UDADDR (e.UDADDR ||| (1 <<< ADDEN)) e
      if rq.wValue = 0 then
        ({ e with g_device_state := STATE_DEFAULT }, unhandled)
      else
        ({ e with g_device_state := STATE_ADDRESS }, unhandled)
    else if rq.bRequest = USB_RQ_SET_CONFIGURATION then
      let e := { e with g_current_config := rq.wValue % 256 }
      let e :=
        if e.g_current_config = 0 then { e with g_device_state := STATE_ADDRESS }
        else { e with g_device_state := STATE_CONFIGURED }
      let e := wait_TXINI e
      let e := clear_TXINI e
      (e, unhandled)
    else
      (e, 1)
  else if recipient = USB_RQT_RECIPIENT_INTERFACE then
    if rq.bmRequestType &&& USB_RQT_TYPE_MASK = USB_RQT_CLASS then
      if rq.bRequest = HID_CLSRQ_SET_IDLE then
        let e := wait_TXINI e
        let e := clear_TXINI e
        (e, unhandled)
      else if rq.bRequest = HID_CLSRQ_SET_REPORT then
        let e := wait_TXINI e
        let e := clear_TXINI e
        let e := initControlWrite rq e
        (e, unhandled)
      else
        (e, 1)
    else
      (e, 1)
  else if recipient = USB_RQT_RECIPIENT_ENDPOINT then
    if rq.bRequest = USB_RQ_SET_FEATURE ∨ rq.bRequest = USB_RQ_CLEAR_FEATURE then
      let FEATURE_SELECTOR_ENDPOINT_HALT := 0x00
      if rq.wValue = FEATURE_SELECTOR_ENDPOINT_HALT then
        if rq.wIndex ≥ 0x81 ∧ rq.wIndex ≤ 0x83 then
          let e := wait_TXINI e
          let e := clear_TXINI e
          (e, unhandled)
        else
          (e, 1)
      else
        (e, 1)
    else
      (e, 1)
  else
    (e, 1)

/-- The `STRING_DESCRIPTOR` case of `handleSetupPacket` (lines 393-426). -/
def handleSetupPacket_string (g_params : usb_parameters) (rq : usb_request) (e : Engine) :
    Engine :=
  let id := rq.wValue &&& 0xff
  if id > 0 ∧ id ≤ g_params.num_strings then
    let id := id - 1
    let len : Int := int_of_uint16 rq.wLength
    let slen : Int := int_of_uint16 ((wcslen (g_params.strings id) <<< 1) % 65536)
    let hdr_bLength := ((2 + slen) % 256).toNat
    let hdr_bDescriptorType := STRING_DESCRIPTOR
    let e := buf2EP 0 (bytes [hdr_bLength, hdr_bDescriptorType]) 2 (uint16_of_int len) 0 e
    let len := len - 2
    buf2EP 0 (wchar_bytes (g_params.strings id)) (uint16_of_int slen) (uint16_of_int len) 0 e
  else if id = 0 then
    buf2EP 0 (bytes [4, STRING_DESCRIPTOR, 0x09, 0x04]) 4 rq.wLength 0 e
  else
    e

/-- The handlers of the device-to-host block of `handleSetupPacket`, the
`switch` of lines 355-539: the new engine and the value of `unhandled`. -/
def handleSetupPacket_in_handlers (g_params : usb_parameters) (rq : usb_request)
    (unhandled : Nat) (e : Engine) : Engine × Nat :=
  let recipient := rq.bmRequestType &&& USB_RQT_RECIPIENT_MASK
  if recipient = USB_RQT_RECIPIENT_DEVICE then
    if rq.bRequest = USB_RQ_GET_STATUS then
      (buf2EP 0 (bytes [0x00, 0x00]) 2 rq.wLength 0 e, unhandled)
    else if rq.bRequest = USB_RQ_GET_CONFIGURATION then
      if e.g_device_state ≠ STATE_CONFIGURED then
        (buf2EP 0 (bytes [0]) 1 rq.wLength 0 e, unhandled)
      else
        (buf2EP 0 (bytes [e.g_current_config]) 1 rq.wLength 0 e, unhandled)
    else if rq.bRequest = USB_RQ_GET_DESCRIPTOR then
      let ty := rq.wValue >>> 8
      if ty = DEVICE_DESCRIPTOR then
        (buf2EP 0 g_params.devdesc sizeof_usb_device_descriptor rq.wLength
          (g_params.flags &&& USB_PARAM_FLAG_DEVDESC_PROGMEM) e, unhandled)
      else if ty = CONFIGURATION_DESCRIPTOR then
        (longDescriptorHelper g_params.configdesc g_params.configdesc_ttllen rq.wLength
          (g_params.flags &&& USB_PARAM_FLAG_CONFDESC_PROGMEM) e, unhandled)
      else if ty = STRING_DESCRIPTOR then
        (handleSetupPacket_string g_params rq e, unhandled)
      else if ty = DEVICE_QUALIFIER_DESCRIPTOR then
        (e, 1)
      else
        (e, 1)
    else
      (e, 1)
  else if recipient = USB_RQT_RECIPIENT_INTERFACE then
    let ty := rq.bmRequestType &&& USB_RQT_TYPE_MASK
    if ty = USB_RQT_STANDARD then
      if rq.bRequest = USB_RQ_GET_STATUS then
        (buf2EP 0 (bytes [0x00, 0x00]) 2 rq.wLength 0 e, unhandled)
      else if rq.bRequest = USB_RQ_GET_DESCRIPTOR then
        if rq.wValue >>> 8 = REPORT_DESCRIPTOR then
          if rq.wIndex > g_params.n_hid_interfaces then
            (e, 1)
          else
            let e := access_hid_params rq.wIndex e
            let reportdesc := (g_params.hid_params rq.wIndex).reportdesc
            let e := access_hid_params rq.wIndex e
            let reportdesc_len := (g_params.hid_params rq.wIndex).reportdesc_len
            (longDescriptorHelper reportdesc reportdesc_len rq.wLength
              (g_params.flags &&& USB_PARAM_FLAG_REPORTDESC_PROGMEM) e, unhandled)
        else
          (e, 1)
      else
        (e, 1)
    else if ty = USB_RQT_CLASS then
      if rq.bRequest = HID_CLSRQ_GET_REPORT then
        if rq.wIndex > g_params.n_hid_interfaces then
          (e, unhandled)
        else
          let e := access_hid_params rq.wIndex e
          match (g_params.hid_params rq.wIndex).getReport with
          | some getReport =>
            let e := access_hid_params rq.wIndex e
            let e := access_hid_params rq.wIndex e
            let ctx := (g_params.hid_params rq.wIndex).ctx
            let e := e.emit (HwEvent.getReport rq.wIndex)
            let (len, data) := getReport ctx rq
            if len ≠ 0 then
              (buf2EP 0 data len rq.wLength 0 e, unhandled)
            else
              (e, unhandled)
          | none =>
            (e, 1)
      else
        (e, 1)
    else
      (e, 1)
  else if recipient = USB_RQT_RECIPIENT_ENDPOINT then
    if rq.bRequest = USB_RQ_GET_STATUS then
      (buf2EP 0 (bytes [0x00, 0x00]) 2 rq.wLength 0 e, unhandled)
    else
      (e, 1)
  else
    (e, 1)

/-- The device-to-host block of `handleSetupPacket` (lines 353-558): the
handlers, then the status-stage handshake when the request was handled. -/
def handleSetupPacket_in (g_params : usb_parameters) (rq : usb_request) (unhandled : Nat)
    (e : Engine) : Engine × Nat :=
  let r : Engine × Nat := handleSetupPacket_in_handlers g_params rq unhandled e
  if r.2 = 0 then
    let e := clear_TXINI r.1
    let e := e.emit HwEvent.wait_RXOUTI
    let e := e.emit HwEvent.clear_RXOUTI
    (e, r.2)
  else
    r

/-- Function `handleSetupPacket`. -/
def handleSetupPacket (g_params : usb_parameters) (rq : usb_request) (e : Engine) : Engine :=
  let unhandled := 0
  let r : Engine × Nat :=
    if USB_RQT_IS_HOST_TO_DEVICE rq.bmRequestType then handleSetupPacket_out rq unhandled e
    else (e, unhandled)
  let r : Engine × Nat :=
    if USB_RQT_IS_DEVICE_TO_HOST rq.bmRequestType then handleSetupPacket_in g_params rq r.2 r.1
    else r
  if r.2 ≠ 0 then set_STALLRQ r.1 else r.1

/-- Function `handleDataPacket`: the completion of a control write, with the
recorded request, the accumulated bytes and their count. -/
def handleDataPacket (g_params : usb_parameters) (rq : usb_request) (dat : Nat → Nat)
    (len : Nat) (e : Engine) : Engine :=
  if rq.bmRequestType &&& USB_RQT_TYPE_MASK = USB_RQT_CLASS then
    if rq.wIndex > g_params.n_hid_interfaces then
      e
    else
      let e := access_hid_params rq.wIndex e
      match (g_params.hid_params rq.wIndex).setReport with
      | some setReport =>
        let e := access_hid_params rq.wIndex e
        let e := access_hid_params rq.wIndex e
        let ctx := (g_params.hid_params rq.wIndex).ctx
        let e := e.emit (HwEvent.setReport rq.wIndex len)
        if setReport ctx rq dat len ≠ 0 then
          set_STALLRQ e
        else
          clear_TXINI e
      | none =>
        e
  else
    e

/-- The statement `if (c) { f }` on the engine: `f` is run when `c` holds. -/
def run_if (c : Bool) (f : Engine → Engine) (e : Engine) : Engine := if c then f e else e

/-! ## The endpoint interrupt, `ISR(USB_COM_vect)` -/

/-- What the controller presents during one run of `ISR(USB_COM_vect)`: the
value read from `UEINT`, the value read from `UEINTX` with endpoint 0
selected, the bytes found in the bank of endpoint 0 when the setup branch
and when the OUT branch read it (`UEBCLX` is their number, `UEDATX` yields them
in order), the previous content of the local `rq`, the values read from
`UEINTX` with endpoints 1, 2 and 3 selected, and the content of the RAM. -/
structure com_irq where
  UEINT : Nat
  UEINTX0 : Nat
  setup_bank : List Nat
  out_bank : List Nat
  stack : Nat → Nat
  UEINTX1 : Nat
  UEINTX2 : Nat
  UEINTX3 : Nat
  ram : Nat → Nat

/-- Function `getEPlen`: the byte count of the selected bank, a `uint16_t`. -/
def getEPlen (bank : List Nat) : Nat := bank.length % 65536

/-- Function `readEP2buf_n` on the local `struct usb_request`: the first
`min len n` bytes of the bank overwrite the bytes of the object, the others
keep what the stack held; the fields are read back little-endian. -/
def readEP2buf_n (bank : List Nat) (n : Nat) (stack : Nat → Nat) : usb_request :=
  let len := getEPlen bank
  let byte := fun k => if k < len ∧ k < n then bank.getD k 0 else stack k
  { bmRequestType := byte 0
    bRequest := byte 1
    wValue := byte 2 + 256 * byte 3
    wIndex := byte 4 + 256 * byte 5
    wLength := byte 6 + 256 * byte 7 }

/-- The store `*dst = UEDATX;` into `control_write_buf[i]`. -/
def store_control_write_buf (i b : Nat) (e : Engine) : Engine :=
  { e with control_write_buf := e.control_write_buf.set i b }.emit (HwEvent.buf_write i b)

/-- The loop of `readEP2buf` with `dst = control_write_buf + dst`: each byte
read from `UEDATX` is stored, the destination advancing by one. -/
def readEP2buf_loop : List Nat → Nat → Engine → Engine
  | [], _, e => e
  | b :: bank, dst, e => readEP2buf_loop bank (dst + 1) (store_control_write_buf dst b e)

/-- Function `readEP2buf` with `dst = control_write_buf + dst`: the byte count
is read, then that many bytes of the bank are stored. -/
def readEP2buf (bank : List Nat) (dst : Nat) (e : Engine) : Engine :=
  let len := getEPlen bank
  readEP2buf_loop (bank.take len) dst e

/-- The `RXSTPI` branch of `ISR(USB_COM_vect)` (lines 693-699). -/
def USB_COM_vect_RXSTPI (g_params : usb_parameters) (hw : com_irq) (e : Engine) : Engine :=
  let rq := readEP2buf_n hw.setup_bank 8 hw.stack
  let e := e.emit HwEvent.clear_RXSTPI
  handleSetupPacket g_params rq e

/-- The `RXOUTI` branch of `ISR(USB_COM_vect)` (lines 701-714); the sum
`control_write_len + len` is a 16-bit unsigned sum. -/
def USB_COM_vect_RXOUTI (bank : List Nat) (e : Engine) : Engine :=
  let len := getEPlen bank
  let e :=
    if e.control_write_in_progress ≠ 0 then
      if (e.control_write_len + len) % 65536 < CONTROL_WRITE_BUFSIZE then
        let e := readEP2buf bank e.control_write_len e
        { e with control_write_len := (e.control_write_len + len) % 65536 }
      else e
    else e
  e.emit HwEvent.clear_RXOUTI

/-- The `NAKINI` branch of `ISR(USB_COM_vect)` (lines 716-723). -/
def USB_COM_vect_NAKINI (g_params : usb_parameters) (e : Engine) : Engine :=
  let e := e.emit HwEvent.clear_NAKINI
  if e.control_write_in_progress ≠ 0 then
    let e := handleDataPacket g_params e.control_write_rq (bytes e.control_write_buf)
      e.control_write_len e
    { e with control_write_in_progress := 0 }
  else e

/-- Function `handle_interrupt_xmit`: `slot` is the pair `(*interrupt_data,
*interrupt_data_len)` behind the two pointer arguments, returned updated;
`UEINTX` is the value read from the register once `ep` is selected. -/
def handle_interrupt_xmit (ep : Nat) (UEINTX : Nat) (ram : Nat → Nat) (slot : Nat × Int)
    (e : Engine) : (Nat × Int) × Engine :=
  let e := { e with UENUM := ep }
  let i := UEINTX % 256
  if i &&& (1 <<< TXINI) ≠ 0 then
    if slot.2 < 0 then
      (slot, e.emit (HwEvent.ep_clear_TXINE e.UENUM))
    else
      let e := e.emit (HwEvent.ep_clear_TXINI e.UENUM)
      let e := buf2EP ep (fun k => ram (slot.1 + k)) (uint16_of_int slot.2)
        (uint16_of_int slot.2) 0 e
      let slot : Nat × Int := (0, -1)
      let e := e.emit (HwEvent.ep_clear_FIFOCON e.UENUM)
      (slot, e)
  else
    (slot, e)

/-- The call `handle_interrupt_xmit(1, &interrupt_data, &interrupt_data_len)`. -/
def USB_COM_vect_EPINT1 (hw : com_irq) (e : Engine) : Engine :=
  let r := handle_interrupt_xmit 1 hw.UEINTX1 hw.ram (e.interrupt_data, e.interrupt_data_len) e
  { r.2 with interrupt_data := r.1.1, interrupt_data_len := r.1.2 }

/-- The call `handle_interrupt_xmit(2, &interrupt_data2, &interrupt_data_len2)`. -/
def USB_COM_vect_EPINT2 (hw : com_irq) (e : Engine) : Engine :=
  let r := handle_interrupt_xmit 2 hw.UEINTX2 hw.ram (e.interrupt_data2, e.interrupt_data_len2) e
  { r.2 with interrupt_data2 := r.1.1, interrupt_data_len2 := r.1.2 }

/-- The call `handle_interrupt_xmit(3, &interrupt_data3, &interrupt_data_len3)`. -/
def USB_COM_vect_EPINT3 (hw : com_irq) (e : Engine) : Engine :=
  let r := handle_interrupt_xmit 3 hw.UEINTX3 hw.ram (e.interrupt_data3, e.interrupt_data_len3) e
  { r.2 with interrupt_data3 := r.1.1, interrupt_data_len3 := r.1.2 }

/-- The endpoint-0 block of `ISR(USB_COM_vect)` (lines 690-723). -/
def USB_COM_vect_EPINT0 (g_params : usb_parameters) (hw : com_irq) (e : Engine) : Engine :=
  let e := { e with UENUM := 0 }
  let i := hw.UEINTX0 % 256
  let e := run_if (i &&& (1 <<< RXSTPI) != 0) (USB_COM_vect_RXSTPI g_params hw) e
  let e := run_if (i &&& (1 <<< RXOUTI) != 0) (USB_COM_vect_RXOUTI hw.out_bank) e
  let e := run_if (i &&& (1 <<< NAKINI) != 0) (USB_COM_vect_NAKINI g_params) e
  e

/-- The endpoint interrupt handler `ISR(USB_COM_vect)`. -/
def USB_COM_vect (g_params : usb_parameters) (hw : com_irq) (e : Engine) : Engine :=
  let ueint := hw.UEINT % 256
  let e := run_if (ueint &&& (1 <<< EPINT0) != 0) (USB_COM_vect_EPINT0 g_params hw) e
  let e := run_if (ueint &&& (1 <<< EPINT1) != 0) (USB_COM_vect_EPINT1 hw) e
  let e := run_if (ueint &&& (1 <<< EPINT2) != 0) (USB_COM_vect_EPINT2 hw) e
  let e := run_if (ueint &&& (1 <<< EPINT3) != 0) (USB_COM_vect_EPINT3 hw) e
  e

/-! ## The interrupt channels seen from the main loop

An interrupt can only run between two evaluations of the condition of the
waiting loop `while (interrupt_data_len != -1) { }`, whose body is empty: a
call is run from a given engine and the loop is followed for `fuel` evaluations
of its condition; `none` says the call is still spinning. -/

/-- Function `usb_interruptReady_ep1`. -/
def usb_interruptReady_ep1 (e : Engine) : Bool := e.interrupt_data_len == -1

/-- Function `usb_interruptReady_ep2`. -/
def usb_interruptReady_ep2 (e : Engine) : Bool := e.interrupt_data_len2 == -1

/-- Function `usb_interruptReady_ep3`. -/
def usb_interruptReady_ep3 (e : Engine) : Bool := e.interrupt_data_len3 == -1

/-- The statements of `usb_interruptSend_ep1` after its waiting loop: the
critical section installing `(data, len)` and enabling the transmit-ready
interrupt of endpoint 1. -/
def usb_interruptSend_ep1_install (data : Nat) (len : Int) (e : Engine) : Engine :=
  let e := e.emit HwEvent.cli
  let e := { e with interrupt_data := data, interrupt_data_len := len }
  let e := { e with UENUM := 1 }
  let e := e.emit (HwEvent.ep_set_TXINE e.UENUM)
  e.emit HwEvent.restore_SREG

/-- Function `usb_interruptSend_ep1`. -/
def usb_interruptSend_ep1 : Nat → Nat → Int → Engine → Option Engine
  | 0, _, _, _ => none
  | fuel + 1, data, len, e =>
    if e.interrupt_data_len ≠ -1 then
      usb_interruptSend_ep1 fuel data len e
    else
      some (usb_interruptSend_ep1_install data len e)

/-- The statements of `usb_interruptSend_ep2` after its waiting loop: the
critical section installing `(data, len)` and enabling the transmit-ready
interrupt of endpoint 2. -/
def usb_interruptSend_ep2_install (data : Nat) (len : Int) (e : Engine) : Engine :=
  let e := e.emit HwEvent.cli
  let e := { e with interrupt_data2 := data, interrupt_data_len2 := len }
  let e := { e with UENUM := 2 }
  let e := e.emit (HwEvent.ep_set_TXINE e.UENUM)
  e.emit HwEvent.restore_SREG

/-- Function `usb_interruptSend_ep2`. -/
def usb_interruptSend_ep2 : Nat → Nat → Int → Engine → Option Engine
  | 0, _, _, _ => none
  | fuel + 1, data, len, e =>
    if e.interrupt_data_len2 ≠ -1 then
      usb_interruptSend_ep2 fuel data len e
    else
      some (usb_interruptSend_ep2_install data len e)

/-- The statements of `usb_interruptSend_ep3` after its waiting loop: the
critical section installing `(data, len)` and enabling the transmit-ready
interrupt of endpoint 3. -/
def usb_interruptSend_ep3_install (data : Nat) (len : Int) (e : Engine) : Engine :=
  let e := e.emit HwEvent.cli
  let e := { e with interrupt_data3 := data, interrupt_data_len3 := len }
  let e := { e with UENUM := 3 }
  let e := e.emit (HwEvent.ep_set_TXINE e.UENUM)
  e.emit HwEvent.restore_SREG

/-- Function `usb_interruptSend_ep3`. -/
def usb_interruptSend_ep3 : Nat → Nat → Int → Engine → Option Engine
  | 0, _, _, _ => none
  | fuel + 1, data, len, e =>
    if e.interrupt_data_len3 ≠ -1 then
      usb_interruptSend_ep3 fuel data len e
    else
      some (usb_interruptSend_ep3_install data len e)

/-! ## Attach tracking and the device interrupt -/

/-- The statements `UDCON &= ~(1<<DETACH); usb_state = STATE_ATTACHED;` -/
def usb_doTasks_attach (e : Engine) : Engine :=
  let mask := 255 - (1 <<< DETACH)
  let e := { e with UDCON := e.UDCON &&& mask }.emit (HwEvent.reg_and Reg.UDCON mask)
  { e with usb_state := STATE_ATTACHED }

/-- Function `usb_doTasks`.  `USBSTA` is `none` when the controller has no
`USBSTA` register, so that the lines under `#ifdef USBSTA` are not compiled,
and `some v` when the register exists and reads `v`. -/
def usb_doTasks (USBSTA : Option Nat) (e : Engine) : Engine :=
  let e :=
    if e.usb_state ≠ STATE_WAIT_VBUS ∧ e.usb_state ≠ STATE_ATTACHED then
      { e with usb_state := STATE_WAIT_VBUS }
    else e
  if e.usb_state = STATE_WAIT_VBUS then
    match USBSTA with
    | some v => if v &&& (1 <<< VBUS) ≠ 0 then usb_doTasks_attach e else e
    | none => usb_doTasks_attach e
  else
    e

/-- Function `getEPsizebits`; `-1` is returned as the `uint8_t` 0xFF. -/
def getEPsizebits (epsize : Nat) : Nat :=
  if epsize = 64 then (1 <<< EPSIZE0) ||| (1 <<< EPSIZE1)
  else if epsize = 32 then 1 <<< EPSIZE1
  else if epsize = 16 then 1 <<< EPSIZE0
  else if epsize = 8 then 0
  else 0xFF

/-- The loop of `setupEndpoints` over the HID interfaces, `k` iterations being
left; `UESTA0X ep` is the value read from `UESTA0X` with `ep` selected. -/
def setupEndpoints_loop (g_params : usb_parameters) (UESTA0X : Nat → Nat) :
    Nat → Nat → Engine → Engine
  | 0, _, e => e
  | k + 1, i, e =>
    let e := { e with UENUM := (0x01 + i) % 256 }.emit (HwEvent.reg_set Reg.UENUM ((0x01 + i) % 256))
    let e := e.emit (HwEvent.reg_set Reg.UECONX (1 <<< EPEN))
    let e := e.emit (HwEvent.reg_set Reg.UECFG0X ((3 <<< 6) ||| (1 <<< EPDIR)))
    let e := e.emit (HwEvent.reg_set Reg.UEIENX (1 <<< TXINE))
    let e := access_hid_params i e
    let epsize := getEPsizebits (g_params.hid_params i).endpoint_size
    if epsize = 0xff then
      e
    else
      let e := e.emit (HwEvent.reg_set Reg.UECFG1X (epsize ||| (1 <<< ALLOC)))
      let e := e.emit (HwEvent.reg_set Reg.UEINTX 0)
      if UESTA0X e.UENUM &&& (1 <<< CFGOK) = 0 then
        e
      else
        setupEndpoints_loop g_params UESTA0X k (i + 1) e

/-- Function `setupEndpoints`. -/
def setupEndpoints (g_params : usb_parameters) (UESTA0X : Nat → Nat) (e : Engine) : Engine :=
  let e := { e with UENUM := 0x00 }.emit (HwEvent.reg_set Reg.UENUM 0x00)
  let e := { e with UECONX := 1 <<< EPEN }.emit (HwEvent.reg_set Reg.UECONX (1 <<< EPEN))
  let e := e.emit (HwEvent.reg_set Reg.UECFG0X 0)
  let e := e.emit (HwEvent.reg_set Reg.UEIENX ((1 <<< RXSTPE) ||| (1 <<< RXOUTE) ||| (1 <<< NAKINE)))
  let epsize := getEPsizebits 64
  let e := e.emit (HwEvent.reg_or Reg.UECFG1X (epsize ||| (1 <<< ALLOC)))
  let e := e.emit (HwEvent.reg_set Reg.UEINTX 0)
  if UESTA0X e.UENUM &&& (1 <<< CFGOK) = 0 then
    e
  else
    setupEndpoints_loop g_params UESTA0X g_params.n_hid_interfaces 0 e

/-- The `SUSPI` branch of `ISR(USB_GEN_vect)` (lines 605-614). -/
def USB_GEN_vect_SUSPI (e : Engine) : Engine :=
  let e := e.emit (HwEvent.reg_and Reg.UDINT (255 - (1 <<< SUSPI)))
  let e := { e with g_usb_suspend := 1 }
  e.emit (HwEvent.reg_or Reg.UDIEN (1 <<< WAKEUPE))

/-- The `WAKEUPI` branch of `ISR(USB_GEN_vect)` (lines 617-626). -/
def USB_GEN_vect_WAKEUPI (e : Engine) : Engine :=
  let e := e.emit (HwEvent.reg_and Reg.UDINT (255 - (1 <<< WAKEUPE)))
  if e.g_usb_suspend ≠ 0 then
    let e := { e with g_usb_suspend := 0 }
    e.emit (HwEvent.reg_and Reg.UDIEN (255 - (1 <<< WAKEUPE)))
  else e

/-- The `EORSTI` branch of `ISR(USB_GEN_vect)` (lines 628-635). -/
def USB_GEN_vect_EORSTI (g_params : usb_parameters) (UESTA0X : Nat → Nat) (e : Engine) :
    Engine :=
  let e := { e with g_usb_suspend := 0 }
  let e := setupEndpoints g_params UESTA0X e
  e.emit (HwEvent.reg_and Reg.UDINT (255 - (1 <<< EORSTI)))

/-- The statement `UDINT &= ~(1<<bit);` -/
def clear_UDINT (bit : Nat) (e : Engine) : Engine :=
  e.emit (HwEvent.reg_and Reg.UDINT (255 - (1 <<< bit)))

/-- The device interrupt handler `ISR(USB_GEN_vect)`: `UDINT` is the value read
from the register, `UESTA0X` what `setupEndpoints` reads. -/
def USB_GEN_vect (g_params : usb_parameters) (UDINT : Nat) (UESTA0X : Nat → Nat)
    (e : Engine) : Engine :=
  let i := UDINT % 256
  let e := run_if (i &&& (1 <<< SUSPI) != 0) USB_GEN_vect_SUSPI e
  let e := run_if (i &&& (1 <<< WAKEUPI) != 0) USB_GEN_vect_WAKEUPI e
  let e := run_if (i &&& (1 <<< EORSTI) != 0) (USB_GEN_vect_EORSTI g_params UESTA0X) e
  let e := run_if (i &&& (1 <<< SOFI) != 0) (clear_UDINT SOFI) e
  let e := run_if (i &&& (1 <<< EORSMI) != 0) (clear_UDINT EORSMI) e
  let e := run_if (i &&& (1 <<< UPRSMI) != 0) (clear_UDINT UPRSMI) e
  e

/-! ## Observations on the log -/

/-- The bytes written to the FIFO of endpoint 0, in order. -/
def ep0_byte : HwEvent → Option Nat
  | HwEvent.UEDATX ep b => if ep = 0 then some b else none
  | _ => none

/-- The bytes written to the FIFO of endpoint 0, in order. -/
def ep0_bytes (log : List HwEvent) : List Nat := log.filterMap ep0_byte

/-- The first `n` bytes found at a pointer. -/
def mem (src : Nat → Nat) (n : Nat) : List Nat := (List.range n).map src

/-! ## A sample configuration

A small configuration shaped like the single-port Switch mode of `main.c`, where
`n_hid_interfaces` is patched to 1 while `hid_params[1]` still holds the
management interface. -/

/-- A sample joystick interface: 15-byte input report, `setReport` accepting. -/
def sample_pad_interface : usb_hid_parameters where
  reportdesc_len := 4
  reportdesc := bytes [0x05, 0x01, 0x09, 0x05]
  endpoint_size := 16
  ctx := 0
  getReport := some (fun _ _ => (15, bytes [1, 2, 3, 4, 5, 6, 7, 8, 9, 10, 11, 12, 13, 14, 15]))
  setReport := some (fun _ _ _ _ => 0)

/-- A sample management interface: 3-byte answer, `setReport` accepting. -/
def sample_data_interface : usb_hid_parameters where
  reportdesc_len := 3
  reportdesc := bytes [0x06, 0x00, 0xff]
  endpoint_size := 64
  ctx := 0
  getReport := some (fun _ _ => (3, bytes [0xAA, 0xBB, 0xCC]))
  setReport := some (fun _ _ _ _ => 0)

/-- A zero-filled table entry. -/
def zero_interface : usb_hid_parameters where
  reportdesc_len := 0
  reportdesc := fun _ => 0
  endpoint_size := 0
  ctx := 0
  getReport := none
  setReport := none

/-- The sample parameters: one interface in use, the management interface
still stored at index 1, one string `"A"`. -/
def sample_params : usb_parameters where
  flags := USB_PARAM_FLAG_CONFDESC_PROGMEM ||| USB_PARAM_FLAG_REPORTDESC_PROGMEM
  devdesc := bytes [18, 1, 0x00, 0x02, 0, 0, 0, 64, 0x0d, 0x0f, 0x92, 0x00, 0x01, 0x00, 1, 2, 0, 1]
  configdesc := bytes [9, 2, 12, 0, 1, 1, 0, 0x80, 50, 9, 4, 0]
  configdesc_ttllen := 12
  num_strings := 1
  strings := fun _ => bytes [0x41, 0]
  n_hid_interfaces := 1
  hid_params := fun i =>
    if i = 0 then sample_pad_interface
    else if i = 1 then sample_data_interface
    else zero_interface

/-- An engine in the Address state that still stores configuration value 5. -/
def sample_unconfigured : Engine :=
  { Engine.init with g_device_state := STATE_ADDRESS, g_current_config := 5 }

/-- A run of the endpoint interrupt for a setup packet holding the HID class
Set_Report request for interface 0 (`wValue = 0x0200`, `wLength = 70`). -/
def sample_setup_irq : com_irq where
  UEINT := 1 <<< EPINT0
  UEINTX0 := 1 <<< RXSTPI
  setup_bank := [0x21, 0x09, 0x00, 0x02, 0x00, 0x00, 70, 0x00]
  out_bank := []
  stack := fun _ => 0
  UEINTX1 := 0
  UEINTX2 := 0
  UEINTX3 := 0
  ram := fun _ => 0

/-- A run of the endpoint interrupt for an OUT packet holding `bank`. -/
def sample_out_irq (bank : List Nat) : com_irq where
  UEINT := 1 <<< EPINT0
  UEINTX0 := 1 <<< RXOUTI
  setup_bank := []
  out_bank := bank
  stack := fun _ => 0
  UEINTX1 := 0
  UEINTX2 := 0
  UEINTX3 := 0
  ram := fun _ => 0

/-- A run of the endpoint interrupt for the completion signal `NAKINI`. -/
def sample_nak_irq : com_irq where
  UEINT := 1 <<< EPINT0
  UEINTX0 := 1 <<< NAKINI
  setup_bank := []
  out_bank := []
  stack := fun _ => 0
  UEINTX1 := 0
  UEINTX2 := 0
  UEINTX3 := 0
  ram := fun _ => 0

/-- The HID class Set_Report request for interface 0 with `wLength = 70`. -/
def sample_set_report : usb_request := ⟨0x21, HID_CLSRQ_SET_REPORT, 0x0200, 0, 70⟩

/-- A run of the endpoint interrupt for endpoint 1 ready to transmit; the RAM
holds at each address the low byte of the address. -/
def sample_xmit_irq : com_irq where
  UEINT := 1 <<< EPINT1
  UEINTX0 := 0
  setup_bank := []
  out_bank := []
  stack := fun _ => 0
  UEINTX1 := 1 <<< TXINI
  UEINTX2 := 0
  UEINTX3 := 0
  ram := fun a => a % 256

/-- An engine whose first interrupt slot holds a 3-byte report at address 100. -/
def sample_pending : Engine :=
  { Engine.init with interrupt_data := 100, interrupt_data_len := 3 }

/-! ## Auxiliary definitions for the statements -/

/-- The events appended by the loop of `longDescriptorHelper`: full 64-byte
chunks while more than 64 bytes remain, then the remaining bytes; each chunk is
followed by the release of the bank and the wait for its transmission. -/
def long_events (data : Nat → Nat) (todo pos : Nat) : List HwEvent :=
  if todo > 64 then
    (mem (fun i => data (pos + i)) 64).map (HwEvent.UEDATX 0) ++
      [HwEvent.clear_TXINI, HwEvent.wait_TXINI] ++ long_events data (todo - 64) (pos + 64)
  else
    (mem (fun i => data (pos + i)) todo).map (HwEvent.UEDATX 0) ++
      [HwEvent.clear_TXINI, HwEvent.wait_TXINI]
termination_by todo
decreasing_by omega

/-- The packets released on endpoint 0: `cur` is the content of the bank being
loaded; each clearing of `TXINI` releases the bank as one packet. -/
def packets_aux : List HwEvent → List Nat → List (List Nat)
  | [], _ => []
  | HwEvent.UEDATX ep b :: l, cur => packets_aux l (if ep = 0 then cur ++ [b] else cur)
  | HwEvent.clear_TXINI :: l, cur => cur :: packets_aux l []
  | _ :: l, cur => packets_aux l cur

/-- The packets released on endpoint 0 by a sequence of events. -/
def packets (log : List HwEvent) : List (List Nat) := packets_aux log []

/-- The bytes loaded into endpoint 0 by the handling of one setup request. -/
def reply (g_params : usb_parameters) (rq : usb_request) (e : Engine) : List Nat :=
  ep0_bytes ((handleSetupPacket g_params rq e).log.drop e.log.length)

/-- The engine and the value of `unhandled` when `handleSetupPacket` reaches its
final test `if (unhandled)`. -/
def handleSetupPacket_blocks (g_params : usb_parameters) (rq : usb_request) (e : Engine) :
    Engine × Nat :=
  let unhandled := 0
  let r : Engine × Nat :=
    if USB_RQT_IS_HOST_TO_DEVICE rq.bmRequestType then handleSetupPacket_out rq unhandled e
    else (e, unhandled)
  if USB_RQT_IS_DEVICE_TO_HOST rq.bmRequestType then handleSetupPacket_in g_params rq r.2 r.1
  else r

/-- The events a request handler of `handleSetupPacket` emits before the final
test: FIFO writes, waits and flag clearings, the address register, table
accesses and `getReport` calls. -/
def is_handler_event : HwEvent → Bool
  | HwEvent.UEDATX _ _ => true
  | HwEvent.wait_TXINI => true
  | HwEvent.clear_TXINI => true
  | HwEvent.wait_RXOUTI => true
  | HwEvent.clear_RXOUTI => true
  | HwEvent.UDADDR _ => true
  | HwEvent.hid_params _ => true
  | HwEvent.getReport _ => true
  | _ => false

/-- The data stage of a control write: one run of the `RXOUTI` branch for each
OUT packet, in order. -/
def data_stage (pkts : List (List Nat)) (e : Engine) : Engine :=
  pkts.foldl (fun e pkt => USB_COM_vect_RXOUTI pkt e) e

/-- The buffer after the bytes of `bank` were stored from index `dst` on. -/
def store_list : List Nat → Nat → List Nat → List Nat
  | buf, _, [] => buf
  | buf, dst, b :: bank => store_list (buf.set dst b) (dst + 1) bank

/-- The stores made when the bytes of `bank` are stored from index `dst` on. -/
def store_events : Nat → List Nat → List HwEvent
  | _, [] => []
  | dst, b :: bank => HwEvent.buf_write dst b :: store_events (dst + 1) bank

/-- An event respects the capacity of the accumulator: a store goes to an index
below `CONTROL_WRITE_BUFSIZE` and `setReport` is given at most that length. -/
def within_capacity : HwEvent → Bool
  | HwEvent.buf_write i _ => decide (i < CONTROL_WRITE_BUFSIZE)
  | HwEvent.setReport _ len => decide (len ≤ CONTROL_WRITE_BUFSIZE)
  | _ => true

/-- The event is a call of a `setReport` callback. -/
def is_setReport_event : HwEvent → Bool
  | HwEvent.setReport _ _ => true
  | _ => false

/-- Successive runs of `ISR(USB_COM_vect)`, one for each element of `hws`. -/
def run_com (g_params : usb_parameters) (hws : List com_irq) (e : Engine) : Engine :=
  hws.foldl (fun e hw => USB_COM_vect g_params hw e) e

/-- The accumulator is within its capacity: the running count is below
`CONTROL_WRITE_BUFSIZE` and every logged event respects the capacity. -/
def accumulator_ok (e : Engine) : Prop :=
  e.control_write_len < CONTROL_WRITE_BUFSIZE ∧ e.log.all within_capacity = true

/-! ## Order of the address writes -/

/-- Whether a value written to `UDADDR` has the address-enable bit `ADDEN`. -/
def has_ADDEN (v : Nat) : Bool := (v >>> ADDEN) % 2 == 1

/-- Scan of a sequence of events for a write to `UDADDR` that sets `ADDEN`
before the acknowledgment: `released` records that `TXINI` was cleared (the
status packet was handed to the hardware), `observed` that a wait for `TXINI`
completed after that. -/
def adden_before_ack_aux : List HwEvent → Bool → Bool → Bool
  | [], _, _ => false
  | HwEvent.UDADDR v :: l, released, observed =>
      (has_ADDEN v && !observed) || adden_before_ack_aux l released observed
  | HwEvent.clear_TXINI :: l, _, observed => adden_before_ack_aux l true observed
  | HwEvent.wait_TXINI :: l, released, observed =>
      adden_before_ack_aux l released (observed || released)
  | _ :: l, released, observed => adden_before_ack_aux l released observed

/-- Whether some write sets `ADDEN` before the status packet was released and its
completion observed. -/
def adden_before_ack (log : List HwEvent) : Bool := adden_before_ack_aux log false false

/-- Whether some write to `UDADDR` sets `ADDEN`. -/
def sets_ADDEN (log : List HwEvent) : Bool :=
  log.any (fun ev => match ev with
    | HwEvent.UDADDR v => has_ADDEN v
    | _ => false)

/-! ## Runs of the engine -/

/-- An event the engine reacts to: an endpoint interrupt (a setup request, an
OUT data-stage packet, the completion of a control write, a transmission on an
interrupt endpoint, as the registers in `com_irq` say) or a device interrupt. -/
inductive engine_event
  | com (hw : com_irq)
  | gen (UDINT : Nat) (UESTA0X : Nat → Nat)

/-- The reaction of the engine to one event. -/
def engine_step (g_params : usb_parameters) (e : Engine) : engine_event → Engine
  | engine_event.com hw => USB_COM_vect g_params hw e
  | engine_event.gen UDINT UESTA0X => USB_GEN_vect g_params UDINT UESTA0X e

/-- The engine after a sequence of events. -/
def run_engine (g_params : usb_parameters) (evs : List engine_event) (e : Engine) : Engine :=
  evs.foldl (engine_step g_params) e

/-- The device state is Default, Address or Configured, and Configured only
with a nonzero stored configuration value. -/
def device_state_ok (e : Engine) : Prop :=
  (e.g_device_state = STATE_DEFAULT ∨ e.g_device_state = STATE_ADDRESS ∨
    e.g_device_state = STATE_CONFIGURED) ∧
  (e.g_device_state = STATE_CONFIGURED → e.g_current_config ≠ 0)

/-- A string of 32 characters, for a string descriptor of 66 bytes. -/
def sample_long_string : Nat → Nat := fun i => if i < 32 then 0x41 else 0

/-- The sample parameters with a string table entry of 32 characters. -/
def sample_long_params : usb_parameters :=
  { sample_params with strings := fun _ => sample_long_string }

/-! ## Button mappings (`src/mappings.c`) -/

/-- The `struct mapping` of `mappings.h`: a controller button mask and a USB
button mask, two 16-bit words. -/
structure mapping where
  ctl_btn : Nat
  usb_btn : Nat
deriving DecidableEq, Repr

/-- The constants of `gamepads.h`, `usbpad.h` and `config.h` used by
`mappings.c` and `usbpad.c`.  These headers are not among the sources: the
values are parameters of the model. -/
structure pad_constants where
  GC_BTN_A : Nat
  GC_BTN_B : Nat
  GC_BTN_X : Nat
  GC_BTN_Y : Nat
  GC_BTN_Z : Nat
  GC_BTN_START : Nat
  GC_BTN_L : Nat
  GC_BTN_R : Nat
  GC_BTN_DPAD_UP : Nat
  GC_BTN_DPAD_DOWN : Nat
  GC_BTN_DPAD_LEFT : Nat
  GC_BTN_DPAD_RIGHT : Nat
  N64_BTN_A : Nat
  N64_BTN_B : Nat
  N64_BTN_Z : Nat
  N64_BTN_START : Nat
  N64_BTN_L : Nat
  N64_BTN_R : Nat
  N64_BTN_C_UP : Nat
  N64_BTN_C_DOWN : Nat
  N64_BTN_C_LEFT : Nat
  N64_BTN_C_RIGHT : Nat
  N64_BTN_DPAD_UP : Nat
  N64_BTN_DPAD_DOWN : Nat
  N64_BTN_DPAD_LEFT : Nat
  N64_BTN_DPAD_RIGHT : Nat
  USB_BTN : Nat → Nat
  NSW_BTN_A : Nat
  NSW_BTN_B : Nat
  NSW_BTN_X : Nat
  NSW_BTN_Y : Nat
  NSW_BTN_L : Nat
  NSW_BTN_R : Nat
  NSW_BTN_ZL : Nat
  NSW_BTN_ZR : Nat
  NSW_BTN_PLUS : Nat
  NSW_BTN_MINUS : Nat
  NSW_BTN_HOME : Nat
  NSW_BTN_CAPTURE : Nat
  NSW_BTN_LCLICK : Nat
  NSW_BTN_RCLICK : Nat
  FLAG_GC_FULL_SLIDERS : Nat
  FLAG_GC_INVERT_TRIGS : Nat
  FLAG_GC_SLIDERS_AS_BUTTONS : Nat
  FLAG_DISABLE_ANALOG_TRIGGERS : Nat
  FLAG_SWAP_STICK_AND_DPAD : Nat

def MAPPING_GAMECUBE_DEFAULT : Nat := 0x00
def MAPPING_N64_DEFAULT : Nat := 0x10
def MAPPING_N64_NSW : Nat := 0xF0
def MAPPING_N64_NSW_L2 : Nat := 0xF1
def MAPPING_GAMECUBE_NSW : Nat := 0xF2
def MAPPING_GAMECUBE_NSW_L2 : Nat := 0xF3

/-- An initialised row `{ ctl, usb }` of a table: both fields are `uint16_t`. -/
def row (ctl usb : Nat) : mapping := ⟨ctl % 65536, usb % 65536⟩

/-- The row `{ }` that ends each table. -/
def terminator : mapping := ⟨0, 0⟩

/-- Table `map_gc_default`. -/
def map_gc_default (c : pad_constants) : List mapping :=
  [ row c.GC_BTN_A (c.USB_BTN 0),
    row c.GC_BTN_B (c.USB_BTN 1),
    row c.GC_BTN_Z (c.USB_BTN 2),
    row c.GC_BTN_START (c.USB_BTN 3),
    row c.GC_BTN_L (c.USB_BTN 4),
    row c.GC_BTN_R (c.USB_BTN 5),
    row c.GC_BTN_Y (c.USB_BTN 8),
    row c.GC_BTN_X (c.USB_BTN 7),
    row c.GC_BTN_DPAD_UP (c.USB_BTN 10),
    row c.GC_BTN_DPAD_DOWN (c.USB_BTN 11),
    row c.GC_BTN_DPAD_LEFT (c.USB_BTN 12),
    row c.GC_BTN_DPAD_RIGHT (c.USB_BTN 13),
    terminator ]

/-- Table `map_n64_default`. -/
def map_n64_default (c : pad_constants) : List mapping :=
  [ row c.N64_BTN_A (c.USB_BTN 0),
    row c.N64_BTN_B (c.USB_BTN 1),
    row c.N64_BTN_Z (c.USB_BTN 2),
    row c.N64_BTN_START (c.USB_BTN 3),
    row c.N64_BTN_L (c.USB_BTN 4),
    row c.N64_BTN_R (c.USB_BTN 5),
    row c.N64_BTN_C_UP (c.USB_BTN 6),
    row c.N64_BTN_C_DOWN (c.USB_BTN 7),
    row c.N64_BTN_C_LEFT (c.USB_BTN 8),
    row c.N64_BTN_C_RIGHT (c.USB_BTN 9),
    row c.N64_BTN_DPAD_UP (c.USB_BTN 10),
    row c.N64_BTN_DPAD_DOWN (c.USB_BTN 11),
    row c.N64_BTN_DPAD_LEFT (c.USB_BTN 12),
    row c.N64_BTN_DPAD_RIGHT (c.USB_BTN 13),
    terminator ]

/-- Table `map_n64_nsw`. -/
def map_n64_nsw (c : pad_constants) : List mapping :=
  [ row c.N64_BTN_A c.NSW_BTN_A,
    row c.N64_BTN_B c.NSW_BTN_B,
    row c.N64_BTN_Z c.NSW_BTN_ZL,
    row c.N64_BTN_START c.NSW_BTN_PLUS,
    row c.N64_BTN_L c.NSW_BTN_MINUS,
    row c.N64_BTN_R c.NSW_BTN_ZR,
    row c.N64_BTN_C_DOWN c.NSW_BTN_Y,
    row c.N64_BTN_C_LEFT c.NSW_BTN_X,
    terminator ]

/-- Table `map_n64_nsw_special`. -/
def map_n64_nsw_special (c : pad_constants) : List mapping :=
  [ row c.N64_BTN_A c.NSW_BTN_A,
    row c.N64_BTN_B c.NSW_BTN_B,
    row c.N64_BTN_Z c.NSW_BTN_L,
    row c.N64_BTN_START c.NSW_BTN_HOME,
    row c.N64_BTN_L c.NSW_BTN_CAPTURE,
    row c.N64_BTN_R c.NSW_BTN_R,
    row c.N64_BTN_C_DOWN c.NSW_BTN_RCLICK,
    row c.N64_BTN_C_LEFT c.NSW_BTN_LCLICK,
    terminator ]

/-- Table `map_gc_nsw`. -/
def map_gc_nsw (c : pad_constants) : List mapping :=
  [ row c.GC_BTN_A c.NSW_BTN_A,
    row c.GC_BTN_B c.NSW_BTN_B,
    row c.GC_BTN_Y c.NSW_BTN_Y,
    row c.GC_BTN_X c.NSW_BTN_X,
    row c.GC_BTN_START c.NSW_BTN_PLUS,
    row c.GC_BTN_L c.NSW_BTN_L,
    row c.GC_BTN_R c.NSW_BTN_R,
    terminator ]

/-- Table `map_gc_nsw_l2`. -/
def map_gc_nsw_l2 (c : pad_constants) : List mapping :=
  [ row c.GC_BTN_A c.NSW_BTN_A,
    row c.GC_BTN_B c.NSW_BTN_B,
    row c.GC_BTN_Y c.NSW_BTN_Y,
    row c.GC_BTN_X c.NSW_BTN_X,
    row c.GC_BTN_START c.NSW_BTN_HOME,
    row c.GC_BTN_L c.NSW_BTN_RCLICK,
    row c.GC_BTN_R c.NSW_BTN_LCLICK,
    terminator ]

/-- The loop of `domap`: `map` is the array from `cur` on, `out` the
accumulated mask.  Reading past the end of the array gives no result. -/
def domap_loop : List mapping → Nat → Nat → Option Nat
  | [], _, _ => none
  | cur :: rest, input, out =>
    if cur.ctl_btn = 0 ∨ cur.usb_btn = 0 then some out
    else domap_loop rest input (if input &&& cur.ctl_btn ≠ 0 then out ||| cur.usb_btn else out)

/-- Function `domap`. -/
def domap (map : List mapping) (input : Nat) : Option Nat := domap_loop map input 0

/-- Function `mappings_do`. -/
def mappings_do (c : pad_constants) (mapping_id input : Nat) : Option Nat :=
  if mapping_id = MAPPING_GAMECUBE_DEFAULT then domap (map_gc_default c) input
  else if mapping_id = MAPPING_N64_DEFAULT then domap (map_n64_default c) input
  else if mapping_id = MAPPING_N64_NSW then domap (map_n64_nsw c) input
  else if mapping_id = MAPPING_N64_NSW_L2 then domap (map_n64_nsw_special c) input
  else if mapping_id = MAPPING_GAMECUBE_NSW then domap (map_gc_nsw c) input
  else if mapping_id = MAPPING_GAMECUBE_NSW_L2 then domap (map_gc_nsw_l2 c) input
  else some 0

/-- The rows of a table before its terminator, the first row with a zero
field. -/
def rows_before_terminator (map : List mapping) : List mapping :=
  map.takeWhile (fun r => r.ctl_btn != 0 && r.usb_btn != 0)

/-- The bitwise OR of the `usb_btn` masks of the rows whose `ctl_btn` mask
intersects the input. -/
def or_of_rows (rows : List mapping) (input : Nat) : Nat :=
  ((rows.filter (fun r => input &&& r.ctl_btn != 0)).map (fun r => r.usb_btn)).foldr
    (fun u acc => u ||| acc) 0

/-- Sample values for the header constants: one bit per button and per flag. -/
def sample_constants : pad_constants :=
  { GC_BTN_A := 0x0001, GC_BTN_B := 0x0002, GC_BTN_X := 0x0004, GC_BTN_Y := 0x0008,
    GC_BTN_Z := 0x0010, GC_BTN_START := 0x0020, GC_BTN_L := 0x0040, GC_BTN_R := 0x0080,
    GC_BTN_DPAD_UP := 0x0800, GC_BTN_DPAD_DOWN := 0x0400, GC_BTN_DPAD_LEFT := 0x0100,
    GC_BTN_DPAD_RIGHT := 0x0200,
    N64_BTN_A := 0x0001, N64_BTN_B := 0x0002, N64_BTN_Z := 0x0004, N64_BTN_START := 0x0008,
    N64_BTN_L := 0x0010, N64_BTN_R := 0x0020, N64_BTN_C_UP := 0x0040,
    N64_BTN_C_DOWN := 0x0080, N64_BTN_C_LEFT := 0x0100, N64_BTN_C_RIGHT := 0x0200,
    N64_BTN_DPAD_UP := 0x0400, N64_BTN_DPAD_DOWN := 0x0800, N64_BTN_DPAD_LEFT := 0x1000,
    N64_BTN_DPAD_RIGHT := 0x2000,
    USB_BTN := fun n => 1 <<< n,
    NSW_BTN_A := 0x0004, NSW_BTN_B := 0x0002, NSW_BTN_X := 0x0008, NSW_BTN_Y := 0x0001,
    NSW_BTN_L := 0x0010, NSW_BTN_R := 0x0020, NSW_BTN_ZL := 0x0040, NSW_BTN_ZR := 0x0080,
    NSW_BTN_PLUS := 0x0200, NSW_BTN_MINUS := 0x0100, NSW_BTN_HOME := 0x1000,
    NSW_BTN_CAPTURE := 0x2000, NSW_BTN_LCLICK := 0x0400, NSW_BTN_RCLICK := 0x0800,
    FLAG_GC_FULL_SLIDERS := 0x01, FLAG_GC_INVERT_TRIGS := 0x02,
    FLAG_GC_SLIDERS_AS_BUTTONS := 0x04, FLAG_DISABLE_ANALOG_TRIGGERS := 0x08,
    FLAG_SWAP_STICK_AND_DPAD := 0x10 }

/-! ## Report building (`src/usbpad.c`) -/

def STICK_TO_BTN_THRESHOLD : Int := 40
def REPORT_ID : Nat := 1
def GC_ANALOG_SAFE_AREA_THRESHOLD : Nat := 8

/-- Conversion of an integer to `int8_t`: the value modulo 256 in -128..127. -/
def int8_of_int (v : Int) : Int := (v + 128) % 256 - 128

/-- Conversion of an integer to `int16_t`: the value modulo 65536 in
-32768..32767. -/
def int16_of_int (v : Int) : Int := (v + 32768) % 65536 - 32768

/-- Modelled from the spec: `gamepads.h` is not among the sources; a GameCube
pad reading has a 16-bit button word, signed 8-bit `x`, `y`, `cx`, `cy` and
unsigned 8-bit `lt`, `rt`. -/
structure gc_pad_data where
  buttons : Nat
  x : Int
  y : Int
  cx : Int
  cy : Int
  lt : Nat
  rt : Nat
deriving DecidableEq, Repr

/-- The assignment `buf[i] = v`. -/
def store (buf : Nat → Nat) (i v : Nat) : Nat → Nat := fun k => if k = i then v else buf k

/-- Function `minmax`. -/
def minmax (input min max : Int) : Int :=
  if input > max then max
  else if input < min then min
  else input

/-- Function `btnsToReport`, writing at `dstbuf + off`. -/
def btnsToReport (buttons : Nat) (dstbuf : Nat → Nat) (off : Nat) : Nat → Nat :=
  let dstbuf := store dstbuf off ((buttons % 65536) &&& 0xff)
  store dstbuf (off + 1) (((buttons % 65536) >>> 8) % 256)

/-- The table `dpad_hat_table` of `N64DpadToNswHat`, with the values of
`enum NSW_HAT` (up 0, clockwise to up-left 7, neutral 8). -/
def dpad_hat_table : List Nat := [8, 2, 6, 8, 4, 3, 5, 8, 0, 1, 7, 8, 8, 8, 8, 8]

/-- Function `N64DpadToNswHat`; an index past the table gives no result. -/
def N64DpadToNswHat (dpad : Nat) : Option Nat := dpad_hat_table[dpad]?

/-- Function `buildIdleReport`. -/
def buildIdleReport (s_nsw_mode : Nat) (dstbuf : Nat → Nat) : Nat → Nat :=
  if s_nsw_mode = 0 then
    let dstbuf := store dstbuf 0 REPORT_ID
    let dstbuf := (List.range 6).foldl
      (fun d i => store (store d (1 + i * 2) 0x80) (2 + i * 2) 0x3e) dstbuf
    let dstbuf := store dstbuf 13 0
    store dstbuf 14 0
  else dstbuf

/-- The block of `buildReportFromGC` run when `FLAG_SWAP_STICK_AND_DPAD` is set
(lines 188-203): the new `gcbuttons`, `xval` and `yval`. -/
def buildReportFromGC_swap (c : pad_constants) (gc_data : gc_pad_data) (gcbuttons : Nat)
    (xval yval : Int) : Nat × Int × Int :=
  let gcbuttons := gcbuttons &&& (65535 ^^^ ((c.GC_BTN_DPAD_UP ||| c.GC_BTN_DPAD_DOWN |||
    c.GC_BTN_DPAD_LEFT ||| c.GC_BTN_DPAD_RIGHT) % 65536))
  let gcbuttons :=
    if xval ≤ -STICK_TO_BTN_THRESHOLD then (gcbuttons ||| c.GC_BTN_DPAD_LEFT) % 65536
    else gcbuttons
  let gcbuttons :=
    if xval ≥ STICK_TO_BTN_THRESHOLD then (gcbuttons ||| c.GC_BTN_DPAD_RIGHT) % 65536
    else gcbuttons
  let gcbuttons :=
    if yval ≤ -STICK_TO_BTN_THRESHOLD then (gcbuttons ||| c.GC_BTN_DPAD_DOWN) % 65536
    else gcbuttons
  let gcbuttons :=
    if yval ≥ STICK_TO_BTN_THRESHOLD then (gcbuttons ||| c.GC_BTN_DPAD_UP) % 65536
    else gcbuttons
  let xval : Int := 0
  let yval : Int := 0
  let yval := if gc_data.buttons &&& c.GC_BTN_DPAD_UP ≠ 0 then 100 else yval
  let yval := if gc_data.buttons &&& c.GC_BTN_DPAD_DOWN ≠ 0 then -100 else yval
  let xval := if gc_data.buttons &&& c.GC_BTN_DPAD_LEFT ≠ 0 then -100 else xval
  let xval := if gc_data.buttons &&& c.GC_BTN_DPAD_RIGHT ≠ 0 then 100 else xval
  (gcbuttons, xval, yval)

/-- The trigger block of `buildReportFromGC` (lines 213-248): the new
`gcbuttons`, `ltrig` and `rtrig`, 16-bit signed. -/
def buildReportFromGC_triggers (c : pad_constants) (flags : Nat) (gcbuttons : Nat)
    (ltrig rtrig : Int) : Nat × Int × Int :=
  let r : Nat × Int × Int :=
    if flags &&& c.FLAG_GC_SLIDERS_AS_BUTTONS ≠ 0 then
      let gcbuttons := if ltrig > 64 then (gcbuttons ||| c.GC_BTN_L) % 65536 else gcbuttons
      let gcbuttons := if rtrig > 64 then (gcbuttons ||| c.GC_BTN_R) % 65536 else gcbuttons
      (gcbuttons, 0, 0)
    else
      let t : Int × Int :=
        if flags &&& c.FLAG_GC_FULL_SLIDERS ≠ 0 then
          let lts := int16_of_int (ltrig - 127)
          let rts := int16_of_int (rtrig - 127)
          let lts := int16_of_int (lts * 126)
          let rts := int16_of_int (rts * 126)
          (lts, rts)
        else
          let ltrig := int16_of_int (ltrig * 63)
          let ltrig := if ltrig > 16000 then 16000 else ltrig
          let rtrig := int16_of_int (rtrig * 63)
          let rtrig := if rtrig > 16000 then 16000 else rtrig
          (ltrig, rtrig)
      if flags &&& c.FLAG_GC_INVERT_TRIGS ≠ 0 then
        (gcbuttons, int16_of_int (-t.1), int16_of_int (-t.2))
      else (gcbuttons, t.1, t.2)
  if flags &&& c.FLAG_DISABLE_ANALOG_TRIGGERS ≠ 0 then (r.1, 0, 0) else r

/-- The two bytes of an `int16_t` in memory, low byte first. -/
def int16_bytes (v : Int) : Nat × Nat := (uint16_of_int v % 256, uint16_of_int v / 256)

/-- The local variables of `buildReportFromGC` when the report bytes are
written. -/
structure gc_values where
  gcbuttons : Nat
  xval : Int
  yval : Int
  cxval : Int
  cyval : Int
  ltrig : Int
  rtrig : Int
deriving DecidableEq, Repr

/-- The computation of `buildReportFromGC` up to the writing of the report
(lines 176-257); `flags` is `g_eeprom_data.cfg.flags`. -/
def buildReportFromGC_values (c : pad_constants) (flags : Nat) (gc_data : gc_pad_data) :
    gc_values :=
  let gcbuttons := gc_data.buttons % 65536
  let xval := minmax gc_data.x (-100) 100
  let yval := minmax gc_data.y (-100) 100
  let cxval := minmax gc_data.cx (-100) 100
  let cyval := minmax gc_data.cy (-100) 100
  let ltrig : Int := gc_data.lt
  let rtrig : Int := gc_data.rt
  let s : Nat × Int × Int :=
    if flags &&& c.FLAG_SWAP_STICK_AND_DPAD ≠ 0 then
      buildReportFromGC_swap c gc_data gcbuttons xval yval
    else (gcbuttons, xval, yval)
  let xval := int16_of_int (s.2.1 * 160)
  let yval := int16_of_int (s.2.2 * -160)
  let cxval := int16_of_int (cxval * 160)
  let cyval := int16_of_int (cyval * -160)
  let t := buildReportFromGC_triggers c flags s.1 ltrig rtrig
  { gcbuttons := t.1,
    xval := int16_of_int (xval + 16000),
    yval := int16_of_int (yval + 16000),
    cxval := int16_of_int (cxval + 16000),
    cyval := int16_of_int (cyval + 16000),
    ltrig := int16_of_int (t.2.1 + 16000),
    rtrig := int16_of_int (t.2.2 + 16000) }

/-- Function `buildReportFromGC`: the computation of the values, then the
writing of the report (lines 259-276). -/
def buildReportFromGC (c : pad_constants) (flags : Nat) (gc_data : gc_pad_data)
    (dstbuf : Nat → Nat) : Option (Nat → Nat) :=
  let v := buildReportFromGC_values c flags gc_data
  let dstbuf := store dstbuf 1 (int16_bytes v.xval).1
  let dstbuf := store dstbuf 2 (int16_bytes v.xval).2
  let dstbuf := store dstbuf 3 (int16_bytes v.yval).1
  let dstbuf := store dstbuf 4 (int16_bytes v.yval).2
  let dstbuf := store dstbuf 5 (int16_bytes v.cxval).1
  let dstbuf := store dstbuf 6 (int16_bytes v.cxval).2
  let dstbuf := store dstbuf 7 (int16_bytes v.cyval).1
  let dstbuf := store dstbuf 8 (int16_bytes v.cyval).2
  let dstbuf := store dstbuf 9 (int16_bytes v.ltrig).1
  let dstbuf := store dstbuf 10 (int16_bytes v.ltrig).2
  let dstbuf := store dstbuf 11 (int16_bytes v.rtrig).1
  let dstbuf := store dstbuf 12 (int16_bytes v.rtrig).2
  match mappings_do c MAPPING_GAMECUBE_DEFAULT v.gcbuttons with
  | none => none
  | some buttons => some (btnsToReport buttons dstbuf 13)

/-- Function `buildAnalogValueGc2NswHid`; `analog` is an `int8_t`. -/
def buildAnalogValueGc2NswHid (analog : Int) : Nat :=
  let aval : Int := analog
  let aval := int16_of_int (aval + (aval >>> (1 : Nat)))
  let aval := if aval.natAbs < GC_ANALOG_SAFE_AREA_THRESHOLD then 0 else aval
  let aval := int16_of_int (aval + 128)
  let aval := minmax aval 0 255
  (aval % 256).toNat

/-- Function `buildReportFromGC_NSW`; the output of `printf` is not modelled. -/
def buildReportFromGC_NSW (c : pad_constants) (gc_data : gc_pad_data) (dstbuf : Nat → Nat) :
    Option (Nat → Nat) :=
  let gcbuttons := gc_data.buttons % 65536
  let mapped :=
    if gcbuttons &&& c.GC_BTN_Z ≠ 0 then mappings_do c MAPPING_GAMECUBE_NSW_L2 gcbuttons
    else mappings_do c MAPPING_GAMECUBE_NSW gcbuttons
  match mapped with
  | none => none
  | some buttons =>
    let buttons :=
      if ¬ (gcbuttons &&& c.GC_BTN_Z ≠ 0) then
        let ltrig := int8_of_int gc_data.lt
        let rtrig := int8_of_int gc_data.rt
        let buttons :=
          if ltrig > 64 ∧ ltrig < 190 then (buttons ||| c.NSW_BTN_L) % 65536 else buttons
        if rtrig > 64 ∧ rtrig < 190 then (buttons ||| c.NSW_BTN_R) % 65536 else buttons
      else buttons
    let dstbuf := btnsToReport buttons dstbuf 0
    let dpad_bits := ((((gcbuttons >>> 8) &&& 0xC)
      ||| (if gcbuttons &&& c.GC_BTN_DPAD_LEFT ≠ 0 then 0x02 else 0))
      ||| (if gcbuttons &&& c.GC_BTN_DPAD_RIGHT ≠ 0 then 0x01 else 0)) % 256
    match N64DpadToNswHat dpad_bits with
    | none => none
    | some hat =>
      let dstbuf := store dstbuf 2 hat
      let dstbuf := store dstbuf 3 (buildAnalogValueGc2NswHid (int8_of_int gc_data.x))
      let dstbuf := store dstbuf 4 (buildAnalogValueGc2NswHid (int8_of_int (-gc_data.y)))
      let dstbuf := store dstbuf 5 (buildAnalogValueGc2NswHid (int8_of_int gc_data.cx))
      let dstbuf := store dstbuf 6 (buildAnalogValueGc2NswHid (int8_of_int (-gc_data.cy)))
      some (store dstbuf 7 0x00)

/-- The 16-bit little-endian axis number `k` (0 to 5) of a report: bytes
`1 + 2k` and `2 + 2k`. -/
def report_axis (dstbuf : Nat → Nat) (k : Nat) : Nat :=
  dstbuf (1 + 2 * k) + 256 * dstbuf (2 + 2 * k)

/-- The Y byte of the Switch report built for a stick value `y`, the other
inputs at rest. -/
def nsw_y_byte (c : pad_constants) (y : Int) : Option Nat :=
  (buildReportFromGC_NSW c ⟨0, 0, y, 0, 0, 0, 0⟩ (fun _ => 0)).map (fun d => d 4)

/-! ## Output and feature reports of the pad (`src/usbpad.c`) -/

/-- Modelled from the spec: `usb.h` is not among the sources; report type
Output in the high byte of `wValue` (HID 1.11, section 7.2.1). -/
def HID_REPORT_TYPE_OUTPUT : Nat := 0x02
/-- Modelled from the spec: `usb.h` is not among the sources; report type
Feature in the high byte of `wValue` (HID 1.11, section 7.2.1). -/
def HID_REPORT_TYPE_FEATURE : Nat := 0x03

def REPORT_SET_EFFECT : Nat := 0x01
def REPORT_SET_STATUS : Nat := 0x02
def REPORT_SET_PERIODIC : Nat := 0x04
def REPORT_SET_CONSTANT_FORCE : Nat := 0x05
def REPORT_EFFECT_OPERATION : Nat := 0x0A
def REPORT_EFFECT_BLOCK_IDX : Nat := 0x0B
def REPORT_DISABLE_ACTUATORS : Nat := 0x0C
def REPORT_PID_POOL : Nat := 0x0D
def REPORT_CREATE_EFFECT : Nat := 0x09
def EFFECT_OP_START : Nat := 1
def EFFECT_OP_START_SOLO : Nat := 2
def EFFECT_OP_STOP : Nat := 3

/-- The fields of `struct usbpad` that `usbpad_hid_set_report` uses.  The type
is declared in `usbpad.h`, which is not among the sources: the fields hold
numbers, `_FFB_effect_duration` a 16-bit word (it is compared with 0xffff). -/
structure usbpad where
  periodic_magnitude : Nat
  constant_force : Nat
  vibration_on : Nat
  _FFB_effect_index : Nat
  _FFB_effect_duration : Nat
  _loop_count : Nat
deriving DecidableEq, Repr

/-- What a call of `usbpad_hid_set_report` leaves: the pad, the returned byte
(`-1` is 0xFF) and, in order, the indices `i` of the evaluations of `data[i]`,
those of the arguments of `printf_P` included. -/
structure set_report_result where
  pad : usbpad
  ret : Nat
  reads : List Nat
deriving DecidableEq, Repr

/-- The case `REPORT_EFFECT_OPERATION` of `usbpad_hid_set_report` (lines
642-705); `narrow` is the conversion to the declared type of `_loop_count`. -/
def usbpad_hid_set_report_effect_operation (narrow : Nat → Nat) (pad : usbpad)
    (data : Nat → Nat) (len : Nat) : set_report_result :=
  if len ≠ 4 then ⟨pad, 0xFF, [0]⟩
  else
    let reads := [0, 1, 1]
    let r : usbpad × List Nat :=
      if pad._FFB_effect_duration = 0xffff then
        if data 3 ≠ 0 then
          ({ pad with _loop_count := narrow ((data 3 + 1) % 65536) }, reads ++ [3, 3])
        else
          ({ pad with _loop_count := 0 }, reads ++ [3])
      else
        let loops := narrow (((pad._FFB_effect_duration / 16) * data 3) % 65536)
        ({ pad with _loop_count := loops }, reads ++ [3, 3])
    let pad := r.1
    let reads := r.2 ++ [1]
    let idx := data 1 &&& 0x7F
    if idx = 1 ∨ idx = 3 ∨ idx = 4 then
      let reads := reads ++ [2]
      if data 2 = EFFECT_OP_START then ⟨{ pad with vibration_on := 1 }, 0, reads⟩
      else if data 2 = EFFECT_OP_START_SOLO then ⟨{ pad with vibration_on := 1 }, 0, reads⟩
      else if data 2 = EFFECT_OP_STOP then ⟨{ pad with vibration_on := 0 }, 0, reads⟩
      else ⟨pad, 0, reads ++ [2]⟩
    else
      ⟨pad, 0, reads ++ [1]⟩

/-- Function `usbpad_hid_set_report`; `data` holds bytes, the output of
`printf_P` is not modelled and `hexdump` is an empty definition (`DEBUG` is
undefined). -/
def usbpad_hid_set_report (narrow : Nat → Nat) (pad : usbpad) (rq : usb_request)
    (data : Nat → Nat) (len : Nat) : set_report_result :=
  if len < 1 then ⟨pad, 0xFF, []⟩
  else if (rq.wValue % 65536) >>> 8 = HID_REPORT_TYPE_OUTPUT then
    if data 0 = REPORT_SET_STATUS then ⟨pad, 0, [0, 1, 2]⟩
    else if data 0 = REPORT_EFFECT_BLOCK_IDX then ⟨pad, 0, [0, 1]⟩
    else if data 0 = REPORT_DISABLE_ACTUATORS then
      ⟨{ pad with periodic_magnitude := 0, constant_force := 0, vibration_on := 0 }, 0, [0]⟩
    else if data 0 = REPORT_PID_POOL then ⟨pad, 0, [0]⟩
    else if data 0 = REPORT_SET_EFFECT then
      ⟨{ pad with _FFB_effect_index := data 1,
                  _FFB_effect_duration := (data 3 ||| (data 4 <<< 8)) % 65536 },
        0, [0, 1, 3, 4, 1]⟩
    else if data 0 = REPORT_SET_PERIODIC then
      ⟨{ pad with periodic_magnitude := data 2 }, 0, [0, 2, 2, 5, 6]⟩
    else if data 0 = REPORT_SET_CONSTANT_FORCE then
      if data 1 = 1 then ⟨{ pad with constant_force := data 2 }, 0, [0, 1, 2, 2]⟩
      else ⟨pad, 0, [0, 1]⟩
    else if data 0 = REPORT_EFFECT_OPERATION then
      usbpad_hid_set_report_effect_operation narrow pad data len
    else ⟨pad, 0, [0, 0]⟩
  else if (rq.wValue % 65536) >>> 8 = HID_REPORT_TYPE_FEATURE then
    if data 0 = REPORT_CREATE_EFFECT then
      ⟨{ pad with _FFB_effect_index := data 1 }, 0, [0, 1, 1]⟩
    else ⟨pad, 0, [0]⟩
  else ⟨pad, 0, []⟩

/-- A pad with all fields zero, as `usbpad_init` leaves them. -/
def sample_pad : usbpad := ⟨0, 0, 0, 0, 0, 0⟩

/-! ## Basic facts -/

theorem not_device_to_host_of_host_to_device (r : Nat)
    (h : USB_RQT_IS_HOST_TO_DEVICE r = true) : USB_RQT_IS_DEVICE_TO_HOST r = false := by
  simp only [USB_RQT_IS_HOST_TO_DEVICE, USB_RQT_IS_DEVICE_TO_HOST] at *
  simp_all

theorem not_host_to_device_of_device_to_host (r : Nat)
    (h : USB_RQT_IS_DEVICE_TO_HOST r = true) : USB_RQT_IS_HOST_TO_DEVICE r = false := by
  simp only [USB_RQT_IS_HOST_TO_DEVICE, USB_RQT_IS_DEVICE_TO_HOST] at *
  simp_all

/-- A host-to-device request only runs the host-to-device block. -/
theorem handleSetupPacket_host_to_device (g_params : usb_parameters) (rq : usb_request)
    (e : Engine) (h : USB_RQT_IS_HOST_TO_DEVICE rq.bmRequestType = true) :
    handleSetupPacket g_params rq e =
      if (handleSetupPacket_out rq 0 e).2 ≠ 0 then set_STALLRQ (handleSetupPacket_out rq 0 e).1
      else (handleSetupPacket_out rq 0 e).1 := by
  simp [handleSetupPacket, h, not_device_to_host_of_host_to_device _ h]

/-- A device-to-host request only runs the device-to-host block. -/
theorem handleSetupPacket_device_to_host (g_params : usb_parameters) (rq : usb_request)
    (e : Engine) (h : USB_RQT_IS_DEVICE_TO_HOST rq.bmRequestType = true) :
    handleSetupPacket g_params rq e =
      if (handleSetupPacket_in g_params rq 0 e).2 ≠ 0 then
        set_STALLRQ (handleSetupPacket_in g_params rq 0 e).1
      else (handleSetupPacket_in g_params rq 0 e).1 := by
  simp [handleSetupPacket, h, not_host_to_device_of_device_to_host _ h]

/-! ## The log of `buf2EP` -/

theorem ep0_bytes_append (l₁ l₂ : List HwEvent) :
    ep0_bytes (l₁ ++ l₂) = ep0_bytes l₁ ++ ep0_bytes l₂ := by
  simp [ep0_bytes, List.filterMap_append]

theorem ep0_bytes_map_UEDATX (bs : List Nat) :
    ep0_bytes (bs.map (HwEvent.UEDATX 0)) = bs := by
  induction bs with
  | nil => rfl
  | cons b bs ih =>
    simp only [ep0_bytes, List.map_cons, List.filterMap_cons, ep0_byte] at *
    simp [ih]

theorem mem_length (src : Nat → Nat) (n : Nat) : (mem src n).length = n := by
  simp [mem]

theorem mem_succ (src : Nat → Nat) (n : Nat) : mem src (n + 1) = mem src n ++ [src n] := by
  simp [mem, List.range_succ]

theorem mem_bytes_one (b : Nat) : mem (bytes [b]) 1 = [b] := rfl

/-- The write loop of `buf2EP` appends the bytes and touches nothing else. -/
theorem write_loop_eq (src : Nat → Nat) (n : Nat) (e : Engine) :
    (List.range n).foldl (fun e i => write_UEDATX (src i) e) e =
      { e with log := e.log ++ (mem src n).map (HwEvent.UEDATX e.UENUM) } := by
  induction n with
  | zero => simp [mem]
  | succ n ih =>
    rw [List.range_succ, List.foldl_append, ih, mem_succ]
    simp [write_UEDATX, Engine.emit]

/-- What `buf2EP` does: endpoint selected, `min len max_len` bytes appended. -/
theorem buf2EP_eq (epnum : Nat) (src : Nat → Nat) (len max_len progmem : Nat) (e : Engine) :
    buf2EP epnum src len max_len progmem e =
      { e with UENUM := epnum,
               log := e.log ++ (mem src (min len max_len)).map (HwEvent.UEDATX epnum) } := by
  have hmin : (if len > max_len then max_len else len) = min len max_len := by
    split <;> omega
  unfold buf2EP
  simp only [hmin]
  have hpgm : (fun (e : Engine) (i : Nat) => write_UEDATX (pgm_read_byte src i) e) =
      (fun (e : Engine) (i : Nat) => write_UEDATX (src i) e) := rfl
  rw [hpgm]
  split <;> rw [write_loop_eq]

/-! ## The log of `longDescriptorHelper` -/

/-- What the loop of `longDescriptorHelper` does to the engine. -/
theorem longDescriptorHelper_loop_eq (data : Nat → Nat) (progmem : Nat) (todo : Nat) :
    ∀ (pos : Nat) (e : Engine),
      longDescriptorHelper_loop data progmem todo pos e =
        { e with UENUM := 0, log := e.log ++ long_events data todo pos } := by
  induction todo using Nat.strong_induction_on with
  | _ todo ih =>
    intro pos e
    rw [longDescriptorHelper_loop, long_events]
    by_cases h : todo > 64
    · simp only [h, if_true]
      rw [ih (todo - 64) (by omega)]
      simp [buf2EP_eq, clear_TXINI, wait_TXINI, Engine.emit]
    · simp only [h, if_false]
      simp [buf2EP_eq, clear_TXINI, wait_TXINI, Engine.emit]

/-- What `longDescriptorHelper` does to the engine. -/
theorem longDescriptorHelper_eq (data : Nat → Nat) (len rq_len progmem : Nat) (e : Engine) :
    longDescriptorHelper data len rq_len progmem e =
      { e with UENUM := 0, log := e.log ++ long_events data (min len rq_len) 0 } := by
  have hmin : (if rq_len > len then len else rq_len) = min len rq_len := by
    split <;> omega
  simp only [longDescriptorHelper, hmin]
  exact longDescriptorHelper_loop_eq data progmem _ 0 e

theorem mem_add (src : Nat → Nat) (a b : Nat) :
    mem src (a + b) = mem src a ++ mem (fun i => src (a + i)) b := by
  induction b with
  | zero => simp [mem]
  | succ b ih => rw [← Nat.add_assoc, mem_succ, ih, mem_succ, List.append_assoc]

/-- The bytes loaded by the loop of `longDescriptorHelper` are the `todo` bytes
found at `data + pos`. -/
theorem ep0_bytes_long_events (data : Nat → Nat) (todo : Nat) :
    ∀ pos : Nat, ep0_bytes (long_events data todo pos) = mem (fun i => data (pos + i)) todo := by
  induction todo using Nat.strong_induction_on with
  | _ todo ih =>
    intro pos
    rw [long_events]
    by_cases h : todo > 64
    · simp only [h, if_true]
      rw [ep0_bytes_append, ep0_bytes_append, ep0_bytes_map_UEDATX, ih (todo - 64) (by omega)]
      have hsplit : todo = 64 + (todo - 64) := by omega
      conv => rhs; rw [hsplit, mem_add]
      simp [ep0_bytes, ep0_byte, Nat.add_assoc]
    · simp only [h, if_false]
      rw [ep0_bytes_append, ep0_bytes_map_UEDATX]
      simp [ep0_bytes, ep0_byte]

/-! ## Device state machine -/

/-- C1: for every host-to-device request with Device recipient and
`bRequest = SET_ADDRESS`, `handleSetupPacket` leaves the device state equal to
Default when `wValue` is 0 and equal to Address for every nonzero `wValue`. -/
theorem set_address_state (g_params : usb_parameters) (rq : usb_request) (e : Engine)
    (hdir : USB_RQT_IS_HOST_TO_DEVICE rq.bmRequestType = true)
    (hrcp : rq.bmRequestType &&& USB_RQT_RECIPIENT_MASK = USB_RQT_RECIPIENT_DEVICE)
    (hrq : rq.bRequest = USB_RQ_SET_ADDRESS) :
    (rq.wValue = 0 → (handleSetupPacket g_params rq e).g_device_state = STATE_DEFAULT) ∧
    (rq.wValue ≠ 0 → (handleSetupPacket g_params rq e).g_device_state = STATE_ADDRESS) := by
  rw [handleSetupPacket_host_to_device g_params rq e hdir]
  constructor
  · intro h0
    simp [handleSetupPacket_out, hrcp, hrq, h0]
  · intro h0
    simp [handleSetupPacket_out, hrcp, hrq, h0]

theorem set_address_state_witness :
    USB_RQT_IS_HOST_TO_DEVICE 0x00 = true ∧
    (0x00 &&& USB_RQT_RECIPIENT_MASK = USB_RQT_RECIPIENT_DEVICE) ∧
    ((7 : Nat) = 0 → (handleSetupPacket sample_params ⟨0x00, 5, 7, 0, 0⟩ Engine.init).g_device_state
      = STATE_DEFAULT) ∧
    ((7 : Nat) ≠ 0 → (handleSetupPacket sample_params ⟨0x00, 5, 7, 0, 0⟩ Engine.init).g_device_state
      = STATE_ADDRESS) :=
  ⟨by decide, by decide,
    set_address_state sample_params ⟨0x00, 5, 7, 0, 0⟩ Engine.init (by decide) (by decide)
      (by decide)⟩

/-- What the SET_CONFIGURATION branch does to the engine. -/
theorem set_configuration_eq (g_params : usb_parameters) (rq : usb_request) (e : Engine)
    (hdir : USB_RQT_IS_HOST_TO_DEVICE rq.bmRequestType = true)
    (hrcp : rq.bmRequestType &&& USB_RQT_RECIPIENT_MASK = USB_RQT_RECIPIENT_DEVICE)
    (hrq : rq.bRequest = USB_RQ_SET_CONFIGURATION) :
    handleSetupPacket g_params rq e =
      { e with g_current_config := rq.wValue % 256,
               g_device_state :=
                 if rq.wValue % 256 = 0 then STATE_ADDRESS else STATE_CONFIGURED,
               log := e.log ++ [HwEvent.wait_TXINI, HwEvent.clear_TXINI] } := by
  rw [handleSetupPacket_host_to_device g_params rq e hdir]
  have h59 : USB_RQ_SET_CONFIGURATION ≠ USB_RQ_SET_ADDRESS := by decide
  by_cases h0 : rq.wValue % 256 = 0 <;>
    simp [handleSetupPacket_out, hrcp, hrq, h59, h0, wait_TXINI, clear_TXINI, Engine.emit]

/-- What the GET_CONFIGURATION branch does to the engine. -/
theorem get_configuration_eq (g_params : usb_parameters) (rq : usb_request) (e : Engine)
    (hdir : USB_RQT_IS_DEVICE_TO_HOST rq.bmRequestType = true)
    (hrcp : rq.bmRequestType &&& USB_RQT_RECIPIENT_MASK = USB_RQT_RECIPIENT_DEVICE)
    (hrq : rq.bRequest = USB_RQ_GET_CONFIGURATION)
    (hlen : 1 ≤ rq.wLength) :
    handleSetupPacket g_params rq e =
      { e with UENUM := 0,
               log := e.log ++
                 [HwEvent.UEDATX 0
                    (if e.g_device_state = STATE_CONFIGURED then e.g_current_config else 0),
                  HwEvent.clear_TXINI, HwEvent.wait_RXOUTI, HwEvent.clear_RXOUTI] } := by
  rw [handleSetupPacket_device_to_host g_params rq e hdir]
  have h80 : USB_RQ_GET_CONFIGURATION ≠ USB_RQ_GET_STATUS := by decide
  have hmin : min 1 rq.wLength = 1 := by omega
  by_cases hst : e.g_device_state = STATE_CONFIGURED <;>
    simp [handleSetupPacket_in, handleSetupPacket_in_handlers, hrcp, hrq, h80, hst, buf2EP_eq, hmin, mem_bytes_one, clear_TXINI,
      Engine.emit]

/-- C2 (as stated, refuted): a SetConfiguration whose 16-bit `wValue` is the
nonzero value 0x0100 leaves the device in the Address state, not Configured. -/
theorem set_configuration_state_counterexample :
    USB_RQT_IS_HOST_TO_DEVICE 0x00 = true ∧
    (0x00 &&& USB_RQT_RECIPIENT_MASK = USB_RQT_RECIPIENT_DEVICE) ∧
    (0x0100 : Nat) ≠ 0 ∧ (0x0100 : Nat) < 65536 ∧
    (handleSetupPacket sample_params ⟨0x00, USB_RQ_SET_CONFIGURATION, 0x0100, 0, 0⟩
      Engine.init).g_device_state = STATE_ADDRESS ∧
    (handleSetupPacket sample_params ⟨0x00, USB_RQ_SET_CONFIGURATION, 0x0100, 0, 0⟩
      Engine.init).g_device_state ≠ STATE_CONFIGURED := by
  decide

/-- C2 (amended): for every host-to-device request with Device recipient and
`bRequest = SET_CONFIGURATION` and every `wValue`, `handleSetupPacket` stores the
low byte of `wValue` as the configuration value and leaves the device state
equal to Address when that low byte is 0 and equal to Configured when it is
nonzero. -/
theorem set_configuration_state (g_params : usb_parameters) (rq : usb_request) (e : Engine)
    (hdir : USB_RQT_IS_HOST_TO_DEVICE rq.bmRequestType = true)
    (hrcp : rq.bmRequestType &&& USB_RQT_RECIPIENT_MASK = USB_RQT_RECIPIENT_DEVICE)
    (hrq : rq.bRequest = USB_RQ_SET_CONFIGURATION) :
    (handleSetupPacket g_params rq e).g_current_config = rq.wValue % 256 ∧
    (rq.wValue % 256 = 0 → (handleSetupPacket g_params rq e).g_device_state = STATE_ADDRESS) ∧
    (rq.wValue % 256 ≠ 0 →
      (handleSetupPacket g_params rq e).g_device_state = STATE_CONFIGURED) := by
  rw [set_configuration_eq g_params rq e hdir hrcp hrq]
  refine ⟨rfl, ?_, ?_⟩ <;> intro h0 <;> simp [h0]

theorem set_configuration_state_witness :
    USB_RQT_IS_HOST_TO_DEVICE 0x00 = true ∧
    (0x00 &&& USB_RQT_RECIPIENT_MASK = USB_RQT_RECIPIENT_DEVICE) ∧
    (handleSetupPacket sample_params ⟨0x00, 9, 0x0301, 0, 0⟩ Engine.init).g_current_config
      = 0x0301 % 256 ∧
    (0x0301 % 256 = 0 →
      (handleSetupPacket sample_params ⟨0x00, 9, 0x0301, 0, 0⟩ Engine.init).g_device_state
        = STATE_ADDRESS) ∧
    (0x0301 % 256 ≠ 0 →
      (handleSetupPacket sample_params ⟨0x00, 9, 0x0301, 0, 0⟩ Engine.init).g_device_state
        = STATE_CONFIGURED) :=
  ⟨by decide, by decide,
    set_configuration_state sample_params ⟨0x00, 9, 0x0301, 0, 0⟩ Engine.init (by decide)
      (by decide) (by decide)⟩

/-- C3 (as stated, refuted): after SetConfiguration with the nonzero 16-bit value
0x0101, GetConfiguration with `wLength = 1` loads the single byte 1, which is
not 0x0101. -/
theorem set_get_configuration_counterexample :
    (0x0101 : Nat) ≠ 0 ∧ (0x0101 : Nat) < 65536 ∧
    ep0_bytes (handleSetupPacket sample_params ⟨0x80, USB_RQ_GET_CONFIGURATION, 0, 0, 1⟩
      (handleSetupPacket sample_params ⟨0x00, USB_RQ_SET_CONFIGURATION, 0x0101, 0, 0⟩
        Engine.init)).log = [1] ∧
    ep0_bytes (handleSetupPacket sample_params ⟨0x80, USB_RQ_GET_CONFIGURATION, 0, 0, 1⟩
      (handleSetupPacket sample_params ⟨0x00, USB_RQ_SET_CONFIGURATION, 0x0101, 0, 0⟩
        Engine.init)).log ≠ [0x0101] := by
  decide

/-- C3 (amended): a SetConfiguration request with `wValue = v` followed by a
GetConfiguration request with `wLength >= 1` loads exactly one byte into
endpoint 0 and that byte equals the low byte of `v`, that is `v mod 256`; it is
`v` itself when `v <= 255`. -/
theorem set_get_configuration_roundtrip (g_params : usb_parameters) (rs rg : usb_request)
    (e : Engine)
    (hsdir : USB_RQT_IS_HOST_TO_DEVICE rs.bmRequestType = true)
    (hsrcp : rs.bmRequestType &&& USB_RQT_RECIPIENT_MASK = USB_RQT_RECIPIENT_DEVICE)
    (hsrq : rs.bRequest = USB_RQ_SET_CONFIGURATION)
    (hgdir : USB_RQT_IS_DEVICE_TO_HOST rg.bmRequestType = true)
    (hgrcp : rg.bmRequestType &&& USB_RQT_RECIPIENT_MASK = USB_RQT_RECIPIENT_DEVICE)
    (hgrq : rg.bRequest = USB_RQ_GET_CONFIGURATION)
    (hlen : 1 ≤ rg.wLength) :
    ep0_bytes (handleSetupPacket g_params rs e).log = ep0_bytes e.log ∧
    ep0_bytes (handleSetupPacket g_params rg (handleSetupPacket g_params rs e)).log =
      ep0_bytes (handleSetupPacket g_params rs e).log ++ [rs.wValue % 256] ∧
    (rs.wValue < 256 →
      ep0_bytes (handleSetupPacket g_params rg (handleSetupPacket g_params rs e)).log =
        ep0_bytes (handleSetupPacket g_params rs e).log ++ [rs.wValue]) := by
  have key : ep0_bytes (handleSetupPacket g_params rg (handleSetupPacket g_params rs e)).log =
      ep0_bytes (handleSetupPacket g_params rs e).log ++ [rs.wValue % 256] := by
    rw [get_configuration_eq g_params rg _ hgdir hgrcp hgrq hlen,
      set_configuration_eq g_params rs e hsdir hsrcp hsrq]
    by_cases h0 : rs.wValue % 256 = 0
    · have h23 : STATE_ADDRESS ≠ STATE_CONFIGURED := by decide
      simp [h0, h23, ep0_bytes, ep0_byte, List.filterMap_append]
    · simp [h0, ep0_bytes, ep0_byte, List.filterMap_append]
  refine ⟨?_, key, ?_⟩
  · rw [set_configuration_eq g_params rs e hsdir hsrcp hsrq]
    simp [ep0_bytes, ep0_byte, List.filterMap_append]
  · intro hv
    rw [key, Nat.mod_eq_of_lt hv]

theorem set_get_configuration_roundtrip_witness :
    USB_RQT_IS_HOST_TO_DEVICE 0x00 = true ∧
    (0x00 &&& USB_RQT_RECIPIENT_MASK = USB_RQT_RECIPIENT_DEVICE) ∧
    USB_RQT_IS_DEVICE_TO_HOST 0x80 = true ∧
    (0x80 &&& USB_RQT_RECIPIENT_MASK = USB_RQT_RECIPIENT_DEVICE) ∧
    ep0_bytes (handleSetupPacket sample_params ⟨0x80, 8, 0, 0, 1⟩
      (handleSetupPacket sample_params ⟨0x00, 9, 0x0203, 0, 0⟩ Engine.init)).log =
      ep0_bytes (handleSetupPacket sample_params ⟨0x00, 9, 0x0203, 0, 0⟩ Engine.init).log ++
        [0x0203 % 256] :=
  ⟨by decide, by decide, by decide, by decide,
    (set_get_configuration_roundtrip sample_params ⟨0x00, 9, 0x0203, 0, 0⟩ ⟨0x80, 8, 0, 0, 1⟩
      Engine.init (by decide) (by decide) (by decide) (by decide) (by decide) (by decide)
      (by decide)).2.1⟩

/-- C4: for every device-to-host Device-recipient GetConfiguration request with
`wLength >= 1`, `handleSetupPacket` loads exactly one byte into endpoint 0: 0
whenever the device state is not Configured, whatever configuration value is
stored, and the stored configuration value when the state is Configured; the
request is not stalled (no stall request is issued and `UECONX` is unchanged). -/
theorem get_configuration_reply (g_params : usb_parameters) (rq : usb_request) (e : Engine)
    (hdir : USB_RQT_IS_DEVICE_TO_HOST rq.bmRequestType = true)
    (hrcp : rq.bmRequestType &&& USB_RQT_RECIPIENT_MASK = USB_RQT_RECIPIENT_DEVICE)
    (hrq : rq.bRequest = USB_RQ_GET_CONFIGURATION)
    (hlen : 1 ≤ rq.wLength) :
    (e.g_device_state ≠ STATE_CONFIGURED →
      ep0_bytes (handleSetupPacket g_params rq e).log = ep0_bytes e.log ++ [0]) ∧
    (e.g_device_state = STATE_CONFIGURED →
      ep0_bytes (handleSetupPacket g_params rq e).log =
        ep0_bytes e.log ++ [e.g_current_config]) ∧
    HwEvent.STALLRQ ∉ (handleSetupPacket g_params rq e).log.drop e.log.length ∧
    (handleSetupPacket g_params rq e).UECONX = e.UECONX := by
  rw [get_configuration_eq g_params rq e hdir hrcp hrq hlen]
  refine ⟨?_, ?_, ?_, rfl⟩
  · intro hst
    simp [hst, ep0_bytes, ep0_byte, List.filterMap_append]
  · intro hst
    simp [hst, ep0_bytes, ep0_byte, List.filterMap_append]
  · simp

theorem get_configuration_reply_witness :
    USB_RQT_IS_DEVICE_TO_HOST 0x80 = true ∧
    (0x80 &&& USB_RQT_RECIPIENT_MASK = USB_RQT_RECIPIENT_DEVICE) ∧
    sample_unconfigured.g_device_state ≠ STATE_CONFIGURED ∧
    ep0_bytes (handleSetupPacket sample_params ⟨0x80, 8, 0, 0, 1⟩ sample_unconfigured).log =
      ep0_bytes sample_unconfigured.log ++ [0] :=
  ⟨by decide, by decide, by decide,
    (get_configuration_reply sample_params ⟨0x80, 8, 0, 0, 1⟩ sample_unconfigured (by decide)
      (by decide) (by decide) (by decide)).1 (by decide)⟩

/-! ## Descriptor reads -/

/-- The events of the status-stage handshake. -/
theorem ep0_bytes_handshake :
    ep0_bytes [HwEvent.clear_TXINI, HwEvent.wait_RXOUTI, HwEvent.clear_RXOUTI] = [] := rfl

/-- What GetDescriptor(Device) does to the engine. -/
theorem get_descriptor_device_eq (g_params : usb_parameters) (rq : usb_request) (e : Engine)
    (hdir : USB_RQT_IS_DEVICE_TO_HOST rq.bmRequestType = true)
    (hrcp : rq.bmRequestType &&& USB_RQT_RECIPIENT_MASK = USB_RQT_RECIPIENT_DEVICE)
    (hrq : rq.bRequest = USB_RQ_GET_DESCRIPTOR)
    (hty : rq.wValue >>> 8 = DEVICE_DESCRIPTOR) :
    handleSetupPacket g_params rq e =
      { e with UENUM := 0,
               log := e.log ++
                 ((mem g_params.devdesc (min sizeof_usb_device_descriptor rq.wLength)).map
                    (HwEvent.UEDATX 0) ++
                  [HwEvent.clear_TXINI, HwEvent.wait_RXOUTI, HwEvent.clear_RXOUTI]) } := by
  rw [handleSetupPacket_device_to_host g_params rq e hdir]
  have h1 : USB_RQ_GET_DESCRIPTOR ≠ USB_RQ_GET_STATUS := by decide
  have h2 : USB_RQ_GET_DESCRIPTOR ≠ USB_RQ_GET_CONFIGURATION := by decide
  simp [handleSetupPacket_in, handleSetupPacket_in_handlers, hrcp, hrq, h1, h2, hty, buf2EP_eq, clear_TXINI, Engine.emit]

/-- What GetDescriptor(Configuration) does to the engine. -/
theorem get_descriptor_configuration_eq (g_params : usb_parameters) (rq : usb_request)
    (e : Engine)
    (hdir : USB_RQT_IS_DEVICE_TO_HOST rq.bmRequestType = true)
    (hrcp : rq.bmRequestType &&& USB_RQT_RECIPIENT_MASK = USB_RQT_RECIPIENT_DEVICE)
    (hrq : rq.bRequest = USB_RQ_GET_DESCRIPTOR)
    (hty : rq.wValue >>> 8 = CONFIGURATION_DESCRIPTOR) :
    handleSetupPacket g_params rq e =
      { e with UENUM := 0,
               log := e.log ++
                 (long_events g_params.configdesc
                    (min g_params.configdesc_ttllen rq.wLength) 0 ++
                  [HwEvent.clear_TXINI, HwEvent.wait_RXOUTI, HwEvent.clear_RXOUTI]) } := by
  rw [handleSetupPacket_device_to_host g_params rq e hdir]
  have h1 : USB_RQ_GET_DESCRIPTOR ≠ USB_RQ_GET_STATUS := by decide
  have h2 : USB_RQ_GET_DESCRIPTOR ≠ USB_RQ_GET_CONFIGURATION := by decide
  have h3 : CONFIGURATION_DESCRIPTOR ≠ DEVICE_DESCRIPTOR := by decide
  simp [handleSetupPacket_in, handleSetupPacket_in_handlers, hrcp, hrq, h1, h2, h3, hty, longDescriptorHelper_eq, clear_TXINI,
    Engine.emit]

/-- What GetDescriptor(Report) does to the engine when `wIndex` passes the guard. -/
theorem get_descriptor_report_eq (g_params : usb_parameters) (rq : usb_request) (e : Engine)
    (hdir : USB_RQT_IS_DEVICE_TO_HOST rq.bmRequestType = true)
    (hrcp : rq.bmRequestType &&& USB_RQT_RECIPIENT_MASK = USB_RQT_RECIPIENT_INTERFACE)
    (htype : rq.bmRequestType &&& USB_RQT_TYPE_MASK = USB_RQT_STANDARD)
    (hrq : rq.bRequest = USB_RQ_GET_DESCRIPTOR)
    (hty : rq.wValue >>> 8 = REPORT_DESCRIPTOR)
    (hidx : rq.wIndex ≤ g_params.n_hid_interfaces) :
    handleSetupPacket g_params rq e =
      { e with UENUM := 0,
               log := e.log ++
                 ([HwEvent.hid_params rq.wIndex, HwEvent.hid_params rq.wIndex] ++
                  long_events (g_params.hid_params rq.wIndex).reportdesc
                    (min (g_params.hid_params rq.wIndex).reportdesc_len rq.wLength) 0 ++
                  [HwEvent.clear_TXINI, HwEvent.wait_RXOUTI, HwEvent.clear_RXOUTI]) } := by
  rw [handleSetupPacket_device_to_host g_params rq e hdir]
  have h0 : USB_RQT_RECIPIENT_INTERFACE ≠ USB_RQT_RECIPIENT_DEVICE := by decide
  have h1 : USB_RQ_GET_DESCRIPTOR ≠ USB_RQ_GET_STATUS := by decide
  have hnot : ¬ rq.wIndex > g_params.n_hid_interfaces := by omega
  simp [handleSetupPacket_in, handleSetupPacket_in_handlers, hrcp, htype, hrq, h0, h1, hty, hnot, longDescriptorHelper_eq,
    clear_TXINI, access_hid_params, Engine.emit]

/-- C5: for every GetDescriptor request for the Device descriptor, the
Configuration descriptor (Device recipient), or the Report descriptor of an
interface index below `n_hid_interfaces` (Interface recipient, standard
type), and for every `wLength`, the number of bytes loaded into
endpoint 0 is the minimum of the actual descriptor length and `wLength`, the
actual length being `sizeof(struct usb_device_descriptor)`, `configdesc_ttllen`
or `reportdesc_len` respectively. -/
theorem get_descriptor_length (g_params : usb_parameters) (rq : usb_request) (e : Engine)
    (hdir : USB_RQT_IS_DEVICE_TO_HOST rq.bmRequestType = true)
    (hrq : rq.bRequest = USB_RQ_GET_DESCRIPTOR) :
    (rq.bmRequestType &&& USB_RQT_RECIPIENT_MASK = USB_RQT_RECIPIENT_DEVICE →
      rq.wValue >>> 8 = DEVICE_DESCRIPTOR →
      (reply g_params rq e).length = min sizeof_usb_device_descriptor rq.wLength) ∧
    (rq.bmRequestType &&& USB_RQT_RECIPIENT_MASK = USB_RQT_RECIPIENT_DEVICE →
      rq.wValue >>> 8 = CONFIGURATION_DESCRIPTOR →
      (reply g_params rq e).length = min g_params.configdesc_ttllen rq.wLength) ∧
    (rq.bmRequestType &&& USB_RQT_RECIPIENT_MASK = USB_RQT_RECIPIENT_INTERFACE →
      rq.bmRequestType &&& USB_RQT_TYPE_MASK = USB_RQT_STANDARD →
      rq.wValue >>> 8 = REPORT_DESCRIPTOR →
      rq.wIndex < g_params.n_hid_interfaces →
      (reply g_params rq e).length =
        min (g_params.hid_params rq.wIndex).reportdesc_len rq.wLength) := by
  refine ⟨?_, ?_, ?_⟩
  · intro hrcp hty
    rw [reply, get_descriptor_device_eq g_params rq e hdir hrcp hrq hty]
    simp only [List.drop_left, ep0_bytes_append, ep0_bytes_map_UEDATX, ep0_bytes_handshake,
      List.append_nil, mem_length]
  · intro hrcp hty
    rw [reply, get_descriptor_configuration_eq g_params rq e hdir hrcp hrq hty]
    simp only [List.drop_left, ep0_bytes_append, ep0_bytes_long_events, ep0_bytes_handshake,
      List.append_nil, mem_length]
  · intro hrcp htype hty hidx
    rw [reply, get_descriptor_report_eq g_params rq e hdir hrcp htype hrq hty (Nat.le_of_lt hidx)]
    have hacc : ep0_bytes [HwEvent.hid_params rq.wIndex, HwEvent.hid_params rq.wIndex] = [] := rfl
    simp only [List.drop_left, ep0_bytes_append, ep0_bytes_long_events, ep0_bytes_handshake,
      List.append_nil, mem_length, hacc, List.nil_append]

theorem get_descriptor_length_witness :
    USB_RQT_IS_DEVICE_TO_HOST 0x81 = true ∧
    (0x81 &&& USB_RQT_RECIPIENT_MASK = USB_RQT_RECIPIENT_INTERFACE) ∧
    (0x81 &&& USB_RQT_TYPE_MASK = USB_RQT_STANDARD) ∧
    (0x2200 >>> 8 = REPORT_DESCRIPTOR) ∧
    (0 < sample_params.n_hid_interfaces) ∧
    (reply sample_params ⟨0x81, 6, 0x2200, 0, 255⟩ Engine.init).length =
      min (sample_params.hid_params 0).reportdesc_len 255 :=
  ⟨by decide, by decide, by decide, by decide, by decide,
    (get_descriptor_length sample_params ⟨0x81, 6, 0x2200, 0, 255⟩ Engine.init (by decide)
      (by decide)).2.2 (by decide) (by decide) (by decide) (by decide)⟩

/-! ## String descriptors -/

theorem wcslen_loop_eq (str : Nat → Nat) (n : Nat) (hz : str n = 0) :
    ∀ (fuel i : Nat), (∀ j, i ≤ j → j < n → str j ≠ 0) → i ≤ n → n - i ≤ fuel →
      wcslen_loop str fuel i = n := by
  intro fuel
  induction fuel with
  | zero =>
    intro i _ hin hfuel
    simp only [wcslen_loop]
    omega
  | succ fuel ih =>
    intro i hnz hin hfuel
    simp only [wcslen_loop]
    by_cases hi : i = n
    · subst hi
      simp [hz]
    · have hlt : i < n := by omega
      simp only [hnz i (Nat.le_refl i) hlt, ne_eq, not_false_eq_true, if_true]
      exact ih (i + 1) (fun j hj hjn => hnz j (by omega) hjn) (by omega) (by omega)

theorem wcslen_eq (str : Nat → Nat) (n : Nat) (hnz : ∀ j, j < n → str j ≠ 0) (hz : str n = 0)
    (hn : n ≤ 32767) : wcslen str = n :=
  wcslen_loop_eq str n hz 32767 0 (fun j _ hj => hnz j hj) (Nat.zero_le n) (by omega)

theorem mem_bytes_two (a b : Nat) : mem (bytes [a, b]) 2 = [a, b] := rfl

/-- What the string case appends for a table entry of `n` characters when at
least the two header bytes are requested. -/
theorem handleSetupPacket_string_eq (g_params : usb_parameters) (rq : usb_request) (e : Engine)
    (n : Nat)
    (hid : 0 < rq.wValue &&& 0xff) (hid2 : rq.wValue &&& 0xff ≤ g_params.num_strings)
    (hnz : ∀ j, j < n → g_params.strings ((rq.wValue &&& 0xff) - 1) j ≠ 0)
    (hz : g_params.strings ((rq.wValue &&& 0xff) - 1) n = 0)
    (hsz : 2 + 2 * n ≤ 255) (hlen : 2 ≤ rq.wLength) (hlen16 : rq.wLength < 65536) :
    handleSetupPacket_string g_params rq e =
      { e with UENUM := 0,
               log := e.log ++
                 ([2 + 2 * n, STRING_DESCRIPTOR] ++
                   mem (wchar_bytes (g_params.strings ((rq.wValue &&& 0xff) - 1)))
                     (min (2 * n) (rq.wLength - 2))).map (HwEvent.UEDATX 0) } := by
  have hw := wcslen_eq _ n hnz hz (by omega)
  have hslen : int_of_uint16 ((n <<< 1) % 65536) = ((2 * n : Nat) : Int) := by
    rw [Nat.shiftLeft_eq]
    unfold int_of_uint16
    have : n * 2 ^ 1 % 65536 = 2 * n := by omega
    rw [this]
    split
    · rfl
    · omega
  have hb : ((2 + ((2 * n : Nat) : Int)) % 256).toNat = 2 + 2 * n := by omega
  have hl1 : uint16_of_int (int_of_uint16 rq.wLength) = rq.wLength := by
    unfold uint16_of_int int_of_uint16
    split <;> omega
  have hl2 : uint16_of_int (int_of_uint16 rq.wLength - 2) = rq.wLength - 2 := by
    unfold uint16_of_int int_of_uint16
    split <;> omega
  have hs : uint16_of_int ((2 * n : Nat) : Int) = 2 * n := by
    unfold uint16_of_int
    omega
  have hmin : min 2 rq.wLength = 2 := by omega
  unfold handleSetupPacket_string
  simp only [hid, hid2, and_self, if_true, hw, hslen, hb, hl1, hl2, hs, buf2EP_eq, hmin,
    mem_bytes_two]
  simp [List.append_assoc]

theorem take_mem (src : Nat → Nat) (k m : Nat) : (mem src m).take k = mem src (min k m) := by
  simp [mem, ← List.map_take, List.take_range]

/-- What GetDescriptor(String) loads for a table entry of `n` characters when
`wLength` is at least 2: the first `min wLength (2+2n)` bytes of the
descriptor. -/
theorem string_descriptor_reply_of_two_le (g_params : usb_parameters) (rq : usb_request)
    (e : Engine) (n : Nat)
    (hdir : USB_RQT_IS_DEVICE_TO_HOST rq.bmRequestType = true)
    (hrcp : rq.bmRequestType &&& USB_RQT_RECIPIENT_MASK = USB_RQT_RECIPIENT_DEVICE)
    (hrq : rq.bRequest = USB_RQ_GET_DESCRIPTOR)
    (hty : rq.wValue >>> 8 = STRING_DESCRIPTOR)
    (hid : 0 < rq.wValue &&& 0xff) (hid2 : rq.wValue &&& 0xff ≤ g_params.num_strings)
    (hnz : ∀ j, j < n → g_params.strings ((rq.wValue &&& 0xff) - 1) j ≠ 0)
    (hz : g_params.strings ((rq.wValue &&& 0xff) - 1) n = 0)
    (hsz : 2 + 2 * n ≤ 255) (hlen : 2 ≤ rq.wLength) (hlen16 : rq.wLength < 65536) :
    reply g_params rq e =
      ([2 + 2 * n, STRING_DESCRIPTOR] ++
        mem (wchar_bytes (g_params.strings ((rq.wValue &&& 0xff) - 1))) (2 * n)).take
        (min rq.wLength (2 + 2 * n)) := by
  have h1 : USB_RQ_GET_DESCRIPTOR ≠ USB_RQ_GET_STATUS := by decide
  have h2 : USB_RQ_GET_DESCRIPTOR ≠ USB_RQ_GET_CONFIGURATION := by decide
  have h3 : STRING_DESCRIPTOR ≠ DEVICE_DESCRIPTOR := by decide
  have h4 : STRING_DESCRIPTOR ≠ CONFIGURATION_DESCRIPTOR := by decide
  have htake : ([2 + 2 * n, STRING_DESCRIPTOR] ++
        mem (wchar_bytes (g_params.strings ((rq.wValue &&& 0xff) - 1))) (2 * n)).take
        (min rq.wLength (2 + 2 * n)) =
      [2 + 2 * n, STRING_DESCRIPTOR] ++
        mem (wchar_bytes (g_params.strings ((rq.wValue &&& 0xff) - 1)))
          (min (2 * n) (rq.wLength - 2)) := by
    have hlen2 : [2 + 2 * n, STRING_DESCRIPTOR].length = 2 := rfl
    have hm : min (min rq.wLength (2 + 2 * n) - 2) (2 * n) = min (2 * n) (rq.wLength - 2) := by
      omega
    rw [List.take_append_eq_append_take, take_mem, hlen2, hm,
      List.take_of_length_le (by rw [hlen2]; omega)]
  rw [htake, reply, handleSetupPacket_device_to_host g_params rq e hdir]
  simp only [handleSetupPacket_in, handleSetupPacket_in_handlers, hrcp, hrq, h1, h2, h3, h4, hty, if_true, if_false,
    handleSetupPacket_string_eq g_params rq e n hid hid2 hnz hz hsz hlen hlen16, ne_eq,
    not_true_eq_false, clear_TXINI, Engine.emit]
  simp only [List.append_assoc, List.drop_left, ep0_bytes_append, ep0_bytes_map_UEDATX]
  simp [ep0_bytes, ep0_byte]

/-- C6 (evaluation at the failing input): for the one-character string `"A"` at
string index 1, GetDescriptor(String) with `wLength = 1` loads the three bytes
4, 0x41, 0x00 where one byte was requested, and with `wLength = 0` it loads
the two string bytes where none was requested; with `wLength = 2` it loads
exactly the two header bytes. -/
theorem string_descriptor_short_wLength :
    wcslen (sample_params.strings 0) = 1 ∧
    reply sample_params ⟨0x80, USB_RQ_GET_DESCRIPTOR, 0x0301, 0, 1⟩ Engine.init
      = [4, 0x41, 0x00] ∧
    reply sample_params ⟨0x80, USB_RQ_GET_DESCRIPTOR, 0x0301, 0, 0⟩ Engine.init
      = [0x41, 0x00] ∧
    reply sample_params ⟨0x80, USB_RQ_GET_DESCRIPTOR, 0x0301, 0, 2⟩ Engine.init
      = [4, STRING_DESCRIPTOR] := by
  decide

/-! ## Packets of `longDescriptorHelper` -/

theorem packets_aux_map_UEDATX (bs : List Nat) :
    ∀ (l : List HwEvent) (cur : List Nat),
      packets_aux (bs.map (HwEvent.UEDATX 0) ++ l) cur = packets_aux l (cur ++ bs) := by
  induction bs with
  | nil => intro l cur; simp
  | cons b bs ih =>
    intro l cur
    rw [List.map_cons, List.cons_append]
    show packets_aux (bs.map (HwEvent.UEDATX 0) ++ l) (if (0 : Nat) = 0 then cur ++ [b] else cur)
      = packets_aux l (cur ++ b :: bs)
    rw [if_pos rfl, ih]
    simp

/-- The packets of the loop of `longDescriptorHelper`: one full packet, then the
packets of the rest, while more than 64 bytes remain; else one last packet. -/
theorem packets_long_events (data : Nat → Nat) (todo pos : Nat) :
    packets (long_events data todo pos) =
      if todo > 64 then
        mem (fun i => data (pos + i)) 64 :: packets (long_events data (todo - 64) (pos + 64))
      else [mem (fun i => data (pos + i)) todo] := by
  rw [long_events]
  by_cases h : todo > 64
  · simp only [h, if_true, packets, List.append_assoc]
    rw [packets_aux_map_UEDATX]
    simp [packets_aux]
  · simp only [h, if_false, packets]
    rw [packets_aux_map_UEDATX]
    simp [packets_aux]

/-- The last packet of the loop of `longDescriptorHelper`. -/
theorem getLast_packets_long_events (data : Nat → Nat) (todo : Nat) :
    ∀ pos : Nat, ∃ pk : List Nat,
      (packets (long_events data todo pos)).getLast? = some pk ∧
      pk.length = todo - 64 * ((todo - 1) / 64) := by
  induction todo using Nat.strong_induction_on with
  | _ todo ih =>
    intro pos
    rw [packets_long_events]
    by_cases h : todo > 64
    · obtain ⟨pk, hpk, hlen⟩ := ih (todo - 64) (by omega) (pos + 64)
      refine ⟨pk, ?_, ?_⟩
      · simp only [h, if_true]
        rw [List.getLast?_cons, hpk]
        rfl
      · rw [hlen]
        omega
    · refine ⟨mem (fun i => data (pos + i)) todo, ?_, ?_⟩
      · simp [h]
      · rw [mem_length]
        have : (todo - 1) / 64 = 0 := by omega
        rw [this]
        omega

/-- C7 (as stated, refuted): for a 64-byte descriptor read with a requested
length of 64, the only and last packet emitted by `longDescriptorHelper`
carries 64 bytes, which is not fewer than 64. -/
theorem long_descriptor_last_packet_counterexample :
    (packets ((longDescriptorHelper (fun _ => 0) 64 64 0 Engine.init).log.drop
      Engine.init.log.length)).getLast? = some (List.replicate 64 0) ∧
    ¬ (List.replicate 64 0).length < 64 := by
  constructor
  · rw [longDescriptorHelper_eq]
    simp only [List.drop_left, Nat.min_self]
    rw [packets_long_events]
    decide
  · decide

/-- C7 (amended): for every descriptor length `len` and requested length
`rq_len`, the last packet emitted by `longDescriptorHelper` carries at most 64
bytes; it carries fewer than 64 bytes exactly when the number of bytes to send,
`min len rq_len`, is not a positive multiple of 64, and it carries exactly 64
bytes when that number is a positive multiple of 64. -/
theorem long_descriptor_last_packet (data : Nat → Nat) (len rq_len progmem : Nat) (e : Engine) :
    ∃ pk : List Nat,
      (packets ((longDescriptorHelper data len rq_len progmem e).log.drop
        e.log.length)).getLast? = some pk ∧
      pk.length ≤ 64 ∧
      (pk.length < 64 ↔ ¬ (0 < min len rq_len ∧ min len rq_len % 64 = 0)) ∧
      (0 < min len rq_len ∧ min len rq_len % 64 = 0 → pk.length = 64) := by
  obtain ⟨pk, hpk, hlen⟩ := getLast_packets_long_events data (min len rq_len) 0
  refine ⟨pk, ?_, ?_, ?_, ?_⟩
  · rw [longDescriptorHelper_eq]
    simpa only [List.drop_left] using hpk
  · rw [hlen]; omega
  · rw [hlen]; omega
  · rw [hlen]; omega

/-! ## Configuration descriptor reads -/

theorem mem_prefix_of_le (src : Nat → Nat) (a b : Nat) (h : a ≤ b) : mem src a <+: mem src b := by
  have hb : b = a + (b - a) := by omega
  rw [hb, mem_add]
  exact List.prefix_append _ _

/-- The bytes loaded by GetDescriptor(Configuration). -/
theorem reply_configuration (g_params : usb_parameters) (rq : usb_request) (e : Engine)
    (hdir : USB_RQT_IS_DEVICE_TO_HOST rq.bmRequestType = true)
    (hrcp : rq.bmRequestType &&& USB_RQT_RECIPIENT_MASK = USB_RQT_RECIPIENT_DEVICE)
    (hrq : rq.bRequest = USB_RQ_GET_DESCRIPTOR)
    (hty : rq.wValue >>> 8 = CONFIGURATION_DESCRIPTOR) :
    reply g_params rq e =
      mem g_params.configdesc (min g_params.configdesc_ttllen rq.wLength) := by
  rw [reply, get_descriptor_configuration_eq g_params rq e hdir hrcp hrq hty]
  simp only [List.drop_left, ep0_bytes_append, ep0_bytes_long_events, ep0_bytes_handshake,
    List.append_nil, Nat.zero_add]

/-- C8: for every configuration descriptor and every two requested lengths
`a <= b`, the bytes returned for GetDescriptor(Configuration) with `wLength = a`
are a prefix of the bytes returned with `wLength = b`; with `a = 9` and a
descriptor of at least 9 bytes they are exactly the first 9 bytes, and with
`b >= configdesc_ttllen` they are the whole descriptor, `configdesc_ttllen`
bytes long. -/
theorem configuration_descriptor_prefix (g_params : usb_parameters) (ra rb : usb_request)
    (ea eb : Engine)
    (hadir : USB_RQT_IS_DEVICE_TO_HOST ra.bmRequestType = true)
    (harcp : ra.bmRequestType &&& USB_RQT_RECIPIENT_MASK = USB_RQT_RECIPIENT_DEVICE)
    (harq : ra.bRequest = USB_RQ_GET_DESCRIPTOR)
    (haty : ra.wValue >>> 8 = CONFIGURATION_DESCRIPTOR)
    (hbdir : USB_RQT_IS_DEVICE_TO_HOST rb.bmRequestType = true)
    (hbrcp : rb.bmRequestType &&& USB_RQT_RECIPIENT_MASK = USB_RQT_RECIPIENT_DEVICE)
    (hbrq : rb.bRequest = USB_RQ_GET_DESCRIPTOR)
    (hbty : rb.wValue >>> 8 = CONFIGURATION_DESCRIPTOR)
    (hab : ra.wLength ≤ rb.wLength) :
    reply g_params ra ea <+: reply g_params rb eb ∧
    (ra.wLength = 9 → 9 ≤ g_params.configdesc_ttllen →
      reply g_params ra ea = mem g_params.configdesc 9) ∧
    (g_params.configdesc_ttllen ≤ rb.wLength →
      reply g_params rb eb = mem g_params.configdesc g_params.configdesc_ttllen ∧
      (reply g_params rb eb).length = g_params.configdesc_ttllen) := by
  rw [reply_configuration g_params ra ea hadir harcp harq haty,
    reply_configuration g_params rb eb hbdir hbrcp hbrq hbty]
  refine ⟨mem_prefix_of_le _ _ _ (by omega), ?_, ?_⟩
  · intro h9 hl
    rw [h9, Nat.min_eq_right hl]
  · intro hl
    rw [Nat.min_eq_left hl]
    exact ⟨rfl, mem_length _ _⟩

theorem configuration_descriptor_prefix_witness :
    USB_RQT_IS_DEVICE_TO_HOST 0x80 = true ∧
    (0x80 &&& USB_RQT_RECIPIENT_MASK = USB_RQT_RECIPIENT_DEVICE) ∧
    (0x0200 >>> 8 = CONFIGURATION_DESCRIPTOR) ∧
    (9 ≤ sample_params.configdesc_ttllen) ∧
    (sample_params.configdesc_ttllen ≤ 255) ∧
    reply sample_params ⟨0x80, 6, 0x0200, 0, 9⟩ Engine.init <+:
      reply sample_params ⟨0x80, 6, 0x0200, 0, 255⟩ Engine.init ∧
    reply sample_params ⟨0x80, 6, 0x0200, 0, 9⟩ Engine.init = mem sample_params.configdesc 9 ∧
    reply sample_params ⟨0x80, 6, 0x0200, 0, 255⟩ Engine.init =
      mem sample_params.configdesc sample_params.configdesc_ttllen :=
  have h := configuration_descriptor_prefix sample_params ⟨0x80, 6, 0x0200, 0, 9⟩
    ⟨0x80, 6, 0x0200, 0, 255⟩ Engine.init Engine.init (by decide) (by decide) (by decide)
    (by decide) (by decide) (by decide) (by decide) (by decide) (by decide)
  ⟨by decide, by decide, by decide, by decide, by decide, h.1, h.2.1 rfl (by decide),
    (h.2.2 (by decide)).1⟩

/-! ## The interface index guard -/

/-- A class Get_Report whose `wIndex` is above `n_hid_interfaces` reads no table
entry: only the status handshake runs. -/
theorem get_report_above_eq (g_params : usb_parameters) (rq : usb_request) (e : Engine)
    (hdir : USB_RQT_IS_DEVICE_TO_HOST rq.bmRequestType = true)
    (hrcp : rq.bmRequestType &&& USB_RQT_RECIPIENT_MASK = USB_RQT_RECIPIENT_INTERFACE)
    (htype : rq.bmRequestType &&& USB_RQT_TYPE_MASK = USB_RQT_CLASS)
    (hrq : rq.bRequest = HID_CLSRQ_GET_REPORT)
    (hidx : rq.wIndex > g_params.n_hid_interfaces) :
    handleSetupPacket g_params rq e =
      { e with log := e.log ++
          [HwEvent.clear_TXINI, HwEvent.wait_RXOUTI, HwEvent.clear_RXOUTI] } := by
  rw [handleSetupPacket_device_to_host g_params rq e hdir]
  have h0 : USB_RQT_RECIPIENT_INTERFACE ≠ USB_RQT_RECIPIENT_DEVICE := by decide
  have h1 : USB_RQT_CLASS ≠ USB_RQT_STANDARD := by decide
  simp [handleSetupPacket_in, handleSetupPacket_in_handlers, hrcp, htype, hrq, h0, h1, hidx, clear_TXINI, Engine.emit]

/-- A GetDescriptor(Report) whose `wIndex` is above `n_hid_interfaces` reads no
table entry: the request is stalled. -/
theorem get_descriptor_report_above_eq (g_params : usb_parameters) (rq : usb_request)
    (e : Engine)
    (hdir : USB_RQT_IS_DEVICE_TO_HOST rq.bmRequestType = true)
    (hrcp : rq.bmRequestType &&& USB_RQT_RECIPIENT_MASK = USB_RQT_RECIPIENT_INTERFACE)
    (htype : rq.bmRequestType &&& USB_RQT_TYPE_MASK = USB_RQT_STANDARD)
    (hrq : rq.bRequest = USB_RQ_GET_DESCRIPTOR)
    (hty : rq.wValue >>> 8 = REPORT_DESCRIPTOR)
    (hidx : rq.wIndex > g_params.n_hid_interfaces) :
    handleSetupPacket g_params rq e = set_STALLRQ e := by
  rw [handleSetupPacket_device_to_host g_params rq e hdir]
  have h0 : USB_RQT_RECIPIENT_INTERFACE ≠ USB_RQT_RECIPIENT_DEVICE := by decide
  have h1 : USB_RQ_GET_DESCRIPTOR ≠ USB_RQ_GET_STATUS := by decide
  simp [handleSetupPacket_in, handleSetupPacket_in_handlers, hrcp, htype, hrq, h0, h1, hty, hidx]

/-- A Set_Report completion whose `wIndex` is above `n_hid_interfaces` reads no
table entry: the engine is left as it was. -/
theorem handleDataPacket_above_eq (g_params : usb_parameters) (rq : usb_request)
    (dat : Nat → Nat) (len : Nat) (e : Engine)
    (hidx : rq.wIndex > g_params.n_hid_interfaces) :
    handleDataPacket g_params rq dat len e = e := by
  unfold handleDataPacket
  split
  · simp [hidx]
  · rfl

/-- A class Get_Report whose `wIndex` is at most `n_hid_interfaces`, the value
`n_hid_interfaces` included, reads the table entry `hid_params[wIndex]`. -/
theorem get_report_reads_entry (g_params : usb_parameters) (rq : usb_request) (e : Engine)
    (hdir : USB_RQT_IS_DEVICE_TO_HOST rq.bmRequestType = true)
    (hrcp : rq.bmRequestType &&& USB_RQT_RECIPIENT_MASK = USB_RQT_RECIPIENT_INTERFACE)
    (htype : rq.bmRequestType &&& USB_RQT_TYPE_MASK = USB_RQT_CLASS)
    (hrq : rq.bRequest = HID_CLSRQ_GET_REPORT)
    (hidx : rq.wIndex ≤ g_params.n_hid_interfaces) :
    HwEvent.hid_params rq.wIndex ∈ (handleSetupPacket g_params rq e).log := by
  rw [handleSetupPacket_device_to_host g_params rq e hdir]
  have h0 : USB_RQT_RECIPIENT_INTERFACE ≠ USB_RQT_RECIPIENT_DEVICE := by decide
  have h1 : USB_RQT_CLASS ≠ USB_RQT_STANDARD := by decide
  have hnot : ¬ rq.wIndex > g_params.n_hid_interfaces := by omega
  simp only [handleSetupPacket_in, handleSetupPacket_in_handlers, hrcp, htype, hrq, h0, h1, hnot, if_true, if_false]
  cases hg : (g_params.hid_params rq.wIndex).getReport with
  | none => simp [access_hid_params, set_STALLRQ, Engine.emit]
  | some f =>
    by_cases hl : (f (g_params.hid_params rq.wIndex).ctx rq).1 = 0 <;>
      simp [hl, access_hid_params, set_STALLRQ, clear_TXINI, buf2EP_eq, Engine.emit]

/-- C9 (evaluation at the failing input): with one HID interface in use
(`n_hid_interfaces = 1`), a request with `wIndex = 1` passes the guard
`wIndex > n_hid_interfaces` and the table entry `hid_params[1]` is read by
GetDescriptor(Report), by the class Get_Report and by the Set_Report
completion; only for `wIndex = 2` is no entry read. -/
theorem hid_params_read_at_n_hid_interfaces :
    sample_params.n_hid_interfaces = 1 ∧
    HwEvent.hid_params 1 ∈
      (handleSetupPacket sample_params ⟨0x81, USB_RQ_GET_DESCRIPTOR, 0x2200, 1, 255⟩
        Engine.init).log ∧
    HwEvent.hid_params 1 ∈
      (handleSetupPacket sample_params ⟨0xA1, HID_CLSRQ_GET_REPORT, 0x0101, 1, 64⟩
        Engine.init).log ∧
    HwEvent.hid_params 1 ∈
      (handleDataPacket sample_params ⟨0x21, HID_CLSRQ_SET_REPORT, 0x0200, 1, 4⟩
        (bytes [1, 2, 3, 4]) 4 Engine.init).log ∧
    HwEvent.hid_params 2 ∉
      (handleSetupPacket sample_params ⟨0xA1, HID_CLSRQ_GET_REPORT, 0x0101, 2, 64⟩
        Engine.init).log := by
  refine ⟨rfl, ?_, by decide, by decide, by decide⟩
  rw [get_descriptor_report_eq sample_params _ Engine.init (by decide) (by decide) (by decide)
    (by decide) (by decide) (by decide)]
  simp

/-- C10 (evaluation at the failing input): with one HID interface in use and
the management interface still stored at `hid_params[1]`, a class Get_Report
with `wIndex = 1 = n_hid_interfaces` is serviced: the `getReport` callback of
entry 1 is called, its three bytes are loaded into endpoint 0, and no stall is
requested. -/
theorem get_report_at_n_hid_interfaces_serviced :
    sample_params.n_hid_interfaces = 1 ∧
    HwEvent.getReport 1 ∈
      (handleSetupPacket sample_params ⟨0xA1, HID_CLSRQ_GET_REPORT, 0x0101, 1, 64⟩
        Engine.init).log ∧
    reply sample_params ⟨0xA1, HID_CLSRQ_GET_REPORT, 0x0101, 1, 64⟩ Engine.init
      = [0xAA, 0xBB, 0xCC] ∧
    HwEvent.STALLRQ ∉
      (handleSetupPacket sample_params ⟨0xA1, HID_CLSRQ_GET_REPORT, 0x0101, 1, 64⟩
        Engine.init).log ∧
    (handleSetupPacket sample_params ⟨0xA1, HID_CLSRQ_GET_REPORT, 0x0101, 1, 64⟩
      Engine.init).UECONX = Engine.init.UECONX := by
  decide

/-! ## Class Get_Report -/

/-- What a class Get_Report does to the engine when `wIndex` passes the guard
and the callback of the entry returns a nonzero length. -/
theorem get_report_eq (g_params : usb_parameters) (rq : usb_request) (e : Engine)
    (f : Nat → usb_request → Nat × (Nat → Nat))
    (hdir : USB_RQT_IS_DEVICE_TO_HOST rq.bmRequestType = true)
    (hrcp : rq.bmRequestType &&& USB_RQT_RECIPIENT_MASK = USB_RQT_RECIPIENT_INTERFACE)
    (htype : rq.bmRequestType &&& USB_RQT_TYPE_MASK = USB_RQT_CLASS)
    (hrq : rq.bRequest = HID_CLSRQ_GET_REPORT)
    (hidx : rq.wIndex ≤ g_params.n_hid_interfaces)
    (hf : (g_params.hid_params rq.wIndex).getReport = some f)
    (hlen : (f (g_params.hid_params rq.wIndex).ctx rq).1 ≠ 0) :
    handleSetupPacket g_params rq e =
      { e with UENUM := 0,
               log := e.log ++
                 ([HwEvent.hid_params rq.wIndex, HwEvent.hid_params rq.wIndex,
                   HwEvent.hid_params rq.wIndex, HwEvent.getReport rq.wIndex] ++
                  (mem (f (g_params.hid_params rq.wIndex).ctx rq).2
                    (min (f (g_params.hid_params rq.wIndex).ctx rq).1 rq.wLength)).map
                    (HwEvent.UEDATX 0) ++
                  [HwEvent.clear_TXINI, HwEvent.wait_RXOUTI, HwEvent.clear_RXOUTI]) } := by
  rw [handleSetupPacket_device_to_host g_params rq e hdir]
  have h0 : USB_RQT_RECIPIENT_INTERFACE ≠ USB_RQT_RECIPIENT_DEVICE := by decide
  have h1 : USB_RQT_CLASS ≠ USB_RQT_STANDARD := by decide
  have hnot : ¬ rq.wIndex > g_params.n_hid_interfaces := by omega
  simp [handleSetupPacket_in, handleSetupPacket_in_handlers, hrcp, htype, hrq, h0, h1, hnot, hf, hlen, access_hid_params,
    clear_TXINI, buf2EP_eq, Engine.emit]

/-- C11 (as stated, refuted): interface 0 answers Get_Report(Input, report id 1)
with a 15-byte buffer; with `wLength = 8` the engine loads only the first 8 of
those bytes, not the 15. -/
theorem get_report_short_wLength_counterexample :
    (sample_pad_interface.getReport.map (fun f => (f 0 ⟨0xA1, 1, 0x0101, 0, 8⟩).1)) = some 15 ∧
    reply sample_params ⟨0xA1, HID_CLSRQ_GET_REPORT, 0x0101, 0, 8⟩ Engine.init
      = [1, 2, 3, 4, 5, 6, 7, 8] ∧
    (reply sample_params ⟨0xA1, HID_CLSRQ_GET_REPORT, 0x0101, 0, 8⟩ Engine.init).length ≠ 15 := by
  decide

/-- C11 (amended): for a class Get_Report on a valid interface whose `getReport`
callback returns a buffer of `len > 0` bytes, the engine loads the first
`min len wLength` bytes of that buffer into endpoint 0: exactly those `len`
bytes for every `wLength >= len`, and only the first `wLength` of them for a
smaller `wLength`. -/
theorem get_report_reply (g_params : usb_parameters) (rq : usb_request) (e : Engine)
    (f : Nat → usb_request → Nat × (Nat → Nat))
    (hdir : USB_RQT_IS_DEVICE_TO_HOST rq.bmRequestType = true)
    (hrcp : rq.bmRequestType &&& USB_RQT_RECIPIENT_MASK = USB_RQT_RECIPIENT_INTERFACE)
    (htype : rq.bmRequestType &&& USB_RQT_TYPE_MASK = USB_RQT_CLASS)
    (hrq : rq.bRequest = HID_CLSRQ_GET_REPORT)
    (hidx : rq.wIndex < g_params.n_hid_interfaces)
    (hf : (g_params.hid_params rq.wIndex).getReport = some f)
    (hlen : 0 < (f (g_params.hid_params rq.wIndex).ctx rq).1) :
    reply g_params rq e =
      mem (f (g_params.hid_params rq.wIndex).ctx rq).2
        (min (f (g_params.hid_params rq.wIndex).ctx rq).1 rq.wLength) ∧
    ((f (g_params.hid_params rq.wIndex).ctx rq).1 ≤ rq.wLength →
      reply g_params rq e =
        mem (f (g_params.hid_params rq.wIndex).ctx rq).2
          (f (g_params.hid_params rq.wIndex).ctx rq).1) ∧
    (rq.wLength < (f (g_params.hid_params rq.wIndex).ctx rq).1 →
      reply g_params rq e = mem (f (g_params.hid_params rq.wIndex).ctx rq).2 rq.wLength) := by
  have key : reply g_params rq e =
      mem (f (g_params.hid_params rq.wIndex).ctx rq).2
        (min (f (g_params.hid_params rq.wIndex).ctx rq).1 rq.wLength) := by
    rw [reply, get_report_eq g_params rq e f hdir hrcp htype hrq (Nat.le_of_lt hidx) hf
      (by omega)]
    have hacc : ep0_bytes [HwEvent.hid_params rq.wIndex, HwEvent.hid_params rq.wIndex,
        HwEvent.hid_params rq.wIndex, HwEvent.getReport rq.wIndex] = [] := rfl
    simp only [List.drop_left, ep0_bytes_append, ep0_bytes_map_UEDATX, ep0_bytes_handshake,
      List.append_nil, hacc, List.nil_append]
  refine ⟨key, ?_, ?_⟩
  · intro h
    rw [key, Nat.min_eq_left h]
  · intro h
    rw [key, Nat.min_eq_right (Nat.le_of_lt h)]

theorem get_report_reply_witness :
    USB_RQT_IS_DEVICE_TO_HOST 0xA1 = true ∧
    (0xA1 &&& USB_RQT_RECIPIENT_MASK = USB_RQT_RECIPIENT_INTERFACE) ∧
    (0xA1 &&& USB_RQT_TYPE_MASK = USB_RQT_CLASS) ∧
    (0 < sample_params.n_hid_interfaces) ∧
    reply sample_params ⟨0xA1, 1, 0x0101, 0, 64⟩ Engine.init =
      mem (bytes [1, 2, 3, 4, 5, 6, 7, 8, 9, 10, 11, 12, 13, 14, 15]) (min 15 64) :=
  ⟨by decide, by decide, by decide, by decide,
    (get_report_reply sample_params ⟨0xA1, 1, 0x0101, 0, 64⟩ Engine.init
      (fun _ _ => (15, bytes [1, 2, 3, 4, 5, 6, 7, 8, 9, 10, 11, 12, 13, 14, 15]))
      (by decide) (by decide) (by decide) (by decide) (by decide) rfl (by decide)).1⟩

/-! ## Frame facts of `handleSetupPacket` -/

theorem all_handler_map_UEDATX (ep : Nat) (bs : List Nat) :
    (bs.map (HwEvent.UEDATX ep)).all is_handler_event = true := by
  induction bs with
  | nil => rfl
  | cons b bs ih => simp [is_handler_event]

theorem all_handler_long_events (data : Nat → Nat) (todo : Nat) :
    ∀ pos : Nat, (long_events data todo pos).all is_handler_event = true := by
  induction todo using Nat.strong_induction_on with
  | _ todo ih =>
    intro pos
    rw [long_events]
    by_cases h : todo > 64
    · simp only [h, if_true, List.all_append, ih (todo - 64) (by omega), Bool.and_true,
        all_handler_map_UEDATX]
      rfl
    · simp only [h, if_false, List.all_append, all_handler_map_UEDATX]
      rfl

/-- The host-to-device block only appends handler events to the log. -/
theorem handleSetupPacket_out_log (rq : usb_request) (u : Nat) (e : Engine) :
    ∃ evs, (handleSetupPacket_out rq u e).1.log = e.log ++ evs ∧
      evs.all is_handler_event = true := by
  simp only [handleSetupPacket_out]
  split_ifs
  all_goals simp only [write_UDADDR, wait_TXINI, clear_TXINI, Engine.emit, initControlWrite]
  all_goals simp [is_handler_event]

/-- The string case only appends FIFO writes to the log. -/
theorem handleSetupPacket_string_log (g_params : usb_parameters) (rq : usb_request)
    (e : Engine) :
    ∃ evs, (handleSetupPacket_string g_params rq e).log = e.log ++ evs ∧
      evs.all is_handler_event = true := by
  simp only [handleSetupPacket_string]
  split_ifs <;>
    simp [buf2EP_eq, List.all_append, all_handler_map_UEDATX, -List.all_eq_true,
      -List.map_append]


/-- The handlers of the device-to-host block only append handler events. -/
theorem handleSetupPacket_in_handlers_log (g_params : usb_parameters) (rq : usb_request)
    (u : Nat) (e : Engine) :
    ∃ evs, (handleSetupPacket_in_handlers g_params rq u e).1.log = e.log ++ evs ∧
      evs.all is_handler_event = true := by
  obtain ⟨evs, hs, hs2⟩ := handleSetupPacket_string_log g_params rq e
  simp only [handleSetupPacket_in_handlers]
  split_ifs
  all_goals (try split)
  all_goals (try split_ifs)
  all_goals
    simp [buf2EP_eq, longDescriptorHelper_eq, hs, hs2, access_hid_params,
      Engine.emit, List.all_append, all_handler_map_UEDATX, all_handler_long_events,
      is_handler_event, -List.all_eq_true, -List.map_append]

/-- The device-to-host block only appends handler events to the log. -/
theorem handleSetupPacket_in_log (g_params : usb_parameters) (rq : usb_request) (u : Nat)
    (e : Engine) :
    ∃ evs, (handleSetupPacket_in g_params rq u e).1.log = e.log ++ evs ∧
      evs.all is_handler_event = true := by
  obtain ⟨evs', h1, h2⟩ := handleSetupPacket_in_handlers_log g_params rq u e
  simp only [handleSetupPacket_in]
  split_ifs
  · refine ⟨evs' ++ [HwEvent.clear_TXINI, HwEvent.wait_RXOUTI, HwEvent.clear_RXOUTI], ?_, ?_⟩
    · simp [clear_TXINI, Engine.emit, h1]
    · simp only [List.all_append, h2, Bool.true_and]
      rfl
  · exact ⟨evs', h1, h2⟩

/-- The string case changes nothing but the selected endpoint and the log. -/
theorem handleSetupPacket_string_frame (g_params : usb_parameters) (rq : usb_request)
    (e : Engine) :
    handleSetupPacket_string g_params rq e =
      { e with UENUM := (handleSetupPacket_string g_params rq e).UENUM,
               log := (handleSetupPacket_string g_params rq e).log } := by
  simp only [handleSetupPacket_string]
  split_ifs <;> simp [buf2EP_eq]

/-- The handlers of the device-to-host block change nothing but the selected
endpoint and the log. -/
theorem handleSetupPacket_in_handlers_frame (g_params : usb_parameters) (rq : usb_request)
    (u : Nat) (e : Engine) :
    (handleSetupPacket_in_handlers g_params rq u e).1 =
      { e with UENUM := (handleSetupPacket_in_handlers g_params rq u e).1.UENUM,
               log := (handleSetupPacket_in_handlers g_params rq u e).1.log } := by
  have hs := handleSetupPacket_string_frame g_params rq e
  simp only [handleSetupPacket_in_handlers]
  split_ifs
  all_goals (try split)
  all_goals (try split_ifs)
  all_goals (first
    | exact hs
    | simp [buf2EP_eq, longDescriptorHelper_eq, access_hid_params, Engine.emit])

/-- The device-to-host block changes nothing but the selected endpoint and the
log. -/
theorem handleSetupPacket_in_frame (g_params : usb_parameters) (rq : usb_request) (u : Nat)
    (e : Engine) :
    (handleSetupPacket_in g_params rq u e).1 =
      { e with UENUM := (handleSetupPacket_in g_params rq u e).1.UENUM,
               log := (handleSetupPacket_in g_params rq u e).1.log } := by
  have h := handleSetupPacket_in_handlers_frame g_params rq u e
  simp only [handleSetupPacket_in]
  split_ifs
  · simp only [clear_TXINI, Engine.emit]
    rw [h]
  · exact h

/-- The host-to-device block leaves the fields it does not own unchanged. -/
theorem handleSetupPacket_out_frame (rq : usb_request) (u : Nat) (e : Engine) :
    (handleSetupPacket_out rq u e).1 =
      { e with g_device_state := (handleSetupPacket_out rq u e).1.g_device_state,
               g_current_config := (handleSetupPacket_out rq u e).1.g_current_config,
               control_write_rq := (handleSetupPacket_out rq u e).1.control_write_rq,
               control_write_len := (handleSetupPacket_out rq u e).1.control_write_len,
               control_write_in_progress :=
                 (handleSetupPacket_out rq u e).1.control_write_in_progress,
               UDADDR := (handleSetupPacket_out rq u e).1.UDADDR,
               log := (handleSetupPacket_out rq u e).1.log } := by
  simp only [handleSetupPacket_out]
  split_ifs
  all_goals simp only [write_UDADDR, wait_TXINI, clear_TXINI, Engine.emit, initControlWrite]

/-- The host-to-device block never raises the running count. -/
theorem handleSetupPacket_out_control_write_len (rq : usb_request) (u : Nat) (e : Engine) :
    (handleSetupPacket_out rq u e).1.control_write_len ≤ e.control_write_len := by
  simp only [handleSetupPacket_out]
  split_ifs
  all_goals simp [write_UDADDR, wait_TXINI, clear_TXINI, Engine.emit, initControlWrite]

/-- Outside SetAddress and SetConfiguration the host-to-device block leaves the
device state and the configuration value unchanged. -/
theorem handleSetupPacket_out_state (rq : usb_request) (u : Nat) (e : Engine)
    (h : ¬ (rq.bmRequestType &&& USB_RQT_RECIPIENT_MASK = USB_RQT_RECIPIENT_DEVICE ∧
      (rq.bRequest = USB_RQ_SET_ADDRESS ∨ rq.bRequest = USB_RQ_SET_CONFIGURATION))) :
    (handleSetupPacket_out rq u e).1.g_device_state = e.g_device_state ∧
    (handleSetupPacket_out rq u e).1.g_current_config = e.g_current_config := by
  simp only [handleSetupPacket_out]
  split_ifs
  all_goals (first
    | (exfalso; apply h; constructor <;> simp [*]; done)
    | simp [wait_TXINI, clear_TXINI, Engine.emit, initControlWrite])

/-- The function `handleSetupPacket` is its two blocks followed by the final test
of `unhandled`. -/
theorem handleSetupPacket_eq_blocks (g_params : usb_parameters) (rq : usb_request)
    (e : Engine) :
    handleSetupPacket g_params rq e =
      if (handleSetupPacket_blocks g_params rq e).2 ≠ 0 then
        set_STALLRQ (handleSetupPacket_blocks g_params rq e).1
      else (handleSetupPacket_blocks g_params rq e).1 := rfl

theorem device_to_host_of_not_host_to_device (r : Nat)
    (h : ¬ USB_RQT_IS_HOST_TO_DEVICE r = true) : USB_RQT_IS_DEVICE_TO_HOST r = true := by
  simp only [USB_RQT_IS_HOST_TO_DEVICE, USB_RQT_IS_DEVICE_TO_HOST] at *
  simp_all

/-- For a host-to-device request the two blocks are the host-to-device block. -/
theorem handleSetupPacket_blocks_out (g_params : usb_parameters) (rq : usb_request)
    (e : Engine) (h : USB_RQT_IS_HOST_TO_DEVICE rq.bmRequestType = true) :
    handleSetupPacket_blocks g_params rq e = handleSetupPacket_out rq 0 e := by
  simp [handleSetupPacket_blocks, h, not_device_to_host_of_host_to_device _ h]

/-- For a device-to-host request the two blocks are the device-to-host block. -/
theorem handleSetupPacket_blocks_in (g_params : usb_parameters) (rq : usb_request)
    (e : Engine) (h : USB_RQT_IS_DEVICE_TO_HOST rq.bmRequestType = true) :
    handleSetupPacket_blocks g_params rq e = handleSetupPacket_in g_params rq 0 e := by
  simp [handleSetupPacket_blocks, h, not_host_to_device_of_device_to_host _ h]

/-- The two blocks of `handleSetupPacket` only append handler events. -/
theorem handleSetupPacket_blocks_log (g_params : usb_parameters) (rq : usb_request)
    (e : Engine) :
    ∃ evs, (handleSetupPacket_blocks g_params rq e).1.log = e.log ++ evs ∧
      evs.all is_handler_event = true := by
  by_cases hd : USB_RQT_IS_HOST_TO_DEVICE rq.bmRequestType = true
  · rw [handleSetupPacket_blocks_out g_params rq e hd]
    exact handleSetupPacket_out_log rq 0 e
  · rw [handleSetupPacket_blocks_in g_params rq e (device_to_host_of_not_host_to_device _ hd)]
    exact handleSetupPacket_in_log g_params rq 0 e

/-- The two blocks of `handleSetupPacket` leave the endpoint control register,
the accumulator buffer, the interrupt slots and the attach state unchanged. -/
theorem handleSetupPacket_blocks_frame (g_params : usb_parameters) (rq : usb_request)
    (e : Engine) :
    (handleSetupPacket_blocks g_params rq e).1 =
      { e with g_device_state := (handleSetupPacket_blocks g_params rq e).1.g_device_state,
               g_current_config := (handleSetupPacket_blocks g_params rq e).1.g_current_config,
               control_write_rq := (handleSetupPacket_blocks g_params rq e).1.control_write_rq,
               control_write_len := (handleSetupPacket_blocks g_params rq e).1.control_write_len,
               control_write_in_progress :=
                 (handleSetupPacket_blocks g_params rq e).1.control_write_in_progress,
               UDADDR := (handleSetupPacket_blocks g_params rq e).1.UDADDR,
               UENUM := (handleSetupPacket_blocks g_params rq e).1.UENUM,
               log := (handleSetupPacket_blocks g_params rq e).1.log } := by
  by_cases hd : USB_RQT_IS_HOST_TO_DEVICE rq.bmRequestType = true
  · rw [handleSetupPacket_blocks_out g_params rq e hd]
    have h := handleSetupPacket_out_frame rq 0 e
    generalize (handleSetupPacket_out rq 0 e).1 = r at h ⊢
    rw [h]
  · rw [handleSetupPacket_blocks_in g_params rq e (device_to_host_of_not_host_to_device _ hd)]
    have h := handleSetupPacket_in_frame g_params rq 0 e
    generalize (handleSetupPacket_in g_params rq 0 e).1 = r at h ⊢
    rw [h]

/-- The function `handleSetupPacket` never raises the running count of the
accumulator. -/
theorem handleSetupPacket_control_write_len (g_params : usb_parameters) (rq : usb_request)
    (e : Engine) :
    (handleSetupPacket g_params rq e).control_write_len ≤ e.control_write_len := by
  have hb : (handleSetupPacket_blocks g_params rq e).1.control_write_len ≤
      e.control_write_len := by
    by_cases hd : USB_RQT_IS_HOST_TO_DEVICE rq.bmRequestType = true
    · rw [handleSetupPacket_blocks_out g_params rq e hd]
      exact handleSetupPacket_out_control_write_len rq 0 e
    · rw [handleSetupPacket_blocks_in g_params rq e (device_to_host_of_not_host_to_device _ hd),
        handleSetupPacket_in_frame g_params rq 0 e]
  rw [handleSetupPacket_eq_blocks]
  split_ifs
  · simpa [set_STALLRQ, Engine.emit] using hb
  · exact hb

/-- Outside SetAddress and SetConfiguration `handleSetupPacket` leaves the
device state and the configuration value unchanged. -/
theorem handleSetupPacket_state (g_params : usb_parameters) (rq : usb_request) (e : Engine)
    (h : ¬ (USB_RQT_IS_HOST_TO_DEVICE rq.bmRequestType = true ∧
      rq.bmRequestType &&& USB_RQT_RECIPIENT_MASK = USB_RQT_RECIPIENT_DEVICE ∧
      (rq.bRequest = USB_RQ_SET_ADDRESS ∨ rq.bRequest = USB_RQ_SET_CONFIGURATION))) :
    (handleSetupPacket g_params rq e).g_device_state = e.g_device_state ∧
    (handleSetupPacket g_params rq e).g_current_config = e.g_current_config := by
  have hb : (handleSetupPacket_blocks g_params rq e).1.g_device_state = e.g_device_state ∧
      (handleSetupPacket_blocks g_params rq e).1.g_current_config = e.g_current_config := by
    by_cases hd : USB_RQT_IS_HOST_TO_DEVICE rq.bmRequestType = true
    · rw [handleSetupPacket_blocks_out g_params rq e hd]
      exact handleSetupPacket_out_state rq 0 e (fun hc => h ⟨hd, hc⟩)
    · rw [handleSetupPacket_blocks_in g_params rq e (device_to_host_of_not_host_to_device _ hd),
        handleSetupPacket_in_frame g_params rq 0 e]
      exact ⟨rfl, rfl⟩
  rw [handleSetupPacket_eq_blocks]
  split_ifs
  · simpa [set_STALLRQ, Engine.emit] using hb
  · exact hb

/-! ## Stall on unhandled requests -/

/-- What an unsupported GetDescriptor type does: the request is stalled. -/
theorem get_descriptor_unsupported_eq (g_params : usb_parameters) (rq : usb_request)
    (e : Engine)
    (hdir : USB_RQT_IS_DEVICE_TO_HOST rq.bmRequestType = true)
    (hrcp : rq.bmRequestType &&& USB_RQT_RECIPIENT_MASK = USB_RQT_RECIPIENT_DEVICE)
    (hrq : rq.bRequest = USB_RQ_GET_DESCRIPTOR)
    (hty : rq.wValue >>> 8 = DEVICE_QUALIFIER_DESCRIPTOR ∨
      (rq.wValue >>> 8 ≠ DEVICE_DESCRIPTOR ∧ rq.wValue >>> 8 ≠ CONFIGURATION_DESCRIPTOR ∧
        rq.wValue >>> 8 ≠ STRING_DESCRIPTOR)) :
    handleSetupPacket g_params rq e = set_STALLRQ e := by
  rw [handleSetupPacket_device_to_host g_params rq e hdir]
  have h1 : USB_RQ_GET_DESCRIPTOR ≠ USB_RQ_GET_STATUS := by decide
  have h2 : USB_RQ_GET_DESCRIPTOR ≠ USB_RQ_GET_CONFIGURATION := by decide
  have h3 : rq.wValue >>> 8 ≠ DEVICE_DESCRIPTOR ∧ rq.wValue >>> 8 ≠ CONFIGURATION_DESCRIPTOR ∧
      rq.wValue >>> 8 ≠ STRING_DESCRIPTOR := by
    rcases hty with hq | h
    · rw [hq]; decide
    · exact h
  simp [handleSetupPacket_in, handleSetupPacket_in_handlers, hrcp, hrq, h1, h2, h3.1, h3.2.1,
    h3.2.2]

/-- C15: for every device-to-host Device-recipient GetDescriptor request whose
descriptor type is Device Qualifier, or any type other than Device,
Configuration and String, `handleSetupPacket` loads no bytes, skips the
status-stage handshake (the only event is the stall request) and requests a
stall on endpoint 0; and for every request the stall is requested by
`handleSetupPacket` exactly when the request was marked unhandled. -/
theorem stall_iff_unhandled (g_params : usb_parameters) (rq : usb_request) (e : Engine) :
    (USB_RQT_IS_DEVICE_TO_HOST rq.bmRequestType = true →
      rq.bmRequestType &&& USB_RQT_RECIPIENT_MASK = USB_RQT_RECIPIENT_DEVICE →
      rq.bRequest = USB_RQ_GET_DESCRIPTOR →
      (rq.wValue >>> 8 = DEVICE_QUALIFIER_DESCRIPTOR ∨
        (rq.wValue >>> 8 ≠ DEVICE_DESCRIPTOR ∧ rq.wValue >>> 8 ≠ CONFIGURATION_DESCRIPTOR ∧
          rq.wValue >>> 8 ≠ STRING_DESCRIPTOR)) →
      reply g_params rq e = [] ∧
      (handleSetupPacket g_params rq e).log = e.log ++ [HwEvent.STALLRQ] ∧
      (handleSetupPacket g_params rq e).UECONX = e.UECONX ||| (1 <<< STALLRQ)) ∧
    (HwEvent.STALLRQ ∈ (handleSetupPacket g_params rq e).log.drop e.log.length ↔
      (handleSetupPacket_blocks g_params rq e).2 ≠ 0) := by
  constructor
  · intro hdir hrcp hrq hty
    rw [reply, get_descriptor_unsupported_eq g_params rq e hdir hrcp hrq hty]
    simp [set_STALLRQ, Engine.emit, ep0_bytes, ep0_byte]
  · obtain ⟨evs, hl, hall⟩ := handleSetupPacket_blocks_log g_params rq e
    rw [handleSetupPacket_eq_blocks]
    split_ifs with hu
    · simp [set_STALLRQ, Engine.emit, hl, hu]
    · simp only [hl, List.drop_left, hu, iff_false]
      intro hmem
      have := List.all_eq_true.mp hall _ hmem
      simp [is_handler_event] at this

theorem stall_iff_unhandled_witness :
    USB_RQT_IS_DEVICE_TO_HOST 0x80 = true ∧
    (0x80 &&& USB_RQT_RECIPIENT_MASK = USB_RQT_RECIPIENT_DEVICE) ∧
    (0x0600 >>> 8 = DEVICE_QUALIFIER_DESCRIPTOR) ∧
    reply sample_params ⟨0x80, 6, 0x0600, 0, 10⟩ Engine.init = [] ∧
    (handleSetupPacket sample_params ⟨0x80, 6, 0x0600, 0, 10⟩ Engine.init).log =
      Engine.init.log ++ [HwEvent.STALLRQ] ∧
    (handleSetupPacket sample_params ⟨0x80, 6, 0x0600, 0, 10⟩ Engine.init).UECONX =
      Engine.init.UECONX ||| (1 <<< STALLRQ) :=
  ⟨by decide, by decide, by decide,
    (stall_iff_unhandled sample_params ⟨0x80, 6, 0x0600, 0, 10⟩ Engine.init).1 (by decide)
      (by decide) (by decide) (Or.inl (by decide))⟩

/-! ## Endpoint Set/Clear Feature -/

/-- C18: for every host-to-device Endpoint-recipient request with `bRequest`
SET_FEATURE or CLEAR_FEATURE, the request is acknowledged without stall and
without changing any engine state (only the wait and the release of the
zero-length status packet are logged) if and only if `wValue = 0` and
`0x81 <= wIndex <= 0x83`; for any other selector or endpoint address, and for
any other Endpoint-recipient host-to-device request, the endpoint is stalled
and nothing else is done. -/
theorem endpoint_feature (g_params : usb_parameters) (rq : usb_request) (e : Engine)
    (hdir : USB_RQT_IS_HOST_TO_DEVICE rq.bmRequestType = true)
    (hrcp : rq.bmRequestType &&& USB_RQT_RECIPIENT_MASK = USB_RQT_RECIPIENT_ENDPOINT) :
    ((rq.bRequest = USB_RQ_SET_FEATURE ∨ rq.bRequest = USB_RQ_CLEAR_FEATURE) →
      (rq.wValue = 0 ∧ 0x81 ≤ rq.wIndex ∧ rq.wIndex ≤ 0x83) →
      handleSetupPacket g_params rq e =
        { e with log := e.log ++ [HwEvent.wait_TXINI, HwEvent.clear_TXINI] }) ∧
    ((rq.bRequest = USB_RQ_SET_FEATURE ∨ rq.bRequest = USB_RQ_CLEAR_FEATURE) →
      ¬ (rq.wValue = 0 ∧ 0x81 ≤ rq.wIndex ∧ rq.wIndex ≤ 0x83) →
      handleSetupPacket g_params rq e = set_STALLRQ e) ∧
    ((rq.bRequest = USB_RQ_SET_FEATURE ∨ rq.bRequest = USB_RQ_CLEAR_FEATURE) →
      (HwEvent.STALLRQ ∉ (handleSetupPacket g_params rq e).log.drop e.log.length ↔
        (rq.wValue = 0 ∧ 0x81 ≤ rq.wIndex ∧ rq.wIndex ≤ 0x83))) ∧
    (rq.bRequest ≠ USB_RQ_SET_FEATURE → rq.bRequest ≠ USB_RQ_CLEAR_FEATURE →
      handleSetupPacket g_params rq e = set_STALLRQ e) := by
  have h0 : USB_RQT_RECIPIENT_ENDPOINT ≠ USB_RQT_RECIPIENT_DEVICE := by decide
  have h1 : USB_RQT_RECIPIENT_ENDPOINT ≠ USB_RQT_RECIPIENT_INTERFACE := by decide
  have ack : (rq.bRequest = USB_RQ_SET_FEATURE ∨ rq.bRequest = USB_RQ_CLEAR_FEATURE) →
      (rq.wValue = 0 ∧ 0x81 ≤ rq.wIndex ∧ rq.wIndex ≤ 0x83) →
      handleSetupPacket g_params rq e =
        { e with log := e.log ++ [HwEvent.wait_TXINI, HwEvent.clear_TXINI] } := by
    intro hrq hc
    rw [handleSetupPacket_host_to_device g_params rq e hdir]
    simp [handleSetupPacket_out, hrcp, h0, h1, hrq, hc.1, hc.2.1, hc.2.2, wait_TXINI,
      clear_TXINI, Engine.emit]
  have nak : (rq.bRequest = USB_RQ_SET_FEATURE ∨ rq.bRequest = USB_RQ_CLEAR_FEATURE) →
      ¬ (rq.wValue = 0 ∧ 0x81 ≤ rq.wIndex ∧ rq.wIndex ≤ 0x83) →
      handleSetupPacket g_params rq e = set_STALLRQ e := by
    intro hrq hc
    rw [handleSetupPacket_host_to_device g_params rq e hdir]
    simp only [handleSetupPacket_out, hrcp, h0, h1, hrq, if_true, if_false]
    by_cases hv : rq.wValue = 0
    · have hi : ¬ (rq.wIndex ≥ 0x81 ∧ rq.wIndex ≤ 0x83) := fun hi => hc ⟨hv, hi.1, hi.2⟩
      simp [hv, hi]
    · simp [hv]
  refine ⟨ack, nak, ?_, ?_⟩
  · intro hrq
    by_cases hc : rq.wValue = 0 ∧ 0x81 ≤ rq.wIndex ∧ rq.wIndex ≤ 0x83
    · rw [ack hrq hc]
      simp [hc]
    · rw [nak hrq hc]
      simp [hc, set_STALLRQ, Engine.emit]
  · intro hs hc
    rw [handleSetupPacket_host_to_device g_params rq e hdir]
    simp [handleSetupPacket_out, hrcp, h0, h1, hs, hc]

theorem endpoint_feature_witness :
    USB_RQT_IS_HOST_TO_DEVICE 0x02 = true ∧
    (0x02 &&& USB_RQT_RECIPIENT_MASK = USB_RQT_RECIPIENT_ENDPOINT) ∧
    handleSetupPacket sample_params ⟨0x02, 1, 0, 0x81, 0⟩ Engine.init =
      { Engine.init with log := Engine.init.log ++ [HwEvent.wait_TXINI, HwEvent.clear_TXINI] } ∧
    handleSetupPacket sample_params ⟨0x02, 1, 0, 0x84, 0⟩ Engine.init =
      set_STALLRQ Engine.init :=
  ⟨by decide, by decide,
    (endpoint_feature sample_params ⟨0x02, 1, 0, 0x81, 0⟩ Engine.init (by decide)
      (by decide)).1 (Or.inr (by decide)) (by decide),
    (endpoint_feature sample_params ⟨0x02, 1, 0, 0x84, 0⟩ Engine.init (by decide)
      (by decide)).2.1 (Or.inr (by decide)) (by decide)⟩

/-! ## What leaves the device state alone -/

/-- The loop of `setupEndpoints` leaves the device state and the configuration
value unchanged. -/
theorem setupEndpoints_loop_state (g_params : usb_parameters) (UESTA0X : Nat → Nat) (k : Nat) :
    ∀ (i : Nat) (e : Engine),
      (setupEndpoints_loop g_params UESTA0X k i e).g_device_state = e.g_device_state ∧
      (setupEndpoints_loop g_params UESTA0X k i e).g_current_config = e.g_current_config := by
  induction k with
  | zero => intro i e; exact ⟨rfl, rfl⟩
  | succ k ih =>
    intro i e
    simp only [setupEndpoints_loop]
    split_ifs
    · simp [access_hid_params, Engine.emit]
    · simp [access_hid_params, Engine.emit]
    · refine ⟨(ih _ _).1.trans ?_, (ih _ _).2.trans ?_⟩ <;>
        simp [access_hid_params, Engine.emit]

/-- Function `setupEndpoints` leaves the device state and the configuration
value unchanged. -/
theorem setupEndpoints_state (g_params : usb_parameters) (UESTA0X : Nat → Nat) (e : Engine) :
    (setupEndpoints g_params UESTA0X e).g_device_state = e.g_device_state ∧
    (setupEndpoints g_params UESTA0X e).g_current_config = e.g_current_config := by
  simp only [setupEndpoints]
  split_ifs
  · simp [Engine.emit]
  · refine ⟨(setupEndpoints_loop_state _ _ _ _ _).1.trans ?_,
      (setupEndpoints_loop_state _ _ _ _ _).2.trans ?_⟩ <;> simp [Engine.emit]

/-- The statement `if (c) { f }` keeps what `f` keeps. -/
theorem run_if_state (c : Bool) (f : Engine → Engine)
    (hf : ∀ e, (f e).g_device_state = e.g_device_state ∧
      (f e).g_current_config = e.g_current_config) (e : Engine) :
    (run_if c f e).g_device_state = e.g_device_state ∧
    (run_if c f e).g_current_config = e.g_current_config := by
  unfold run_if
  split_ifs
  · exact hf e
  · exact ⟨rfl, rfl⟩

/-- The device interrupt handler leaves the device state and the configuration
value unchanged. -/
theorem USB_GEN_vect_state (g_params : usb_parameters) (UDINT : Nat) (UESTA0X : Nat → Nat)
    (e : Engine) :
    (USB_GEN_vect g_params UDINT UESTA0X e).g_device_state = e.g_device_state ∧
    (USB_GEN_vect g_params UDINT UESTA0X e).g_current_config = e.g_current_config := by
  have h1 : ∀ e : Engine, (USB_GEN_vect_SUSPI e).g_device_state = e.g_device_state ∧
      (USB_GEN_vect_SUSPI e).g_current_config = e.g_current_config := by
    intro e; simp [USB_GEN_vect_SUSPI, Engine.emit]
  have h2 : ∀ e : Engine, (USB_GEN_vect_WAKEUPI e).g_device_state = e.g_device_state ∧
      (USB_GEN_vect_WAKEUPI e).g_current_config = e.g_current_config := by
    intro e
    simp only [USB_GEN_vect_WAKEUPI]
    split_ifs <;> simp [Engine.emit]
  have h3 : ∀ e : Engine,
      (USB_GEN_vect_EORSTI g_params UESTA0X e).g_device_state = e.g_device_state ∧
      (USB_GEN_vect_EORSTI g_params UESTA0X e).g_current_config = e.g_current_config := by
    intro e
    simp [USB_GEN_vect_EORSTI, Engine.emit, (setupEndpoints_state g_params UESTA0X _).1,
      (setupEndpoints_state g_params UESTA0X _).2]
  have h4 : ∀ (bit : Nat) (e : Engine), (clear_UDINT bit e).g_device_state = e.g_device_state ∧
      (clear_UDINT bit e).g_current_config = e.g_current_config := by
    intro bit e; simp [clear_UDINT, Engine.emit]
  simp only [USB_GEN_vect]
  refine ⟨?_, ?_⟩
  · rw [(run_if_state _ _ (h4 UPRSMI) _).1, (run_if_state _ _ (h4 EORSMI) _).1,
      (run_if_state _ _ (h4 SOFI) _).1, (run_if_state _ _ h3 _).1, (run_if_state _ _ h2 _).1,
      (run_if_state _ _ h1 _).1]
  · rw [(run_if_state _ _ (h4 UPRSMI) _).2, (run_if_state _ _ (h4 EORSMI) _).2,
      (run_if_state _ _ (h4 SOFI) _).2, (run_if_state _ _ h3 _).2, (run_if_state _ _ h2 _).2,
      (run_if_state _ _ h1 _).2]

/-- What the HID class Set_Idle request does to the engine. -/
theorem set_idle_eq (g_params : usb_parameters) (rq : usb_request) (e : Engine)
    (hdir : USB_RQT_IS_HOST_TO_DEVICE rq.bmRequestType = true)
    (hrcp : rq.bmRequestType &&& USB_RQT_RECIPIENT_MASK = USB_RQT_RECIPIENT_INTERFACE)
    (htype : rq.bmRequestType &&& USB_RQT_TYPE_MASK = USB_RQT_CLASS)
    (hrq : rq.bRequest = HID_CLSRQ_SET_IDLE) :
    handleSetupPacket g_params rq e =
      { e with log := e.log ++ [HwEvent.wait_TXINI, HwEvent.clear_TXINI] } := by
  rw [handleSetupPacket_host_to_device g_params rq e hdir]
  have h0 : USB_RQT_RECIPIENT_INTERFACE ≠ USB_RQT_RECIPIENT_DEVICE := by decide
  simp [handleSetupPacket_out, hrcp, htype, hrq, h0, wait_TXINI, clear_TXINI, Engine.emit]

/-- C20: for every setup request that is not a host-to-device Device-recipient
SetAddress or SetConfiguration, `handleSetupPacket` leaves the device state and
the stored configuration value unchanged; the HID class Set_Idle request in
addition leaves the control-write accumulator (in-progress flag, count,
recorded request, buffer) unchanged; the device interrupt handler (suspend,
wake, bus reset) also leaves device state and configuration value unchanged. -/
theorem device_state_frame (g_params : usb_parameters) (rq : usb_request) (e : Engine)
    (UDINT : Nat) (UESTA0X : Nat → Nat) :
    (¬ (USB_RQT_IS_HOST_TO_DEVICE rq.bmRequestType = true ∧
        rq.bmRequestType &&& USB_RQT_RECIPIENT_MASK = USB_RQT_RECIPIENT_DEVICE ∧
        (rq.bRequest = USB_RQ_SET_ADDRESS ∨ rq.bRequest = USB_RQ_SET_CONFIGURATION)) →
      (handleSetupPacket g_params rq e).g_device_state = e.g_device_state ∧
      (handleSetupPacket g_params rq e).g_current_config = e.g_current_config) ∧
    (USB_RQT_IS_HOST_TO_DEVICE rq.bmRequestType = true →
      rq.bmRequestType &&& USB_RQT_RECIPIENT_MASK = USB_RQT_RECIPIENT_INTERFACE →
      rq.bmRequestType &&& USB_RQT_TYPE_MASK = USB_RQT_CLASS →
      rq.bRequest = HID_CLSRQ_SET_IDLE →
      (handleSetupPacket g_params rq e).control_write_in_progress =
        e.control_write_in_progress ∧
      (handleSetupPacket g_params rq e).control_write_len = e.control_write_len ∧
      (handleSetupPacket g_params rq e).control_write_rq = e.control_write_rq ∧
      (handleSetupPacket g_params rq e).control_write_buf = e.control_write_buf) ∧
    ((USB_GEN_vect g_params UDINT UESTA0X e).g_device_state = e.g_device_state ∧
      (USB_GEN_vect g_params UDINT UESTA0X e).g_current_config = e.g_current_config) := by
  refine ⟨handleSetupPacket_state g_params rq e, ?_, USB_GEN_vect_state g_params UDINT UESTA0X e⟩
  intro hdir hrcp htype hrq
  rw [set_idle_eq g_params rq e hdir hrcp htype hrq]
  exact ⟨rfl, rfl, rfl, rfl⟩

theorem device_state_frame_witness :
    ¬ (USB_RQT_IS_HOST_TO_DEVICE 0x21 = true ∧
        0x21 &&& USB_RQT_RECIPIENT_MASK = USB_RQT_RECIPIENT_DEVICE ∧
        ((0x0A : Nat) = USB_RQ_SET_ADDRESS ∨ (0x0A : Nat) = USB_RQ_SET_CONFIGURATION)) ∧
    (handleSetupPacket sample_params ⟨0x21, 0x0A, 0, 0, 0⟩ sample_unconfigured).g_device_state =
      sample_unconfigured.g_device_state ∧
    (handleSetupPacket sample_params ⟨0x21, 0x0A, 0, 0, 0⟩ sample_unconfigured).g_current_config =
      sample_unconfigured.g_current_config :=
  ⟨by decide,
    (device_state_frame sample_params ⟨0x21, 0x0A, 0, 0, 0⟩ sample_unconfigured 0
      (fun _ => 0)).1 (by decide)⟩

/-! ## The control-write accumulator -/

/-- What the loop of `readEP2buf` does to the engine. -/
theorem readEP2buf_loop_eq (bank : List Nat) :
    ∀ (dst : Nat) (e : Engine),
      readEP2buf_loop bank dst e =
        { e with control_write_buf := store_list e.control_write_buf dst bank,
                 log := e.log ++ store_events dst bank } := by
  induction bank with
  | nil => intro dst e; simp [readEP2buf_loop, store_list, store_events]
  | cons b bank ih =>
    intro dst e
    simp [readEP2buf_loop, store_list, store_events, ih, store_control_write_buf, Engine.emit]

/-- Every store of `store_events` goes to an index below `dst + bank.length`. -/
theorem store_events_within (bank : List Nat) :
    ∀ dst : Nat, dst + bank.length ≤ CONTROL_WRITE_BUFSIZE →
      (store_events dst bank).all within_capacity = true := by
  induction bank with
  | nil => intro dst _; rfl
  | cons b bank ih =>
    intro dst h
    simp only [List.length_cons] at h
    simp only [store_events, List.all_cons, within_capacity, Bool.and_eq_true,
      decide_eq_true_eq]
    exact ⟨by omega, ih (dst + 1) (by omega)⟩

theorem store_list_length (bank : List Nat) :
    ∀ (buf : List Nat) (dst : Nat), (store_list buf dst bank).length = buf.length := by
  induction bank with
  | nil => intro buf dst; rfl
  | cons b bank ih => intro buf dst; simp [store_list, ih]

/-- Storing `bank` at `dst` replaces the cells `dst .. dst + bank.length - 1`. -/
theorem store_list_eq (bank : List Nat) :
    ∀ (buf : List Nat) (dst : Nat), dst + bank.length ≤ buf.length →
      store_list buf dst bank = buf.take dst ++ bank ++ buf.drop (dst + bank.length) := by
  induction bank with
  | nil => intro buf dst _; simp [store_list]
  | cons b bank ih =>
    intro buf dst h
    simp only [List.length_cons] at h
    have hlt : dst < buf.length := by omega
    rw [store_list, ih (buf.set dst b) (dst + 1) (by simp; omega)]
    have h1 : (buf.set dst b).take (dst + 1) = buf.take dst ++ [b] := by
      rw [List.set_eq_take_cons_drop b hlt, List.take_append_eq_append_take]
      have hl : (buf.take dst).length = dst := by simp; omega
      rw [hl, List.take_of_length_le (by rw [hl]; omega)]
      simp
    have h2 : (buf.set dst b).drop (dst + 1 + bank.length) =
        buf.drop (dst + (b :: bank).length) := by
      rw [List.drop_set_of_lt _ _ (by omega)]
      simp only [List.length_cons]
      congr 1
      omega
    rw [h1, h2]
    simp


/-- An OUT packet that fits is appended to the accumulator. -/
theorem USB_COM_vect_RXOUTI_fit (bank : List Nat) (e : Engine)
    (hin : e.control_write_in_progress ≠ 0)
    (hfit : e.control_write_len + bank.length < CONTROL_WRITE_BUFSIZE) :
    USB_COM_vect_RXOUTI bank e =
      { e with control_write_buf := store_list e.control_write_buf e.control_write_len bank,
               control_write_len := e.control_write_len + bank.length,
               log := e.log ++ (store_events e.control_write_len bank ++
                 [HwEvent.clear_RXOUTI]) } := by
  have h64 : CONTROL_WRITE_BUFSIZE = 64 := rfl
  have hl : getEPlen bank = bank.length := by
    unfold getEPlen
    omega
  have hm : (e.control_write_len + bank.length) % 65536 = e.control_write_len + bank.length := by
    omega
  simp [USB_COM_vect_RXOUTI, readEP2buf, hin, hl, hm, hfit, readEP2buf_loop_eq, Engine.emit]

/-- An OUT packet that does not fit, or that arrives while no control write
is in progress, is dropped: only `RXOUTI` is cleared. -/
theorem USB_COM_vect_RXOUTI_drop (bank : List Nat) (e : Engine)
    (hlen : bank.length ≤ 64) (hc : e.control_write_len ≤ 64)
    (h : e.control_write_in_progress = 0 ∨
      ¬ e.control_write_len + bank.length < CONTROL_WRITE_BUFSIZE) :
    USB_COM_vect_RXOUTI bank e = e.emit HwEvent.clear_RXOUTI := by
  have hl : getEPlen bank = bank.length := by
    unfold getEPlen
    omega
  have hm : (e.control_write_len + bank.length) % 65536 = e.control_write_len + bank.length := by
    omega
  rcases h with h | h
  · simp [USB_COM_vect_RXOUTI, h]
  · simp [USB_COM_vect_RXOUTI, hl, hm, h]

theorem within_capacity_of_handler (evs : List HwEvent)
    (h : evs.all is_handler_event = true) : evs.all within_capacity = true := by
  rw [List.all_eq_true] at *
  intro ev hev
  have := h ev hev
  cases ev <;> simp_all [is_handler_event, within_capacity]

/-- Function `handleSetupPacket` keeps the accumulator within its capacity. -/
theorem handleSetupPacket_ok (g_params : usb_parameters) (rq : usb_request) (e : Engine)
    (h : accumulator_ok e) : accumulator_ok (handleSetupPacket g_params rq e) := by
  refine ⟨Nat.lt_of_le_of_lt (handleSetupPacket_control_write_len g_params rq e) h.1, ?_⟩
  obtain ⟨evs, hl, hall⟩ := handleSetupPacket_blocks_log g_params rq e
  have hw := within_capacity_of_handler evs hall
  rw [handleSetupPacket_eq_blocks]
  split_ifs
  · simp only [set_STALLRQ, Engine.emit, hl, List.all_append, h.2, hw, Bool.true_and]
    rfl
  · simp only [hl, List.all_append, h.2, hw, Bool.true_and]

/-- The `RXOUTI` branch keeps the accumulator within its capacity. -/
theorem USB_COM_vect_RXOUTI_ok (bank : List Nat) (e : Engine) (hlen : bank.length ≤ 64)
    (h : accumulator_ok e) : accumulator_ok (USB_COM_vect_RXOUTI bank e) := by
  have h64 : CONTROL_WRITE_BUFSIZE = 64 := rfl
  have hc : e.control_write_len < 64 := h.1
  by_cases hfit : e.control_write_in_progress ≠ 0 ∧
      e.control_write_len + bank.length < CONTROL_WRITE_BUFSIZE
  · rw [USB_COM_vect_RXOUTI_fit bank e hfit.1 hfit.2]
    refine ⟨hfit.2, ?_⟩
    simp only [List.all_append, h.2, store_events_within bank _ (Nat.le_of_lt hfit.2),
      Bool.true_and]
    rfl
  · rw [USB_COM_vect_RXOUTI_drop bank e hlen (by omega) (by
      by_cases hin : e.control_write_in_progress = 0
      · exact Or.inl hin
      · exact Or.inr (fun hf => hfit ⟨hin, hf⟩))]
    refine ⟨h.1, ?_⟩
    simp only [Engine.emit, List.all_append, h.2, Bool.true_and]
    rfl

/-- Function `handleDataPacket` keeps the accumulator within its capacity when
it is given a length within the capacity. -/
theorem handleDataPacket_ok (g_params : usb_parameters) (rq : usb_request) (dat : Nat → Nat)
    (len : Nat) (e : Engine) (hlen : len ≤ CONTROL_WRITE_BUFSIZE) (h : accumulator_ok e) :
    accumulator_ok (handleDataPacket g_params rq dat len e) := by
  obtain ⟨h1, h2⟩ := h
  simp only [handleDataPacket]
  split_ifs
  all_goals (try split)
  all_goals (try split_ifs)
  all_goals
    simp [accumulator_ok, access_hid_params, set_STALLRQ, clear_TXINI, Engine.emit, h1, h2,
      List.all_append, within_capacity, hlen, -List.all_eq_true]

/-- The `NAKINI` branch keeps the accumulator within its capacity. -/
theorem USB_COM_vect_NAKINI_ok (g_params : usb_parameters) (e : Engine)
    (h : accumulator_ok e) : accumulator_ok (USB_COM_vect_NAKINI g_params e) := by
  have he : accumulator_ok (e.emit HwEvent.clear_NAKINI) := by
    refine ⟨h.1, ?_⟩
    simp only [Engine.emit, List.all_append, h.2, Bool.true_and]
    rfl
  simp only [USB_COM_vect_NAKINI]
  split_ifs
  · have := handleDataPacket_ok g_params e.control_write_rq (bytes e.control_write_buf)
      e.control_write_len (e.emit HwEvent.clear_NAKINI) (Nat.le_of_lt h.1) he
    exact this
  · exact he

theorem within_capacity_map_UEDATX (ep : Nat) (bs : List Nat) :
    (bs.map (HwEvent.UEDATX ep)).all within_capacity = true := by
  induction bs with
  | nil => rfl
  | cons b bs ih => simp [within_capacity]

/-- Function `handle_interrupt_xmit` touches neither the accumulator count nor
the capacity of what is logged. -/
theorem handle_interrupt_xmit_ok (ep UEINTX : Nat) (ram : Nat → Nat) (slot : Nat × Int)
    (e : Engine) (h : accumulator_ok e) :
    accumulator_ok (handle_interrupt_xmit ep UEINTX ram slot e).2 := by
  obtain ⟨h1, h2⟩ := h
  simp only [handle_interrupt_xmit]
  split_ifs
  all_goals
    simp [accumulator_ok, buf2EP_eq, Engine.emit, h1, h2, List.all_append, within_capacity,
      within_capacity_map_UEDATX, -List.all_eq_true, -List.map_append]

/-- The statement `if (c) { f }` keeps the accumulator within its capacity when
`f` does. -/
theorem run_if_ok (c : Bool) (f : Engine → Engine)
    (hf : ∀ e, accumulator_ok e → accumulator_ok (f e)) (e : Engine)
    (h : accumulator_ok e) : accumulator_ok (run_if c f e) := by
  unfold run_if
  split_ifs
  · exact hf e h
  · exact h

/-- One run of `ISR(USB_COM_vect)` keeps the accumulator within its capacity
when the OUT packet has at most 64 bytes. -/
theorem USB_COM_vect_ok (g_params : usb_parameters) (hw : com_irq) (e : Engine)
    (hlen : hw.out_bank.length ≤ 64) (h : accumulator_ok e) :
    accumulator_ok (USB_COM_vect g_params hw e) := by
  have h0 : ∀ e, accumulator_ok e → accumulator_ok (USB_COM_vect_EPINT0 g_params hw e) := by
    intro e he
    simp only [USB_COM_vect_EPINT0]
    apply run_if_ok _ _ (fun e he => USB_COM_vect_NAKINI_ok g_params e he)
    apply run_if_ok _ _ (fun e he => USB_COM_vect_RXOUTI_ok hw.out_bank e hlen he)
    apply run_if_ok _ _ (fun e he => by
      simp only [USB_COM_vect_RXSTPI]
      apply handleSetupPacket_ok
      refine ⟨he.1, ?_⟩
      simp only [Engine.emit, List.all_append, he.2, Bool.true_and]
      rfl)
    exact he
  have h1 : ∀ e, accumulator_ok e → accumulator_ok (USB_COM_vect_EPINT1 hw e) := by
    intro e he
    exact handle_interrupt_xmit_ok 1 hw.UEINTX1 hw.ram _ e he
  have h2 : ∀ e, accumulator_ok e → accumulator_ok (USB_COM_vect_EPINT2 hw e) := by
    intro e he
    exact handle_interrupt_xmit_ok 2 hw.UEINTX2 hw.ram _ e he
  have h3 : ∀ e, accumulator_ok e → accumulator_ok (USB_COM_vect_EPINT3 hw e) := by
    intro e he
    exact handle_interrupt_xmit_ok 3 hw.UEINTX3 hw.ram _ e he
  simp only [USB_COM_vect]
  exact run_if_ok _ _ h3 _ (run_if_ok _ _ h2 _ (run_if_ok _ _ h1 _ (run_if_ok _ _ h0 _ h)))

/-- Any number of runs of `ISR(USB_COM_vect)` keeps the accumulator within its
capacity when every OUT packet has at most 64 bytes. -/
theorem run_com_ok (g_params : usb_parameters) (hws : List com_irq) :
    ∀ e : Engine, (∀ hw ∈ hws, hw.out_bank.length ≤ 64) → accumulator_ok e →
      accumulator_ok (run_com g_params hws e) := by
  induction hws with
  | nil => intro e _ h; exact h
  | cons hw hws ih =>
    intro e hlen h
    simp only [run_com, List.foldl_cons]
    exact ih _ (fun hw' hmem => hlen hw' (List.mem_cons_of_mem _ hmem))
      (USB_COM_vect_ok g_params hw e (hlen hw (List.mem_cons_self _ _)) h)

/-- C12: for every sequence of endpoint interrupts from reset, that is for every
Set_Report control write and every sequence of OUT data-stage packets, each of
at most 64 bytes, in whatever order they come: no byte is ever written to
`control_write_buf` at an index of 64 or more, the running count
`control_write_len` never exceeds 64, and every length passed to `setReport`
is at most 64. -/
theorem accumulator_within_capacity (g_params : usb_parameters) (hws : List com_irq)
    (hlen : ∀ hw ∈ hws, hw.out_bank.length ≤ 64) :
    (∀ i b, HwEvent.buf_write i b ∈ (run_com g_params hws Engine.init).log → i < 64) ∧
    (run_com g_params hws Engine.init).control_write_len ≤ 64 ∧
    (∀ i len, HwEvent.setReport i len ∈ (run_com g_params hws Engine.init).log → len ≤ 64) := by
  have hinit : accumulator_ok Engine.init := ⟨by decide, rfl⟩
  obtain ⟨h1, h2⟩ := run_com_ok g_params hws Engine.init hlen hinit
  rw [List.all_eq_true] at h2
  refine ⟨?_, Nat.le_of_lt h1, ?_⟩
  · intro i b hmem
    have := h2 _ hmem
    simpa [within_capacity, CONTROL_WRITE_BUFSIZE] using this
  · intro i len hmem
    have := h2 _ hmem
    simpa [within_capacity, CONTROL_WRITE_BUFSIZE] using this


theorem accumulator_within_capacity_witness :
    (∀ hw ∈ [sample_setup_irq, sample_out_irq [1, 2, 3], sample_nak_irq],
      hw.out_bank.length ≤ 64) ∧
    (run_com sample_params [sample_setup_irq, sample_out_irq [1, 2, 3], sample_nak_irq]
      Engine.init).control_write_len ≤ 64 :=
  ⟨by decide,
    (accumulator_within_capacity sample_params
      [sample_setup_irq, sample_out_irq [1, 2, 3], sample_nak_irq] (by decide)).2.1⟩

/-! ## What is handed to `setReport` -/

/-- What the HID class Set_Report setup stage does to the engine. -/
theorem set_report_eq (g_params : usb_parameters) (rq : usb_request) (e : Engine)
    (hdir : USB_RQT_IS_HOST_TO_DEVICE rq.bmRequestType = true)
    (hrcp : rq.bmRequestType &&& USB_RQT_RECIPIENT_MASK = USB_RQT_RECIPIENT_INTERFACE)
    (htype : rq.bmRequestType &&& USB_RQT_TYPE_MASK = USB_RQT_CLASS)
    (hrq : rq.bRequest = HID_CLSRQ_SET_REPORT) :
    handleSetupPacket g_params rq e =
      { e with control_write_rq := rq, control_write_len := 0, control_write_in_progress := 1,
               log := e.log ++ [HwEvent.wait_TXINI, HwEvent.clear_TXINI] } := by
  rw [handleSetupPacket_host_to_device g_params rq e hdir]
  have h0 : USB_RQT_RECIPIENT_INTERFACE ≠ USB_RQT_RECIPIENT_DEVICE := by decide
  have h1 : HID_CLSRQ_SET_REPORT ≠ HID_CLSRQ_SET_IDLE := by decide
  simp [handleSetupPacket_out, hrcp, htype, hrq, h0, h1, wait_TXINI, clear_TXINI, Engine.emit,
    initControlWrite]

/-- Packets that fit one after the other are appended in order. -/
theorem data_stage_fit (front : List (List Nat)) :
    ∀ e : Engine, e.control_write_in_progress ≠ 0 →
      e.control_write_buf.length = CONTROL_WRITE_BUFSIZE →
      e.control_write_len + front.flatten.length < CONTROL_WRITE_BUFSIZE →
      (data_stage front e).control_write_len = e.control_write_len + front.flatten.length ∧
      (data_stage front e).control_write_buf.take (data_stage front e).control_write_len =
        e.control_write_buf.take e.control_write_len ++ front.flatten ∧
      (data_stage front e).control_write_buf.length = CONTROL_WRITE_BUFSIZE ∧
      (data_stage front e).control_write_in_progress = e.control_write_in_progress ∧
      (data_stage front e).control_write_rq = e.control_write_rq := by
  induction front with
  | nil => intro e _ hb _; simp [data_stage, hb]
  | cons pkt front ih =>
    intro e hin hb hfit
    simp only [List.flatten_cons, List.length_append] at hfit
    have hfit1 : e.control_write_len + pkt.length < CONTROL_WRITE_BUFSIZE := by omega
    have hstep := USB_COM_vect_RXOUTI_fit pkt e hin hfit1
    have h64 : CONTROL_WRITE_BUFSIZE = 64 := rfl
    have hih := ih (USB_COM_vect_RXOUTI pkt e) (by rw [hstep]; exact hin)
      (by rw [hstep]; simp [store_list_length, hb])
      (by rw [hstep]; simp only []; omega)
    have hds : data_stage (pkt :: front) e = data_stage front (USB_COM_vect_RXOUTI pkt e) := rfl
    rw [hds]
    obtain ⟨i1, i2, i3, i4, i5⟩ := hih
    refine ⟨?_, ?_, i3, ?_, ?_⟩
    · rw [i1, hstep]; simp only [List.flatten_cons, List.length_append]; omega
    · rw [i2, hstep]
      simp only [List.flatten_cons]
      rw [store_list_eq pkt _ _ (by omega), List.append_assoc (List.take _ _),
        List.take_append_eq_append_take, List.take_append_eq_append_take]
      have hl : (List.take e.control_write_len e.control_write_buf).length =
          e.control_write_len := by simp; omega
      simp [hl]
    · rw [i4, hstep]
    · rw [i5, hstep]

/-- Packets that do not fit leave the accumulator as it is. -/
theorem data_stage_drop (back : List (List Nat)) :
    ∀ e : Engine, e.control_write_len ≤ 64 →
      (∀ pkt ∈ back, pkt.length ≤ 64 ∧
        ¬ e.control_write_len + pkt.length < CONTROL_WRITE_BUFSIZE) →
      data_stage back e = { e with log := (data_stage back e).log } := by
  induction back with
  | nil => intro e _ _; rfl
  | cons pkt back ih =>
    intro e hc hback
    have hp := hback pkt (List.mem_cons_self _ _)
    have hstep := USB_COM_vect_RXOUTI_drop pkt e hp.1 hc (Or.inr hp.2)
    have hds : data_stage (pkt :: back) e = data_stage back (USB_COM_vect_RXOUTI pkt e) := rfl
    rw [hds, hstep]
    have := ih (e.emit HwEvent.clear_RXOUTI) hc
      (fun p hmem => hback p (List.mem_cons_of_mem _ hmem))
    rw [this]
    rfl

/-- C13 (the code at the failing input): a Set_Report write of 70 bytes arrives as
a 64-byte packet of ones followed by a 6-byte packet of twos.  The guard
`control_write_len + len < CONTROL_WRITE_BUFSIZE` discards the first packet
whole and then accepts the second: the count is 6, the buffer starts with the
six twos, and `setReport` is called with length 6 on bytes that are the end of
the payload, whose first six bytes are ones. -/
theorem control_write_tail_as_head :
    (data_stage [List.replicate 64 1, List.replicate 6 2]
      (handleSetupPacket sample_params sample_set_report Engine.init)).control_write_len = 6 ∧
    (data_stage [List.replicate 64 1, List.replicate 6 2]
      (handleSetupPacket sample_params sample_set_report Engine.init)).control_write_buf.take 6
      = [2, 2, 2, 2, 2, 2] ∧
    ([List.replicate 64 1, List.replicate 6 2].flatten).take 6 = [1, 1, 1, 1, 1, 1] ∧
    HwEvent.setReport 0 6 ∈
      (USB_COM_vect_NAKINI sample_params
        (data_stage [List.replicate 64 1, List.replicate 6 2]
          (handleSetupPacket sample_params sample_set_report Engine.init))).log := by
  decide

/-! ## Completion of a control write -/

/-- What the completion signal does while a class control write to an
interface with a `setReport` callback is in progress. -/
theorem USB_COM_vect_NAKINI_eq (g_params : usb_parameters) (e : Engine)
    (f : Nat → usb_request → (Nat → Nat) → Nat → Nat)
    (hin : e.control_write_in_progress ≠ 0)
    (hclass : e.control_write_rq.bmRequestType &&& USB_RQT_TYPE_MASK = USB_RQT_CLASS)
    (hidx : e.control_write_rq.wIndex ≤ g_params.n_hid_interfaces)
    (hf : (g_params.hid_params e.control_write_rq.wIndex).setReport = some f) :
    USB_COM_vect_NAKINI g_params e =
      if f (g_params.hid_params e.control_write_rq.wIndex).ctx e.control_write_rq
          (bytes e.control_write_buf) e.control_write_len ≠ 0 then
        { e with control_write_in_progress := 0,
                 UECONX := e.UECONX ||| (1 <<< STALLRQ),
                 log := e.log ++
                   [HwEvent.clear_NAKINI, HwEvent.hid_params e.control_write_rq.wIndex,
                    HwEvent.hid_params e.control_write_rq.wIndex,
                    HwEvent.hid_params e.control_write_rq.wIndex,
                    HwEvent.setReport e.control_write_rq.wIndex e.control_write_len,
                    HwEvent.STALLRQ] }
      else
        { e with control_write_in_progress := 0,
                 log := e.log ++
                   [HwEvent.clear_NAKINI, HwEvent.hid_params e.control_write_rq.wIndex,
                    HwEvent.hid_params e.control_write_rq.wIndex,
                    HwEvent.hid_params e.control_write_rq.wIndex,
                    HwEvent.setReport e.control_write_rq.wIndex e.control_write_len,
                    HwEvent.clear_TXINI] } := by
  have hnot : ¬ e.control_write_rq.wIndex > g_params.n_hid_interfaces := by omega
  simp only [USB_COM_vect_NAKINI, handleDataPacket, Engine.emit, hin, hclass, hnot, hf,
    access_hid_params, ne_eq, not_false_eq_true, if_true, if_false]
  split_ifs <;> simp [set_STALLRQ, clear_TXINI, Engine.emit]

/-- The completion signal does nothing but clear `NAKINI` when no control write
is in progress. -/
theorem USB_COM_vect_NAKINI_idle (g_params : usb_parameters) (e : Engine)
    (hin : e.control_write_in_progress = 0) :
    USB_COM_vect_NAKINI g_params e = e.emit HwEvent.clear_NAKINI := by
  simp [USB_COM_vect_NAKINI, Engine.emit, hin]

/-- C14: when the completion signal (NAKINI) fires while a class Set_Report
control write to a valid interface with a `setReport` callback `f` is in
progress, the callback is called exactly once, with the recorded setup
request, the accumulator buffer and the accumulated length; the endpoint is
stalled if and only if the callback returns nonzero, otherwise the status stage
is acknowledged; afterwards no control write is in progress, so a further
completion signal only clears `NAKINI` and does not call the callback again. -/
theorem control_write_completion (g_params : usb_parameters) (e : Engine)
    (f : Nat → usb_request → (Nat → Nat) → Nat → Nat)
    (hin : e.control_write_in_progress ≠ 0)
    (hclass : e.control_write_rq.bmRequestType &&& USB_RQT_TYPE_MASK = USB_RQT_CLASS)
    (hidx : e.control_write_rq.wIndex < g_params.n_hid_interfaces)
    (hf : (g_params.hid_params e.control_write_rq.wIndex).setReport = some f) :
    ((USB_COM_vect_NAKINI g_params e).log.drop e.log.length =
      [HwEvent.clear_NAKINI, HwEvent.hid_params e.control_write_rq.wIndex,
        HwEvent.hid_params e.control_write_rq.wIndex,
        HwEvent.hid_params e.control_write_rq.wIndex,
        HwEvent.setReport e.control_write_rq.wIndex e.control_write_len,
        if f (g_params.hid_params e.control_write_rq.wIndex).ctx e.control_write_rq
            (bytes e.control_write_buf) e.control_write_len ≠ 0
        then HwEvent.STALLRQ else HwEvent.clear_TXINI]) ∧
    ((USB_COM_vect_NAKINI g_params e).log.drop e.log.length).countP is_setReport_event = 1 ∧
    (HwEvent.STALLRQ ∈ (USB_COM_vect_NAKINI g_params e).log.drop e.log.length ↔
      f (g_params.hid_params e.control_write_rq.wIndex).ctx e.control_write_rq
        (bytes e.control_write_buf) e.control_write_len ≠ 0) ∧
    (HwEvent.clear_TXINI ∈ (USB_COM_vect_NAKINI g_params e).log.drop e.log.length ↔
      f (g_params.hid_params e.control_write_rq.wIndex).ctx e.control_write_rq
        (bytes e.control_write_buf) e.control_write_len = 0) ∧
    (USB_COM_vect_NAKINI g_params e).control_write_in_progress = 0 ∧
    USB_COM_vect_NAKINI g_params (USB_COM_vect_NAKINI g_params e) =
      (USB_COM_vect_NAKINI g_params e).emit HwEvent.clear_NAKINI := by
  have heq := USB_COM_vect_NAKINI_eq g_params e f hin hclass (Nat.le_of_lt hidx) hf
  have hdone : (USB_COM_vect_NAKINI g_params e).control_write_in_progress = 0 := by
    rw [heq]; split_ifs <;> rfl
  refine ⟨?_, ?_, ?_, ?_, hdone, USB_COM_vect_NAKINI_idle g_params _ hdone⟩
  · rw [heq]; split_ifs <;> simp
  · rw [heq]; split_ifs <;> simp [List.countP_cons, is_setReport_event]
  · rw [heq]; split_ifs with h <;> simp [h]
  · rw [heq]
    split_ifs with h
    · simp [h]
    · have h0 := not_not.mp h
      simp [h0]

theorem control_write_completion_witness :
    (data_stage [[1, 2, 3]]
      (handleSetupPacket sample_params sample_set_report Engine.init)).control_write_in_progress
      ≠ 0 ∧
    (USB_COM_vect_NAKINI sample_params (data_stage [[1, 2, 3]]
      (handleSetupPacket sample_params sample_set_report Engine.init))).control_write_in_progress
      = 0 :=
  ⟨by decide,
    (control_write_completion sample_params
      (data_stage [[1, 2, 3]] (handleSetupPacket sample_params sample_set_report Engine.init))
      (fun _ _ _ _ => 0) (by decide) (by decide) (by decide) rfl).2.2.2.2.1⟩


/-! ## The interrupt channels -/

/-- The handler of an idle slot, transmit-ready flag set: the transmit-ready
interrupt of the endpoint is disabled, the slot is left as it is. -/
theorem handle_interrupt_xmit_idle (ep UEINTX : Nat) (ram : Nat → Nat) (slot : Nat × Int)
    (e : Engine) (hT : UEINTX % 256 &&& (1 <<< TXINI) ≠ 0) (hidle : slot.2 = -1) :
    handle_interrupt_xmit ep UEINTX ram slot e =
      (slot, { e with UENUM := ep, log := e.log ++ [HwEvent.ep_clear_TXINE ep] }) := by
  have hneg : slot.2 < 0 := by omega
  simp [handle_interrupt_xmit, hT, hneg, Engine.emit]

/-- The handler of a pending slot, transmit-ready flag set: the pending bytes
are written to the FIFO of the endpoint and the slot is set back to idle. -/
theorem handle_interrupt_xmit_pending (ep UEINTX : Nat) (ram : Nat → Nat) (slot : Nat × Int)
    (e : Engine) (hT : UEINTX % 256 &&& (1 <<< TXINI) ≠ 0)
    (h0 : 0 ≤ slot.2) (h1 : slot.2 < 32768) :
    handle_interrupt_xmit ep UEINTX ram slot e =
      ((0, -1),
       { e with UENUM := ep,
                log := e.log ++ ([HwEvent.ep_clear_TXINI ep] ++
                  (mem (fun k => ram (slot.1 + k)) slot.2.toNat).map (HwEvent.UEDATX ep) ++
                  [HwEvent.ep_clear_FIFOCON ep]) }) := by
  have hneg : ¬ slot.2 < 0 := by omega
  have hu : uint16_of_int slot.2 = slot.2.toNat := by
    unfold uint16_of_int
    omega
  simp [handle_interrupt_xmit, hT, hneg, hu, buf2EP_eq, Engine.emit]

/-- C16: for each of the three interrupt channels, when its handler runs with
the transmit-ready flag set: if the slot is idle it disables the
transmit-ready interrupt of the endpoint, writes no bytes and leaves the slot
unchanged; otherwise it writes exactly the pending length of bytes, the first
bytes of the pending buffer, into the FIFO of the endpoint and sets the slot
back to idle (pointer `NULL`, length -1), after which the ready function of
the channel returns true. -/
theorem interrupt_handler (hw : com_irq) (e : Engine) :
    (hw.UEINTX1 % 256 &&& (1 <<< TXINI) ≠ 0 →
      (e.interrupt_data_len = -1 →
        USB_COM_vect_EPINT1 hw e =
          { e with UENUM := 1, log := e.log ++ [HwEvent.ep_clear_TXINE 1] }) ∧
      (0 ≤ e.interrupt_data_len → e.interrupt_data_len < 32768 →
        USB_COM_vect_EPINT1 hw e =
          { e with UENUM := 1, interrupt_data := 0, interrupt_data_len := -1,
                   log := e.log ++ ([HwEvent.ep_clear_TXINI 1] ++
                     (mem (fun k => hw.ram (e.interrupt_data + k))
                       e.interrupt_data_len.toNat).map (HwEvent.UEDATX 1) ++
                     [HwEvent.ep_clear_FIFOCON 1]) } ∧
        usb_interruptReady_ep1 (USB_COM_vect_EPINT1 hw e) = true)) ∧
    (hw.UEINTX2 % 256 &&& (1 <<< TXINI) ≠ 0 →
      (e.interrupt_data_len2 = -1 →
        USB_COM_vect_EPINT2 hw e =
          { e with UENUM := 2, log := e.log ++ [HwEvent.ep_clear_TXINE 2] }) ∧
      (0 ≤ e.interrupt_data_len2 → e.interrupt_data_len2 < 32768 →
        USB_COM_vect_EPINT2 hw e =
          { e with UENUM := 2, interrupt_data2 := 0, interrupt_data_len2 := -1,
                   log := e.log ++ ([HwEvent.ep_clear_TXINI 2] ++
                     (mem (fun k => hw.ram (e.interrupt_data2 + k))
                       e.interrupt_data_len2.toNat).map (HwEvent.UEDATX 2) ++
                     [HwEvent.ep_clear_FIFOCON 2]) } ∧
        usb_interruptReady_ep2 (USB_COM_vect_EPINT2 hw e) = true)) ∧
    (hw.UEINTX3 % 256 &&& (1 <<< TXINI) ≠ 0 →
      (e.interrupt_data_len3 = -1 →
        USB_COM_vect_EPINT3 hw e =
          { e with UENUM := 3, log := e.log ++ [HwEvent.ep_clear_TXINE 3] }) ∧
      (0 ≤ e.interrupt_data_len3 → e.interrupt_data_len3 < 32768 →
        USB_COM_vect_EPINT3 hw e =
          { e with UENUM := 3, interrupt_data3 := 0, interrupt_data_len3 := -1,
                   log := e.log ++ ([HwEvent.ep_clear_TXINI 3] ++
                     (mem (fun k => hw.ram (e.interrupt_data3 + k))
                       e.interrupt_data_len3.toNat).map (HwEvent.UEDATX 3) ++
                     [HwEvent.ep_clear_FIFOCON 3]) } ∧
        usb_interruptReady_ep3 (USB_COM_vect_EPINT3 hw e) = true)) := by
  refine ⟨fun hT => ⟨fun hidle => ?_, fun h0 h1 => ?_⟩, fun hT => ⟨fun hidle => ?_, fun h0 h1 => ?_⟩,
    fun hT => ⟨fun hidle => ?_, fun h0 h1 => ?_⟩⟩
  · simp only [USB_COM_vect_EPINT1]
    rw [handle_interrupt_xmit_idle 1 _ _ _ e hT hidle]
  · constructor
    · simp only [USB_COM_vect_EPINT1]
      rw [handle_interrupt_xmit_pending 1 _ _ _ e hT h0 h1]
    · simp only [USB_COM_vect_EPINT1, usb_interruptReady_ep1]
      rw [handle_interrupt_xmit_pending 1 _ _ _ e hT h0 h1]
      rfl
  · simp only [USB_COM_vect_EPINT2]
    rw [handle_interrupt_xmit_idle 2 _ _ _ e hT hidle]
  · constructor
    · simp only [USB_COM_vect_EPINT2]
      rw [handle_interrupt_xmit_pending 2 _ _ _ e hT h0 h1]
    · simp only [USB_COM_vect_EPINT2, usb_interruptReady_ep2]
      rw [handle_interrupt_xmit_pending 2 _ _ _ e hT h0 h1]
      rfl
  · simp only [USB_COM_vect_EPINT3]
    rw [handle_interrupt_xmit_idle 3 _ _ _ e hT hidle]
  · constructor
    · simp only [USB_COM_vect_EPINT3]
      rw [handle_interrupt_xmit_pending 3 _ _ _ e hT h0 h1]
    · simp only [USB_COM_vect_EPINT3, usb_interruptReady_ep3]
      rw [handle_interrupt_xmit_pending 3 _ _ _ e hT h0 h1]
      rfl

theorem interrupt_handler_witness :
    (sample_xmit_irq.UEINTX1 % 256 &&& (1 <<< TXINI) ≠ 0) ∧
    (0 ≤ sample_pending.interrupt_data_len) ∧ (sample_pending.interrupt_data_len < 32768) ∧
    USB_COM_vect_EPINT1 sample_xmit_irq sample_pending =
      { sample_pending with
          UENUM := 1, interrupt_data := 0, interrupt_data_len := -1,
          log := sample_pending.log ++ ([HwEvent.ep_clear_TXINI 1] ++
            (mem (fun k => sample_xmit_irq.ram (sample_pending.interrupt_data + k))
              sample_pending.interrupt_data_len.toNat).map (HwEvent.UEDATX 1) ++
            [HwEvent.ep_clear_FIFOCON 1]) } ∧
    usb_interruptReady_ep1 (USB_COM_vect_EPINT1 sample_xmit_irq sample_pending) = true :=
  ⟨by decide, by decide, by decide,
    ((interrupt_handler sample_xmit_irq sample_pending).1 (by decide)).2 (by decide)
      (by decide)⟩


/-! ## Sending on an interrupt channel -/

/-- While the slot of channel 1 is not idle the call stays in its loop. -/
theorem usb_interruptSend_ep1_blocked (data : Nat) (len : Int) (e : Engine)
    (h : e.interrupt_data_len ≠ -1) :
    ∀ fuel : Nat, usb_interruptSend_ep1 fuel data len e = none := by
  intro fuel
  induction fuel with
  | zero => rfl
  | succ fuel ih => simp [usb_interruptSend_ep1, h, ih]

/-- While the slot of channel 2 is not idle the call stays in its loop. -/
theorem usb_interruptSend_ep2_blocked (data : Nat) (len : Int) (e : Engine)
    (h : e.interrupt_data_len2 ≠ -1) :
    ∀ fuel : Nat, usb_interruptSend_ep2 fuel data len e = none := by
  intro fuel
  induction fuel with
  | zero => rfl
  | succ fuel ih => simp [usb_interruptSend_ep2, h, ih]

/-- While the slot of channel 3 is not idle the call stays in its loop. -/
theorem usb_interruptSend_ep3_blocked (data : Nat) (len : Int) (e : Engine)
    (h : e.interrupt_data_len3 ≠ -1) :
    ∀ fuel : Nat, usb_interruptSend_ep3 fuel data len e = none := by
  intro fuel
  induction fuel with
  | zero => rfl
  | succ fuel ih => simp [usb_interruptSend_ep3, h, ih]

/-- With the slot of channel 1 idle the call installs its arguments at once. -/
theorem usb_interruptSend_ep1_idle (fuel data : Nat) (len : Int) (e : Engine)
    (h : e.interrupt_data_len = -1) :
    usb_interruptSend_ep1 (fuel + 1) data len e =
      some (usb_interruptSend_ep1_install data len e) := by
  simp [usb_interruptSend_ep1, h]

/-- With the slot of channel 2 idle the call installs its arguments at once. -/
theorem usb_interruptSend_ep2_idle (fuel data : Nat) (len : Int) (e : Engine)
    (h : e.interrupt_data_len2 = -1) :
    usb_interruptSend_ep2 (fuel + 1) data len e =
      some (usb_interruptSend_ep2_install data len e) := by
  simp [usb_interruptSend_ep2, h]

/-- With the slot of channel 3 idle the call installs its arguments at once. -/
theorem usb_interruptSend_ep3_idle (fuel data : Nat) (len : Int) (e : Engine)
    (h : e.interrupt_data_len3 = -1) :
    usb_interruptSend_ep3 (fuel + 1) data len e =
      some (usb_interruptSend_ep3_install data len e) := by
  simp [usb_interruptSend_ep3, h]

/-- C17: for each of the three interrupt channels, a call of
`usb_interruptSend_epN` on an idle slot installs exactly `(b1, l1)` and enables
the transmit-ready interrupt; after it, with `l1 >= 0`, a second call with
`(b2, l2)` makes no progress however long its loop is followed, the slot
still holding `(b1, l1)`; once the handler has drained the slot the second
call installs exactly `(b2, l2)` and enables the transmit-ready interrupt. -/
theorem interrupt_send (hw : com_irq) (e : Engine) (b1 b2 fuel : Nat) (l1 l2 : Int)
    (h0 : 0 ≤ l1) (h1 : l1 < 32768) :
    (e.interrupt_data_len = -1 → hw.UEINTX1 % 256 &&& (1 <<< TXINI) ≠ 0 →
      usb_interruptSend_ep1 (fuel + 1) b1 l1 e = some (usb_interruptSend_ep1_install b1 l1 e) ∧
      (usb_interruptSend_ep1_install b1 l1 e).interrupt_data = b1 ∧
      (usb_interruptSend_ep1_install b1 l1 e).interrupt_data_len = l1 ∧
      (usb_interruptSend_ep1_install b1 l1 e).log =
        e.log ++ [HwEvent.cli, HwEvent.ep_set_TXINE 1, HwEvent.restore_SREG] ∧
      (∀ fuel2, usb_interruptSend_ep1 fuel2 b2 l2 (usb_interruptSend_ep1_install b1 l1 e) =
        none) ∧
      usb_interruptSend_ep1 (fuel + 1) b2 l2
          (USB_COM_vect_EPINT1 hw (usb_interruptSend_ep1_install b1 l1 e)) =
        some (usb_interruptSend_ep1_install b2 l2
          (USB_COM_vect_EPINT1 hw (usb_interruptSend_ep1_install b1 l1 e))) ∧
      (usb_interruptSend_ep1_install b2 l2
        (USB_COM_vect_EPINT1 hw (usb_interruptSend_ep1_install b1 l1 e))).interrupt_data = b2 ∧
      (usb_interruptSend_ep1_install b2 l2
        (USB_COM_vect_EPINT1 hw (usb_interruptSend_ep1_install b1 l1 e))).interrupt_data_len
        = l2) ∧
    (e.interrupt_data_len2 = -1 → hw.UEINTX2 % 256 &&& (1 <<< TXINI) ≠ 0 →
      usb_interruptSend_ep2 (fuel + 1) b1 l1 e = some (usb_interruptSend_ep2_install b1 l1 e) ∧
      (usb_interruptSend_ep2_install b1 l1 e).interrupt_data2 = b1 ∧
      (usb_interruptSend_ep2_install b1 l1 e).interrupt_data_len2 = l1 ∧
      (usb_interruptSend_ep2_install b1 l1 e).log =
        e.log ++ [HwEvent.cli, HwEvent.ep_set_TXINE 2, HwEvent.restore_SREG] ∧
      (∀ fuel2, usb_interruptSend_ep2 fuel2 b2 l2 (usb_interruptSend_ep2_install b1 l1 e) =
        none) ∧
      usb_interruptSend_ep2 (fuel + 1) b2 l2
          (USB_COM_vect_EPINT2 hw (usb_interruptSend_ep2_install b1 l1 e)) =
        some (usb_interruptSend_ep2_install b2 l2
          (USB_COM_vect_EPINT2 hw (usb_interruptSend_ep2_install b1 l1 e))) ∧
      (usb_interruptSend_ep2_install b2 l2
        (USB_COM_vect_EPINT2 hw (usb_interruptSend_ep2_install b1 l1 e))).interrupt_data2 = b2 ∧
      (usb_interruptSend_ep2_install b2 l2
        (USB_COM_vect_EPINT2 hw (usb_interruptSend_ep2_install b1 l1 e))).interrupt_data_len2
        = l2) ∧
    (e.interrupt_data_len3 = -1 → hw.UEINTX3 % 256 &&& (1 <<< TXINI) ≠ 0 →
      usb_interruptSend_ep3 (fuel + 1) b1 l1 e = some (usb_interruptSend_ep3_install b1 l1 e) ∧
      (usb_interruptSend_ep3_install b1 l1 e).interrupt_data3 = b1 ∧
      (usb_interruptSend_ep3_install b1 l1 e).interrupt_data_len3 = l1 ∧
      (usb_interruptSend_ep3_install b1 l1 e).log =
        e.log ++ [HwEvent.cli, HwEvent.ep_set_TXINE 3, HwEvent.restore_SREG] ∧
      (∀ fuel2, usb_interruptSend_ep3 fuel2 b2 l2 (usb_interruptSend_ep3_install b1 l1 e) =
        none) ∧
      usb_interruptSend_ep3 (fuel + 1) b2 l2
          (USB_COM_vect_EPINT3 hw (usb_interruptSend_ep3_install b1 l1 e)) =
        some (usb_interruptSend_ep3_install b2 l2
          (USB_COM_vect_EPINT3 hw (usb_interruptSend_ep3_install b1 l1 e))) ∧
      (usb_interruptSend_ep3_install b2 l2
        (USB_COM_vect_EPINT3 hw (usb_interruptSend_ep3_install b1 l1 e))).interrupt_data3 = b2 ∧
      (usb_interruptSend_ep3_install b2 l2
        (USB_COM_vect_EPINT3 hw (usb_interruptSend_ep3_install b1 l1 e))).interrupt_data_len3
        = l2) := by
  have hne : l1 ≠ -1 := by omega
  refine ⟨fun hidle hT => ?_, fun hidle hT => ?_, fun hidle hT => ?_⟩
  · have hd : (USB_COM_vect_EPINT1 hw (usb_interruptSend_ep1_install b1 l1 e)).interrupt_data_len
        = -1 := by
      simp only [USB_COM_vect_EPINT1]
      rw [handle_interrupt_xmit_pending 1 _ _ _ _ hT h0 h1]
    exact ⟨usb_interruptSend_ep1_idle fuel b1 l1 e hidle, rfl, rfl,
      by simp [usb_interruptSend_ep1_install, Engine.emit],
      usb_interruptSend_ep1_blocked b2 l2 _ hne, usb_interruptSend_ep1_idle fuel b2 l2 _ hd,
      rfl, rfl⟩
  · have hd : (USB_COM_vect_EPINT2 hw (usb_interruptSend_ep2_install b1 l1 e)).interrupt_data_len2
        = -1 := by
      simp only [USB_COM_vect_EPINT2]
      rw [handle_interrupt_xmit_pending 2 _ _ _ _ hT h0 h1]
    exact ⟨usb_interruptSend_ep2_idle fuel b1 l1 e hidle, rfl, rfl,
      by simp [usb_interruptSend_ep2_install, Engine.emit],
      usb_interruptSend_ep2_blocked b2 l2 _ hne, usb_interruptSend_ep2_idle fuel b2 l2 _ hd,
      rfl, rfl⟩
  · have hd : (USB_COM_vect_EPINT3 hw (usb_interruptSend_ep3_install b1 l1 e)).interrupt_data_len3
        = -1 := by
      simp only [USB_COM_vect_EPINT3]
      rw [handle_interrupt_xmit_pending 3 _ _ _ _ hT h0 h1]
    exact ⟨usb_interruptSend_ep3_idle fuel b1 l1 e hidle, rfl, rfl,
      by simp [usb_interruptSend_ep3_install, Engine.emit],
      usb_interruptSend_ep3_blocked b2 l2 _ hne, usb_interruptSend_ep3_idle fuel b2 l2 _ hd,
      rfl, rfl⟩

theorem interrupt_send_witness :
    (0 : Int) ≤ 15 ∧ (15 : Int) < 32768 ∧
    Engine.init.interrupt_data_len = -1 ∧
    (sample_xmit_irq.UEINTX1 % 256 &&& (1 <<< TXINI) ≠ 0) ∧
    usb_interruptSend_ep1 (0 + 1) 100 15 Engine.init =
      some (usb_interruptSend_ep1_install 100 15 Engine.init) ∧
    (∀ fuel2, usb_interruptSend_ep1 fuel2 200 7 (usb_interruptSend_ep1_install 100 15 Engine.init)
      = none) :=
  have h := (interrupt_send sample_xmit_irq Engine.init 100 200 0 15 7 (by decide)
    (by decide)).1 (by decide) (by decide)
  ⟨by decide, by decide, by decide, by decide, h.1, h.2.2.2.2.1⟩


/-! ## Attach tracking -/

/-- What the attach statements do to the engine. -/
theorem usb_doTasks_attach_eq (e : Engine) :
    usb_doTasks_attach e =
      { e with usb_state := STATE_ATTACHED, UDCON := e.UDCON &&& 254,
               log := e.log ++ [HwEvent.reg_and Reg.UDCON 254] } := by
  simp [usb_doTasks_attach, Engine.emit, DETACH]

theorem and_254_and_1 (x : Nat) : x &&& 254 &&& (1 <<< DETACH) = 0 := by
  rw [Nat.and_assoc]
  have : 254 &&& (1 <<< DETACH) = 0 := by decide
  rw [this, Nat.and_zero]

/-- C19 (as stated, refuted): on a controller without a `USBSTA` register the
bus voltage is not tested, and the first call of `usb_doTasks` leaves
WaitForBus for Attached whatever the bus voltage. -/
theorem attach_machine_counterexample :
    Engine.init.usb_state = STATE_WAIT_VBUS ∧
    (usb_doTasks none Engine.init).usb_state = STATE_ATTACHED ∧
    (usb_doTasks none Engine.init).usb_state ≠ STATE_WAIT_VBUS := by
  decide

/-- C19 (amended): `usb_doTasks` implements a two-state attach machine.  On a
controller with a `USBSTA` register: from WaitForBus, or any invalid state
value, it ends in WaitForBus and leaves `UDCON` alone while the `VBUS` bit
reads 0 and, when the bit reads 1, clears the DETACH bit and moves to
Attached.  On a controller without that register it clears the DETACH bit and
moves to Attached at the first call.  From Attached every call leaves the
engine, state and DETACH included, as it is. -/
theorem attach_machine (USBSTA : Option Nat) (e : Engine) :
    (e.usb_state ≠ STATE_ATTACHED →
      (∀ v, USBSTA = some v → v &&& (1 <<< VBUS) = 0 →
        (usb_doTasks USBSTA e).usb_state = STATE_WAIT_VBUS ∧
        (usb_doTasks USBSTA e).UDCON = e.UDCON ∧
        (usb_doTasks USBSTA e).log = e.log) ∧
      (∀ v, USBSTA = some v → v &&& (1 <<< VBUS) ≠ 0 →
        (usb_doTasks USBSTA e).usb_state = STATE_ATTACHED ∧
        (usb_doTasks USBSTA e).UDCON = e.UDCON &&& 254 ∧
        (usb_doTasks USBSTA e).UDCON &&& (1 <<< DETACH) = 0) ∧
      (USBSTA = none →
        (usb_doTasks USBSTA e).usb_state = STATE_ATTACHED ∧
        (usb_doTasks USBSTA e).UDCON = e.UDCON &&& 254 ∧
        (usb_doTasks USBSTA e).UDCON &&& (1 <<< DETACH) = 0)) ∧
    (e.usb_state = STATE_ATTACHED → usb_doTasks USBSTA e = e) := by
  have h01 : STATE_ATTACHED ≠ STATE_WAIT_VBUS := by decide
  constructor
  · intro hs
    refine ⟨fun v hv hb => ?_, fun v hv hb => ?_, fun hn => ?_⟩
    · subst hv
      by_cases hw : e.usb_state = STATE_WAIT_VBUS <;> simp [usb_doTasks, hs, hw, hb]
    · subst hv
      by_cases hw : e.usb_state = STATE_WAIT_VBUS <;>
        simp [usb_doTasks, hs, hw, hb, usb_doTasks_attach_eq, and_254_and_1]
    · subst hn
      by_cases hw : e.usb_state = STATE_WAIT_VBUS <;>
        simp [usb_doTasks, hs, hw, usb_doTasks_attach_eq, and_254_and_1]
  · intro hs
    simp [usb_doTasks, hs, h01]

theorem attach_machine_witness :
    Engine.init.usb_state ≠ STATE_ATTACHED ∧
    ((0x01 : Nat) &&& (1 <<< VBUS) ≠ 0) ∧
    (usb_doTasks (some 0x01) Engine.init).usb_state = STATE_ATTACHED ∧
    (usb_doTasks (some 0x01) Engine.init).UDCON = Engine.init.UDCON &&& 254 ∧
    (usb_doTasks (some 0x01) Engine.init).UDCON &&& (1 <<< DETACH) = 0 :=
  ⟨by decide, by decide,
    ((attach_machine (some 0x01) Engine.init).1 (by decide)).2.1 0x01 rfl (by decide)⟩

/-! ## The packets of the multi-packet helper -/

/-- The packets of the loop of `longDescriptorHelper`: their number, the size of
all but the last, and their concatenation. -/
theorem packets_long_events_spec (data : Nat → Nat) (todo : Nat) :
    ∀ pos : Nat,
      (packets (long_events data todo pos)).length = max 1 ((todo + 63) / 64) ∧
      (∀ pk ∈ (packets (long_events data todo pos)).dropLast, pk.length = 64) ∧
      (packets (long_events data todo pos)).flatten = mem (fun i => data (pos + i)) todo := by
  induction todo using Nat.strong_induction_on with
  | _ todo ih =>
    intro pos
    rw [packets_long_events]
    by_cases h : todo > 64
    · obtain ⟨hl, hd, hf⟩ := ih (todo - 64) (by omega) (pos + 64)
      simp only [h, if_true]
      have hne : packets (long_events data (todo - 64) (pos + 64)) ≠ [] := by
        intro hnil
        rw [hnil] at hl
        simp at hl
        omega
      refine ⟨?_, ?_, ?_⟩
      · rw [List.length_cons, hl]
        omega
      · rw [List.dropLast_cons_of_ne_nil hne]
        intro pk hpk
        rcases List.mem_cons.mp hpk with hpk | hpk
        · rw [hpk, mem_length]
        · exact hd pk hpk
      · rw [List.flatten_cons, hf]
        have hsplit : todo = 64 + (todo - 64) := by omega
        conv => rhs; rw [hsplit, mem_add]
        simp [Nat.add_assoc]
    · simp only [h, if_false]
      refine ⟨?_, ?_, ?_⟩
      · simp
        omega
      · simp
      · simp

/-- C21: for every `data`, `len` and `rq_len`, with `todo = min len rq_len`,
`longDescriptorHelper` (a total function: the waits for the transmit-complete
flag are events assumed to complete) releases exactly `max 1 (ceil (todo / 64))`
packets on endpoint 0; every packet before the last carries 64 bytes, the last
carries `todo - 64 * (packets - 1)` bytes, at most 64, and the concatenation of
the packets is the first `todo` bytes of `data`. -/
theorem long_descriptor_packets (data : Nat → Nat) (len rq_len progmem : Nat)
    (e : Engine) :
    (packets ((longDescriptorHelper data len rq_len progmem e).log.drop e.log.length)).length
      = max 1 ((min len rq_len + 63) / 64) ∧
    (∀ pk ∈ (packets ((longDescriptorHelper data len rq_len progmem e).log.drop
        e.log.length)).dropLast, pk.length = 64) ∧
    (∃ pk : List Nat,
      (packets ((longDescriptorHelper data len rq_len progmem e).log.drop
        e.log.length)).getLast? = some pk ∧
      pk.length = min len rq_len - 64 *
        ((packets ((longDescriptorHelper data len rq_len progmem e).log.drop
          e.log.length)).length - 1) ∧
      pk.length ≤ 64) ∧
    (packets ((longDescriptorHelper data len rq_len progmem e).log.drop
        e.log.length)).flatten = mem data (min len rq_len) := by
  rw [longDescriptorHelper_eq]
  simp only [List.drop_left]
  obtain ⟨hl, hd, hf⟩ := packets_long_events_spec data (min len rq_len) 0
  obtain ⟨pk, hpk, hlen⟩ := getLast_packets_long_events data (min len rq_len) 0
  refine ⟨hl, hd, ⟨pk, hpk, ?_, ?_⟩, ?_⟩
  · rw [hlen, hl]
    omega
  · rw [hlen]
    omega
  · rw [hf]
    simp

/-! ## A packet that fills the accumulator exactly -/

/-- C22 (the code at the failing input): a Set_Report write of exactly 64 bytes
arrives as one 64-byte OUT packet.  The guard `control_write_len + len <
CONTROL_WRITE_BUFSIZE` rejects it: the count stays 0, no byte is stored, and
`setReport` is called with length 0, not 64.  The same happens to a 4-byte packet
that follows 60 stored bytes. -/
theorem control_write_exact_fill_dropped :
    (data_stage [List.replicate 64 1]
      (handleSetupPacket sample_params ⟨0x21, HID_CLSRQ_SET_REPORT, 0x0200, 0, 64⟩
        Engine.init)).control_write_len = 0 ∧
    (data_stage [List.replicate 64 1]
      (handleSetupPacket sample_params ⟨0x21, HID_CLSRQ_SET_REPORT, 0x0200, 0, 64⟩
        Engine.init)).control_write_buf = List.replicate 64 0 ∧
    HwEvent.setReport 0 0 ∈
      (USB_COM_vect_NAKINI sample_params
        (data_stage [List.replicate 64 1]
          (handleSetupPacket sample_params ⟨0x21, HID_CLSRQ_SET_REPORT, 0x0200, 0, 64⟩
            Engine.init))).log ∧
    HwEvent.setReport 0 64 ∉
      (USB_COM_vect_NAKINI sample_params
        (data_stage [List.replicate 64 1]
          (handleSetupPacket sample_params ⟨0x21, HID_CLSRQ_SET_REPORT, 0x0200, 0, 64⟩
            Engine.init))).log ∧
    (data_stage [List.replicate 60 1, List.replicate 4 2]
      (handleSetupPacket sample_params ⟨0x21, HID_CLSRQ_SET_REPORT, 0x0200, 0, 64⟩
        Engine.init)).control_write_len = 60 := by
  decide

/-! ## Get_Report on an interface index out of range -/

/-- C23: for every class Get_Report request whose `wIndex` is greater than
`n_hid_interfaces`, `handleSetupPacket` only runs the status handshake: no
`getReport` callback is invoked and no table entry is read, no byte is loaded
into endpoint 0, the request is not marked unhandled and the endpoint is not
stalled. -/
theorem get_report_above_dropped (g_params : usb_parameters) (rq : usb_request) (e : Engine)
    (hdir : USB_RQT_IS_DEVICE_TO_HOST rq.bmRequestType = true)
    (hrcp : rq.bmRequestType &&& USB_RQT_RECIPIENT_MASK = USB_RQT_RECIPIENT_INTERFACE)
    (htype : rq.bmRequestType &&& USB_RQT_TYPE_MASK = USB_RQT_CLASS)
    (hrq : rq.bRequest = HID_CLSRQ_GET_REPORT)
    (hidx : rq.wIndex > g_params.n_hid_interfaces) :
    (handleSetupPacket g_params rq e).log.drop e.log.length =
      [HwEvent.clear_TXINI, HwEvent.wait_RXOUTI, HwEvent.clear_RXOUTI] ∧
    (∀ i : Nat, HwEvent.getReport i ∉ (handleSetupPacket g_params rq e).log.drop e.log.length) ∧
    (∀ i : Nat, HwEvent.hid_params i ∉ (handleSetupPacket g_params rq e).log.drop e.log.length) ∧
    reply g_params rq e = [] ∧
    (handleSetupPacket_blocks g_params rq e).2 = 0 ∧
    HwEvent.STALLRQ ∉ (handleSetupPacket g_params rq e).log.drop e.log.length ∧
    (handleSetupPacket g_params rq e).UECONX = e.UECONX := by
  have hs := get_report_above_eq g_params rq e hdir hrcp htype hrq hidx
  have hb : (handleSetupPacket_blocks g_params rq e).2 = 0 := by
    have hnd := not_host_to_device_of_device_to_host rq.bmRequestType hdir
    have h0 : USB_RQT_RECIPIENT_INTERFACE ≠ USB_RQT_RECIPIENT_DEVICE := by decide
    have h1 : USB_RQT_CLASS ≠ USB_RQT_STANDARD := by decide
    simp [handleSetupPacket_blocks, hdir, hnd, handleSetupPacket_in,
      handleSetupPacket_in_handlers, hrcp, htype, hrq, h0, h1, hidx]
  rw [reply, hs]
  simp only [List.drop_left]
  refine ⟨?_, ?_, ?_, ?_, hb, ?_, ?_⟩
  · simp
  · intro i; simp
  · intro i; simp
  · simp [ep0_bytes, ep0_byte]
  · simp
  · simp

theorem get_report_above_dropped_witness :
    USB_RQT_IS_DEVICE_TO_HOST 0xA1 = true ∧
    (0xA1 &&& USB_RQT_RECIPIENT_MASK = USB_RQT_RECIPIENT_INTERFACE) ∧
    (0xA1 &&& USB_RQT_TYPE_MASK = USB_RQT_CLASS) ∧
    2 > sample_params.n_hid_interfaces ∧
    reply sample_params ⟨0xA1, HID_CLSRQ_GET_REPORT, 0x0100, 2, 64⟩ Engine.init = [] ∧
    HwEvent.STALLRQ ∉
      (handleSetupPacket sample_params ⟨0xA1, HID_CLSRQ_GET_REPORT, 0x0100, 2, 64⟩
        Engine.init).log.drop Engine.init.log.length :=
  ⟨by decide, by decide, by decide, by decide,
    (get_report_above_dropped sample_params ⟨0xA1, HID_CLSRQ_GET_REPORT, 0x0100, 2, 64⟩
      Engine.init (by decide) (by decide) (by decide) rfl (by decide)).2.2.2.1,
    (get_report_above_dropped sample_params ⟨0xA1, HID_CLSRQ_GET_REPORT, 0x0100, 2, 64⟩
      Engine.init (by decide) (by decide) (by decide) rfl (by decide)).2.2.2.2.2.1⟩

/-! ## SetAddress: acknowledgment and address enable -/

/-- What the SET_ADDRESS branch does to the engine. -/
theorem set_address_eq (g_params : usb_parameters) (rq : usb_request) (e : Engine)
    (hdir : USB_RQT_IS_HOST_TO_DEVICE rq.bmRequestType = true)
    (hrcp : rq.bmRequestType &&& USB_RQT_RECIPIENT_MASK = USB_RQT_RECIPIENT_DEVICE)
    (hrq : rq.bRequest = USB_RQ_SET_ADDRESS) :
    handleSetupPacket g_params rq e =
      { e with
        UDADDR := (rq.wValue % 256 ||| (1 <<< ADDEN)) % 256,
        g_device_state := if rq.wValue = 0 then STATE_DEFAULT else STATE_ADDRESS,
        log := e.log ++ [HwEvent.UDADDR (rq.wValue % 256), HwEvent.wait_TXINI,
          HwEvent.clear_TXINI, HwEvent.wait_TXINI,
          HwEvent.UDADDR ((rq.wValue % 256 ||| (1 <<< ADDEN)) % 256)] } := by
  rw [handleSetupPacket_host_to_device g_params rq e hdir]
  by_cases h0 : rq.wValue = 0
  · simp [handleSetupPacket_out, hrcp, hrq, h0, write_UDADDR, wait_TXINI, clear_TXINI,
      Engine.emit]
  · simp [handleSetupPacket_out, hrcp, hrq, h0, write_UDADDR, wait_TXINI, clear_TXINI,
      Engine.emit]

/-- Setting bit 7 of a 7-bit value adds 128. -/
theorem or_ADDEN_of_lt (v : Nat) (hv : v < 128) : (v ||| (1 <<< ADDEN)) % 256 = v + 128 := by
  have h : ∀ w : Nat, w < 128 → (w ||| (1 <<< ADDEN)) % 256 = w + 128 := by decide
  exact h v hv

/-- A 7-bit value does not have `ADDEN`. -/
theorem has_ADDEN_of_lt (v : Nat) (hv : v < 128) : has_ADDEN v = false := by
  have h : ∀ w : Nat, w < 128 → has_ADDEN w = false := by decide
  exact h v hv

/-- A 7-bit value with 128 added has `ADDEN`. -/
theorem has_ADDEN_add (v : Nat) (hv : v < 128) : has_ADDEN (v + 128) = true := by
  have h : ∀ w : Nat, w < 128 → has_ADDEN (w + 128) = true := by decide
  exact h v hv

/-- C24 (as stated, refuted): a SetAddress request whose `wValue` has bit 7 set,
here 0x85, makes the first write `UDADDR = rq->wValue` set `ADDEN` before `TXINI`
was cleared: the address is enabled before the acknowledgment. -/
theorem set_address_ack_order_counterexample :
    (handleSetupPacket sample_params ⟨0x00, USB_RQ_SET_ADDRESS, 0x85, 0, 0⟩ Engine.init).log.drop
      Engine.init.log.length =
      [HwEvent.UDADDR 0x85, HwEvent.wait_TXINI, HwEvent.clear_TXINI, HwEvent.wait_TXINI,
        HwEvent.UDADDR 0x85] ∧
    has_ADDEN 0x85 = true ∧
    adden_before_ack
      ((handleSetupPacket sample_params ⟨0x00, USB_RQ_SET_ADDRESS, 0x85, 0, 0⟩
        Engine.init).log.drop Engine.init.log.length) = true := by
  decide

/-- C24 (amended): for every SetAddress request whose `wValue` has bit 7 of its
low byte clear (every 7-bit bus address), the register writes of
`handleSetupPacket` are, in order: the address without `ADDEN`, the wait for
`TXINI`, the clearing of `TXINI` that releases the zero-length status packet,
the wait for its completion, and only then the address with `ADDEN`.  No write
sets `ADDEN` before the acknowledgment, and `ADDEN` is set afterwards. -/
theorem set_address_ack_order (g_params : usb_parameters) (rq : usb_request) (e : Engine)
    (hdir : USB_RQT_IS_HOST_TO_DEVICE rq.bmRequestType = true)
    (hrcp : rq.bmRequestType &&& USB_RQT_RECIPIENT_MASK = USB_RQT_RECIPIENT_DEVICE)
    (hrq : rq.bRequest = USB_RQ_SET_ADDRESS)
    (hv : rq.wValue % 256 < 128) :
    (handleSetupPacket g_params rq e).log.drop e.log.length =
      [HwEvent.UDADDR (rq.wValue % 256), HwEvent.wait_TXINI, HwEvent.clear_TXINI,
        HwEvent.wait_TXINI, HwEvent.UDADDR (rq.wValue % 256 + 128)] ∧
    has_ADDEN (rq.wValue % 256) = false ∧
    has_ADDEN (rq.wValue % 256 + 128) = true ∧
    adden_before_ack ((handleSetupPacket g_params rq e).log.drop e.log.length) = false ∧
    sets_ADDEN ((handleSetupPacket g_params rq e).log.drop e.log.length) = true ∧
    (handleSetupPacket g_params rq e).UDADDR = rq.wValue % 256 + 128 := by
  rw [set_address_eq g_params rq e hdir hrcp hrq, or_ADDEN_of_lt _ hv]
  simp only [List.drop_left]
  have h1 := has_ADDEN_of_lt _ hv
  have h2 := has_ADDEN_add _ hv
  refine ⟨?_, h1, h2, ?_, ?_, ?_⟩
  · trivial
  · simp [adden_before_ack, adden_before_ack_aux, h1, h2]
  · simp [sets_ADDEN, h1, h2]
  · trivial

theorem set_address_ack_order_witness :
    USB_RQT_IS_HOST_TO_DEVICE 0x00 = true ∧
    (0x00 &&& USB_RQT_RECIPIENT_MASK = USB_RQT_RECIPIENT_DEVICE) ∧
    (5 : Nat) % 256 < 128 ∧
    adden_before_ack
      ((handleSetupPacket sample_params ⟨0x00, USB_RQ_SET_ADDRESS, 5, 0, 0⟩
        Engine.init).log.drop Engine.init.log.length) = false ∧
    (handleSetupPacket sample_params ⟨0x00, USB_RQ_SET_ADDRESS, 5, 0, 0⟩ Engine.init).UDADDR
      = 5 % 256 + 128 :=
  ⟨by decide, by decide, by decide,
    (set_address_ack_order sample_params ⟨0x00, USB_RQ_SET_ADDRESS, 5, 0, 0⟩ Engine.init
      (by decide) (by decide) rfl (by decide)).2.2.2.1,
    (set_address_ack_order sample_params ⟨0x00, USB_RQ_SET_ADDRESS, 5, 0, 0⟩ Engine.init
      (by decide) (by decide) rfl (by decide)).2.2.2.2.2⟩

/-! ## Strings are loaded as one packet -/

/-- C25 (the code at the failing input): GetDescriptor(String) for a table
entry of 32 characters with `wLength = 255`.  The descriptor has 66 bytes; the
two calls of `buf2EP` load all of them into the endpoint-0 bank before the one
clearing of `TXINI` of the status handshake: a single packet of 66 bytes, where
the configuration and report descriptors go out in packets of at most 64 bytes
through `longDescriptorHelper`. -/
theorem string_descriptor_single_packet :
    (reply sample_long_params ⟨0x80, USB_RQ_GET_DESCRIPTOR, 0x0301, 0, 255⟩ Engine.init).length
      = 66 ∧
    (packets ((handleSetupPacket sample_long_params
        ⟨0x80, USB_RQ_GET_DESCRIPTOR, 0x0301, 0, 255⟩ Engine.init).log.drop
        Engine.init.log.length)).map List.length = [66] := by
  decide

/-! ## Reachable device states -/

/-- A setup request keeps the device state well formed. -/
theorem handleSetupPacket_device_state_ok (g_params : usb_parameters) (rq : usb_request)
    (e : Engine) (h : device_state_ok e) : device_state_ok (handleSetupPacket g_params rq e) := by
  by_cases hc : USB_RQT_IS_HOST_TO_DEVICE rq.bmRequestType = true ∧
      rq.bmRequestType &&& USB_RQT_RECIPIENT_MASK = USB_RQT_RECIPIENT_DEVICE ∧
      (rq.bRequest = USB_RQ_SET_ADDRESS ∨ rq.bRequest = USB_RQ_SET_CONFIGURATION)
  · obtain ⟨hdir, hrcp, hrq | hrq⟩ := hc
    · rw [set_address_eq g_params rq e hdir hrcp hrq]
      by_cases h0 : rq.wValue = 0
      · simp [device_state_ok, h0, STATE_DEFAULT, STATE_CONFIGURED]
      · simp [device_state_ok, h0, STATE_ADDRESS, STATE_CONFIGURED]
    · rw [set_configuration_eq g_params rq e hdir hrcp hrq]
      by_cases h0 : rq.wValue % 256 = 0
      · simp [device_state_ok, h0, STATE_ADDRESS, STATE_CONFIGURED]
      · simp [device_state_ok, h0]
  · obtain ⟨h1, h2⟩ := handleSetupPacket_state g_params rq e hc
    unfold device_state_ok
    rw [h1, h2]
    exact h

/-- Well-formedness of the device state only depends on the device state and
the stored configuration value. -/
theorem device_state_ok_of_frame (e e2 : Engine) (h : device_state_ok e)
    (hf : e2.g_device_state = e.g_device_state ∧ e2.g_current_config = e.g_current_config) :
    device_state_ok e2 := by
  unfold device_state_ok
  rw [hf.1, hf.2]
  exact h

/-- The `RXOUTI` branch leaves device state and configuration value unchanged. -/
theorem USB_COM_vect_RXOUTI_state (bank : List Nat) (e : Engine) :
    (USB_COM_vect_RXOUTI bank e).g_device_state = e.g_device_state ∧
    (USB_COM_vect_RXOUTI bank e).g_current_config = e.g_current_config := by
  simp only [USB_COM_vect_RXOUTI, readEP2buf]
  split_ifs <;> simp [readEP2buf_loop_eq, Engine.emit]

/-- Function `handleDataPacket` leaves device state and configuration value
unchanged. -/
theorem handleDataPacket_state (g_params : usb_parameters) (rq : usb_request)
    (dat : Nat → Nat) (len : Nat) (e : Engine) :
    (handleDataPacket g_params rq dat len e).g_device_state = e.g_device_state ∧
    (handleDataPacket g_params rq dat len e).g_current_config = e.g_current_config := by
  simp only [handleDataPacket]
  split_ifs
  all_goals (try split)
  all_goals (try split_ifs)
  all_goals simp [access_hid_params, set_STALLRQ, clear_TXINI, Engine.emit]

/-- The `NAKINI` branch leaves device state and configuration value unchanged. -/
theorem USB_COM_vect_NAKINI_state (g_params : usb_parameters) (e : Engine) :
    (USB_COM_vect_NAKINI g_params e).g_device_state = e.g_device_state ∧
    (USB_COM_vect_NAKINI g_params e).g_current_config = e.g_current_config := by
  simp only [USB_COM_vect_NAKINI]
  split_ifs
  · exact handleDataPacket_state g_params _ _ _ (e.emit HwEvent.clear_NAKINI)
  · exact ⟨rfl, rfl⟩

/-- Function `handle_interrupt_xmit` leaves device state and configuration value
unchanged. -/
theorem handle_interrupt_xmit_state (ep UEINTX : Nat) (ram : Nat → Nat) (slot : Nat × Int)
    (e : Engine) :
    (handle_interrupt_xmit ep UEINTX ram slot e).2.g_device_state = e.g_device_state ∧
    (handle_interrupt_xmit ep UEINTX ram slot e).2.g_current_config = e.g_current_config := by
  simp only [handle_interrupt_xmit]
  split_ifs
  all_goals simp [buf2EP_eq, Engine.emit]

/-- The statement `if (c) { f }` keeps the device state well formed when `f`
does. -/
theorem run_if_device_state_ok (c : Bool) (f : Engine → Engine)
    (hf : ∀ e, device_state_ok e → device_state_ok (f e)) (e : Engine)
    (h : device_state_ok e) : device_state_ok (run_if c f e) := by
  unfold run_if
  split_ifs
  · exact hf e h
  · exact h

/-- One run of `ISR(USB_COM_vect)` keeps the device state well formed. -/
theorem USB_COM_vect_device_state_ok (g_params : usb_parameters) (hw : com_irq) (e : Engine)
    (h : device_state_ok e) : device_state_ok (USB_COM_vect g_params hw e) := by
  have h0 : ∀ e, device_state_ok e → device_state_ok (USB_COM_vect_EPINT0 g_params hw e) := by
    intro e he
    simp only [USB_COM_vect_EPINT0]
    apply run_if_device_state_ok _ _ (fun e he =>
      device_state_ok_of_frame e _ he (USB_COM_vect_NAKINI_state g_params e))
    apply run_if_device_state_ok _ _ (fun e he =>
      device_state_ok_of_frame e _ he (USB_COM_vect_RXOUTI_state hw.out_bank e))
    apply run_if_device_state_ok _ _ (fun e he => by
      simp only [USB_COM_vect_RXSTPI]
      apply handleSetupPacket_device_state_ok
      exact device_state_ok_of_frame e _ he ⟨rfl, rfl⟩)
    exact device_state_ok_of_frame e _ he ⟨rfl, rfl⟩
  have h1 : ∀ e, device_state_ok e → device_state_ok (USB_COM_vect_EPINT1 hw e) := by
    intro e he
    exact device_state_ok_of_frame e _ he (handle_interrupt_xmit_state 1 hw.UEINTX1 hw.ram _ e)
  have h2 : ∀ e, device_state_ok e → device_state_ok (USB_COM_vect_EPINT2 hw e) := by
    intro e he
    exact device_state_ok_of_frame e _ he (handle_interrupt_xmit_state 2 hw.UEINTX2 hw.ram _ e)
  have h3 : ∀ e, device_state_ok e → device_state_ok (USB_COM_vect_EPINT3 hw e) := by
    intro e he
    exact device_state_ok_of_frame e _ he (handle_interrupt_xmit_state 3 hw.UEINTX3 hw.ram _ e)
  simp only [USB_COM_vect]
  exact run_if_device_state_ok _ _ h3 _ (run_if_device_state_ok _ _ h2 _
    (run_if_device_state_ok _ _ h1 _ (run_if_device_state_ok _ _ h0 _ h)))

/-- Any sequence of events keeps the device state well formed. -/
theorem run_engine_device_state_ok (g_params : usb_parameters) (evs : List engine_event) :
    ∀ e : Engine, device_state_ok e → device_state_ok (run_engine g_params evs e) := by
  induction evs with
  | nil => intro e h; exact h
  | cons ev evs ih =>
    intro e h
    simp only [run_engine, List.foldl_cons]
    apply ih
    cases ev with
    | com hw => exact USB_COM_vect_device_state_ok g_params hw e h
    | gen UDINT UESTA0X =>
      exact device_state_ok_of_frame e _ h (USB_GEN_vect_state g_params UDINT UESTA0X e)

/-- C26: in every engine state reached from the initial state (device state
Default, configuration value 0) by any sequence of endpoint interrupts (setup
requests, OUT data-stage packets, control-write completions, interrupt
endpoint transmissions) and device interrupts, the device state is Default,
Address or Configured, never Powered, and it is Configured only if the stored
configuration value is nonzero. -/
theorem reachable_device_state (g_params : usb_parameters) (evs : List engine_event) :
    Engine.init.g_device_state = STATE_DEFAULT ∧ Engine.init.g_current_config = 0 ∧
    ((run_engine g_params evs Engine.init).g_device_state = STATE_DEFAULT ∨
      (run_engine g_params evs Engine.init).g_device_state = STATE_ADDRESS ∨
      (run_engine g_params evs Engine.init).g_device_state = STATE_CONFIGURED) ∧
    (run_engine g_params evs Engine.init).g_device_state ≠ STATE_POWERED ∧
    ((run_engine g_params evs Engine.init).g_device_state = STATE_CONFIGURED →
      (run_engine g_params evs Engine.init).g_current_config ≠ 0) := by
  have h := run_engine_device_state_ok g_params evs Engine.init
    ⟨Or.inl rfl, fun hc => absurd hc (by decide)⟩
  refine ⟨rfl, rfl, h.1, ?_, h.2⟩
  rcases h.1 with h1 | h1 | h1 <;> rw [h1] <;> decide

/-! ## Button mappings -/

theorem or_of_rows_nil (input : Nat) : or_of_rows [] input = 0 := rfl

theorem or_of_rows_cons (r : mapping) (rows : List mapping) (input : Nat) :
    or_of_rows (r :: rows) input =
      (if input &&& r.ctl_btn ≠ 0 then r.usb_btn else 0) ||| or_of_rows rows input := by
  by_cases h : input &&& r.ctl_btn = 0
  · simp [or_of_rows, List.filter_cons, h]
  · simp [or_of_rows, List.filter_cons, h]

/-- The loop of `domap` on an array that holds a terminator: the accumulated
mask, with the masks of the selected rows before the terminator. -/
theorem domap_loop_eq (input : Nat) (map : List mapping) :
    ∀ out : Nat, (∃ r ∈ map, r.ctl_btn = 0 ∨ r.usb_btn = 0) →
      domap_loop map input out = some (out ||| or_of_rows (rows_before_terminator map) input) := by
  induction map with
  | nil => intro out h; simp at h
  | cons cur rest ih =>
    intro out h
    by_cases hc : cur.ctl_btn = 0 ∨ cur.usb_btn = 0
    · have ht : rows_before_terminator (cur :: rest) = [] := by
        rcases hc with hc | hc <;> simp [rows_before_terminator, List.takeWhile_cons, hc]
      simp [domap_loop, hc, ht, or_of_rows_nil]
    · have hrest : ∃ r ∈ rest, r.ctl_btn = 0 ∨ r.usb_btn = 0 := by
        obtain ⟨r, hr, hz⟩ := h
        rcases List.mem_cons.mp hr with hr | hr
        · rw [hr] at hz; exact absurd hz hc
        · exact ⟨r, hr, hz⟩
      have hc2 : cur.ctl_btn ≠ 0 ∧ cur.usb_btn ≠ 0 := by
        constructor
        · intro h0; exact hc (Or.inl h0)
        · intro h0; exact hc (Or.inr h0)
      have ht : rows_before_terminator (cur :: rest) = cur :: rows_before_terminator rest := by
        simp [rows_before_terminator, List.takeWhile_cons, hc2.1, hc2.2]
      rw [domap_loop, if_neg hc, ih _ hrest, ht, or_of_rows_cons]
      by_cases hi : input &&& cur.ctl_btn = 0
      · simp [hi]
      · simp [hi, Nat.or_assoc]

/-- Function `domap` on an array that holds a terminator. -/
theorem domap_eq (input : Nat) (map : List mapping)
    (h : ∃ r ∈ map, r.ctl_btn = 0 ∨ r.usb_btn = 0) :
    domap map input = some (or_of_rows (rows_before_terminator map) input) := by
  rw [domap, domap_loop_eq input map 0 h, Nat.zero_or]

/-- A mask intersects `a ||| b` when it intersects `a` or `b`. -/
theorem or_and_ne_zero (a b m : Nat) :
    (a ||| b) &&& m ≠ 0 ↔ (a &&& m ≠ 0 ∨ b &&& m ≠ 0) := by
  have hd : (a ||| b) &&& m = (a &&& m) ||| (b &&& m) := by
    apply Nat.eq_of_testBit_eq
    intro i
    simp only [Nat.testBit_and, Nat.testBit_or]
    cases a.testBit i <;> cases b.testBit i <;> cases m.testBit i <;> rfl
  rw [hd]
  constructor
  · intro h
    by_contra hn
    push_neg at hn
    rw [hn.1, hn.2] at h
    exact h rfl
  · intro h hz
    have h1 : a &&& m = 0 := by
      apply Nat.eq_of_testBit_eq
      intro i
      have := congrArg (fun x => x.testBit i) hz
      simp only [Nat.testBit_or, Nat.zero_testBit, Bool.or_eq_false_iff] at this
      simp [this.1]
    have h2 : b &&& m = 0 := by
      apply Nat.eq_of_testBit_eq
      intro i
      have := congrArg (fun x => x.testBit i) hz
      simp only [Nat.testBit_or, Nat.zero_testBit, Bool.or_eq_false_iff] at this
      simp [this.2]
    rcases h with h | h
    · exact h h1
    · exact h h2

/-- The OR of the selected masks distributes over the OR of two inputs. -/
theorem or_of_rows_or (rows : List mapping) (a b : Nat) :
    or_of_rows rows (a ||| b) = or_of_rows rows a ||| or_of_rows rows b := by
  induction rows with
  | nil => simp [or_of_rows_nil]
  | cons r rows ih =>
    rw [or_of_rows_cons, or_of_rows_cons, or_of_rows_cons, ih]
    apply Nat.eq_of_testBit_eq
    intro i
    by_cases ha : a &&& r.ctl_btn = 0 <;> by_cases hb : b &&& r.ctl_btn = 0
    · have hab : ¬ ((a ||| b) &&& r.ctl_btn ≠ 0) := by
        rw [or_and_ne_zero]; simp [ha, hb]
      simp [ha, hb, hab]
    · have hab : (a ||| b) &&& r.ctl_btn ≠ 0 := by
        rw [or_and_ne_zero]; exact Or.inr hb
      simp only [ha, hb, hab, if_true, if_false, ne_eq, not_true_eq_false, not_false_eq_true,
        Nat.testBit_or, Nat.zero_testBit]
      cases r.usb_btn.testBit i <;> cases (or_of_rows rows a).testBit i <;>
        cases (or_of_rows rows b).testBit i <;> rfl
    · have hab : (a ||| b) &&& r.ctl_btn ≠ 0 := by
        rw [or_and_ne_zero]; exact Or.inl ha
      simp only [ha, hb, hab, if_true, if_false, ne_eq, not_true_eq_false, not_false_eq_true,
        Nat.testBit_or, Nat.zero_testBit]
      cases r.usb_btn.testBit i <;> cases (or_of_rows rows a).testBit i <;>
        cases (or_of_rows rows b).testBit i <;> rfl
    · have hab : (a ||| b) &&& r.ctl_btn ≠ 0 := by
        rw [or_and_ne_zero]; exact Or.inl ha
      simp only [ha, hb, hab, if_true, if_false, ne_eq, not_true_eq_false, not_false_eq_true,
        Nat.testBit_or, Nat.zero_testBit]
      cases r.usb_btn.testBit i <;> cases (or_of_rows rows a).testBit i <;>
        cases (or_of_rows rows b).testBit i <;> rfl

/-- No mask intersects the input 0. -/
theorem or_of_rows_zero (rows : List mapping) : or_of_rows rows 0 = 0 := by
  induction rows with
  | nil => rfl
  | cons r rows ih => rw [or_of_rows_cons, ih]; simp

/-- Each of the six tables holds its terminator. -/
theorem tables_terminated (c : pad_constants) :
    (∃ r ∈ map_gc_default c, r.ctl_btn = 0 ∨ r.usb_btn = 0) ∧
    (∃ r ∈ map_n64_default c, r.ctl_btn = 0 ∨ r.usb_btn = 0) ∧
    (∃ r ∈ map_n64_nsw c, r.ctl_btn = 0 ∨ r.usb_btn = 0) ∧
    (∃ r ∈ map_n64_nsw_special c, r.ctl_btn = 0 ∨ r.usb_btn = 0) ∧
    (∃ r ∈ map_gc_nsw c, r.ctl_btn = 0 ∨ r.usb_btn = 0) ∧
    (∃ r ∈ map_gc_nsw_l2 c, r.ctl_btn = 0 ∨ r.usb_btn = 0) :=
  ⟨⟨terminator, by simp [map_gc_default], Or.inl rfl⟩,
    ⟨terminator, by simp [map_n64_default], Or.inl rfl⟩,
    ⟨terminator, by simp [map_n64_nsw], Or.inl rfl⟩,
    ⟨terminator, by simp [map_n64_nsw_special], Or.inl rfl⟩,
    ⟨terminator, by simp [map_gc_nsw], Or.inl rfl⟩,
    ⟨terminator, by simp [map_gc_nsw_l2], Or.inl rfl⟩⟩

/-- Function `mappings_do` returns, for every id: the OR of the selected rows of
some table, or 0. -/
theorem mappings_do_rows (c : pad_constants) (mapping_id : Nat) :
    ∃ rows : List mapping, ∀ input : Nat,
      mappings_do c mapping_id input = some (or_of_rows rows input) := by
  obtain ⟨t1, t2, t3, t4, t5, t6⟩ := tables_terminated c
  unfold mappings_do
  split_ifs
  · exact ⟨_, fun input => domap_eq input _ t1⟩
  · exact ⟨_, fun input => domap_eq input _ t2⟩
  · exact ⟨_, fun input => domap_eq input _ t3⟩
  · exact ⟨_, fun input => domap_eq input _ t4⟩
  · exact ⟨_, fun input => domap_eq input _ t5⟩
  · exact ⟨_, fun input => domap_eq input _ t6⟩
  · exact ⟨[], fun input => by rw [or_of_rows_nil]⟩

/-- C28: for each of the six mapping ids, `mappings_do` returns the bitwise OR
of the `usb_btn` masks of the rows before the terminator of the table of that id
whose `ctl_btn` mask intersects the input; for every other mapping id it
returns 0; and for every id and all inputs `a` and `b`, `mappings_do id (a |||
b)` is the OR of `mappings_do id a` and `mappings_do id b`, and `mappings_do id
0 = 0`. -/
theorem mappings_do_or (c : pad_constants) (mapping_id a b : Nat) :
    mappings_do c MAPPING_GAMECUBE_DEFAULT a =
      some (or_of_rows (rows_before_terminator (map_gc_default c)) a) ∧
    mappings_do c MAPPING_N64_DEFAULT a =
      some (or_of_rows (rows_before_terminator (map_n64_default c)) a) ∧
    mappings_do c MAPPING_N64_NSW a =
      some (or_of_rows (rows_before_terminator (map_n64_nsw c)) a) ∧
    mappings_do c MAPPING_N64_NSW_L2 a =
      some (or_of_rows (rows_before_terminator (map_n64_nsw_special c)) a) ∧
    mappings_do c MAPPING_GAMECUBE_NSW a =
      some (or_of_rows (rows_before_terminator (map_gc_nsw c)) a) ∧
    mappings_do c MAPPING_GAMECUBE_NSW_L2 a =
      some (or_of_rows (rows_before_terminator (map_gc_nsw_l2 c)) a) ∧
    (mapping_id ∉ [MAPPING_GAMECUBE_DEFAULT, MAPPING_N64_DEFAULT, MAPPING_N64_NSW,
        MAPPING_N64_NSW_L2, MAPPING_GAMECUBE_NSW, MAPPING_GAMECUBE_NSW_L2] →
      mappings_do c mapping_id a = some 0) ∧
    (∃ ra rb : Nat, mappings_do c mapping_id a = some ra ∧
      mappings_do c mapping_id b = some rb ∧
      mappings_do c mapping_id (a ||| b) = some (ra ||| rb)) ∧
    mappings_do c mapping_id 0 = some 0 := by
  obtain ⟨t1, t2, t3, t4, t5, t6⟩ := tables_terminated c
  obtain ⟨rows, hrows⟩ := mappings_do_rows c mapping_id
  refine ⟨?_, ?_, ?_, ?_, ?_, ?_, ?_, ?_, ?_⟩
  · simp [mappings_do, MAPPING_GAMECUBE_DEFAULT, domap_eq a _ t1]
  · simp [mappings_do, MAPPING_GAMECUBE_DEFAULT, MAPPING_N64_DEFAULT, domap_eq a _ t2]
  · simp [mappings_do, MAPPING_GAMECUBE_DEFAULT, MAPPING_N64_DEFAULT, MAPPING_N64_NSW,
      domap_eq a _ t3]
  · simp [mappings_do, MAPPING_GAMECUBE_DEFAULT, MAPPING_N64_DEFAULT, MAPPING_N64_NSW,
      MAPPING_N64_NSW_L2, domap_eq a _ t4]
  · simp [mappings_do, MAPPING_GAMECUBE_DEFAULT, MAPPING_N64_DEFAULT, MAPPING_N64_NSW,
      MAPPING_N64_NSW_L2, MAPPING_GAMECUBE_NSW, domap_eq a _ t5]
  · simp [mappings_do, MAPPING_GAMECUBE_DEFAULT, MAPPING_N64_DEFAULT, MAPPING_N64_NSW,
      MAPPING_N64_NSW_L2, MAPPING_GAMECUBE_NSW, MAPPING_GAMECUBE_NSW_L2, domap_eq a _ t6]
  · intro h
    simp only [List.mem_cons, List.mem_singleton, List.not_mem_nil, or_false, not_or] at h
    obtain ⟨h1, h2, h3, h4, h5, h6⟩ := h
    simp [mappings_do, h1, h2, h3, h4, h5, h6]
  · exact ⟨_, _, hrows a, hrows b, by rw [hrows (a ||| b), or_of_rows_or]⟩
  · rw [hrows 0, or_of_rows_zero]

theorem mappings_do_or_witness :
    (5 : Nat) ∉ [MAPPING_GAMECUBE_DEFAULT, MAPPING_N64_DEFAULT, MAPPING_N64_NSW,
        MAPPING_N64_NSW_L2, MAPPING_GAMECUBE_NSW, MAPPING_GAMECUBE_NSW_L2] ∧
    mappings_do sample_constants 5 0x0003 = some 0 ∧
    mappings_do sample_constants MAPPING_GAMECUBE_DEFAULT 0x0003 =
      some (or_of_rows (rows_before_terminator (map_gc_default sample_constants)) 0x0003) ∧
    or_of_rows (rows_before_terminator (map_gc_default sample_constants)) 0x0003 = 0x0003 :=
  ⟨by decide,
    (mappings_do_or sample_constants 5 0x0003 0x0100).2.2.2.2.2.2.1 (by decide),
    (mappings_do_or sample_constants 5 0x0003 0x0100).1,
    by decide⟩

/-! ## The Y axis of the Switch report -/

/-- The arithmetic shift by one bit halves, rounding down. -/
theorem shiftRight_one (v : Int) : v >>> (1 : Nat) = v / 2 := by
  have h := Int.shiftRight_eq_div_pow v 1
  simpa using h

/-- The test `abs(aval) < n` as two comparisons. -/
theorem natAbs_lt_iff_between (v : Int) (n : Nat) : v.natAbs < n ↔ (-(n : Int) < v ∧ v < n) := by
  omega

/-- A value in the range of `int16_t` is not changed by the conversion. -/
theorem int16_of_int_eq (v : Int) (h1 : -32768 ≤ v) (h2 : v ≤ 32767) : int16_of_int v = v := by
  unfold int16_of_int
  omega

/-- Function `buildAnalogValueGc2NswHid` on an `int8_t`, without the 16-bit
conversions. -/
theorem buildAnalogValueGc2NswHid_eq (a : Int) (ha : -128 ≤ a) (hb : a ≤ 127) :
    buildAnalogValueGc2NswHid a =
      (minmax ((if -8 < a + a / 2 ∧ a + a / 2 < 8 then 0 else a + a / 2) + 128) 0 255).toNat := by
  have h1 : int16_of_int (a + a / 2) = a + a / 2 := int16_of_int_eq _ (by omega) (by omega)
  have h2 : int16_of_int ((if -8 < a + a / 2 ∧ a + a / 2 < 8 then 0 else a + a / 2) + 128) =
      (if -8 < a + a / 2 ∧ a + a / 2 < 8 then 0 else a + a / 2) + 128 := by
    apply int16_of_int_eq
    · split_ifs <;> omega
    · split_ifs <;> omega
  simp only [buildAnalogValueGc2NswHid, shiftRight_one, GC_ANALOG_SAFE_AREA_THRESHOLD,
    natAbs_lt_iff_between, h1]
  simp only [Nat.cast_ofNat, h2]
  have h3 : ∀ v : Int, (minmax v 0 255 % 256).toNat = (minmax v 0 255).toNat := by
    intro v
    unfold minmax
    split_ifs <;> omega
  rw [h3]

/-- Function `buildAnalogValueGc2NswHid` is nondecreasing on `int8_t`. -/
theorem buildAnalogValueGc2NswHid_mono (a b : Int) (ha : -128 ≤ a) (hab : a ≤ b)
    (hb : b ≤ 127) : buildAnalogValueGc2NswHid a ≤ buildAnalogValueGc2NswHid b := by
  rw [buildAnalogValueGc2NswHid_eq a ha (by omega), buildAnalogValueGc2NswHid_eq b (by omega) hb]
  unfold minmax
  split_ifs <;> omega

/-- The Y byte of the Switch report is the conversion of the negated stick
value, taken back to `int8_t`. -/
theorem nsw_y_byte_eq (c : pad_constants) (y : Int) :
    nsw_y_byte c y = some (buildAnalogValueGc2NswHid (int8_of_int (-y))) := by
  obtain ⟨rows, hrows⟩ := mappings_do_rows c MAPPING_GAMECUBE_NSW
  simp [nsw_y_byte, buildReportFromGC_NSW, hrows, N64DpadToNswHat, dpad_hat_table, store,
    int8_of_int]

/-- Away from -128 the Y axis of the Switch report is inverted monotonically,
with the centre 128 for 0 and every byte at most 255. -/
theorem nsw_y_byte_antitone (c : pad_constants) (y1 y2 : Int) (h1 : -127 ≤ y1)
    (h12 : y1 ≤ y2) (h2 : y2 ≤ 127) :
    ∃ b1 b2 : Nat, nsw_y_byte c y1 = some b1 ∧ nsw_y_byte c y2 = some b2 ∧ b2 ≤ b1 ∧
      b1 ≤ 255 ∧ nsw_y_byte c 0 = some 128 := by
  have e1 : int8_of_int (-y1) = -y1 := by unfold int8_of_int; omega
  have e2 : int8_of_int (-y2) = -y2 := by unfold int8_of_int; omega
  refine ⟨_, _, nsw_y_byte_eq c y1, nsw_y_byte_eq c y2, ?_, ?_, ?_⟩
  · rw [e1, e2]
    exact buildAnalogValueGc2NswHid_mono (-y2) (-y1) (by omega) (by omega) (by omega)
  · rw [e1, buildAnalogValueGc2NswHid_eq (-y1) (by omega) (by omega)]
    unfold minmax
    split_ifs <;> omega
  · rw [nsw_y_byte_eq]
    decide

/-- C29 (the code at the failing input): for the stick values `y1 = -128` and
`y2 = -127`, the negation `-gc_data->y` of -128 is 128, which the `int8_t`
parameter of `buildAnalogValueGc2NswHid` takes back to -128: the Y byte written
by `buildReportFromGC_NSW` is 0 for `y1` and 255 for `y2`, so `y1 ≤ y2` but the
byte for `y1` is smaller. -/
theorem nsw_y_inversion_at_minus_128 :
    int8_of_int (-(-128)) = -128 ∧
    nsw_y_byte sample_constants (-128) = some 0 ∧
    nsw_y_byte sample_constants (-127) = some 255 ∧
    nsw_y_byte sample_constants 0 = some 128 := by
  decide

/-! ## The axes of the GameCube report -/

/-- The two bytes of an `int16_t` give back its value as a 16-bit word. -/
theorem int16_bytes_value (v : Int) :
    (int16_bytes v).1 + 256 * (int16_bytes v).2 = uint16_of_int v := by
  simp only [int16_bytes]
  omega

/-- The six axes of the report written by `buildReportFromGC` are the six
values as 16-bit words. -/
theorem buildReportFromGC_axes (c : pad_constants) (flags : Nat) (gc_data : gc_pad_data)
    (dstbuf : Nat → Nat) :
    ∃ d : Nat → Nat, buildReportFromGC c flags gc_data dstbuf = some d ∧
      report_axis d 0 = uint16_of_int (buildReportFromGC_values c flags gc_data).xval ∧
      report_axis d 1 = uint16_of_int (buildReportFromGC_values c flags gc_data).yval ∧
      report_axis d 2 = uint16_of_int (buildReportFromGC_values c flags gc_data).cxval ∧
      report_axis d 3 = uint16_of_int (buildReportFromGC_values c flags gc_data).cyval ∧
      report_axis d 4 = uint16_of_int (buildReportFromGC_values c flags gc_data).ltrig ∧
      report_axis d 5 = uint16_of_int (buildReportFromGC_values c flags gc_data).rtrig := by
  obtain ⟨rows, hrows⟩ := mappings_do_rows c MAPPING_GAMECUBE_DEFAULT
  simp only [buildReportFromGC, hrows]
  refine ⟨_, rfl, ?_, ?_, ?_, ?_, ?_, ?_⟩
  all_goals
    simp only [report_axis, btnsToReport, store]
    norm_num
    exact int16_bytes_value _

/-- Scaling a value of -100..100 by 160 or -160 and adding 16000 gives a value
in 0..32000, with no 16-bit overflow. -/
theorem scale_stick (v k : Int) (hv : -100 ≤ v ∧ v ≤ 100) (hk : k = 160 ∨ k = -160) :
    0 ≤ int16_of_int (int16_of_int (v * k) + 16000) ∧
    int16_of_int (int16_of_int (v * k) + 16000) ≤ 32000 := by
  rcases hk with hk | hk
  · subst hk
    rw [int16_of_int_eq (v * 160) (by omega) (by omega),
      int16_of_int_eq (v * 160 + 16000) (by omega) (by omega)]
    omega
  · subst hk
    rw [int16_of_int_eq (v * -160) (by omega) (by omega),
      int16_of_int_eq (v * -160 + 16000) (by omega) (by omega)]
    omega

/-- Function `minmax` with the bounds -100 and 100. -/
theorem minmax_100 (v : Int) : -100 ≤ minmax v (-100) 100 ∧ minmax v (-100) 100 ≤ 100 := by
  unfold minmax
  split_ifs <;> omega

/-- The stick values after the swap block are in -100..100. -/
theorem buildReportFromGC_swap_range (c : pad_constants) (gc_data : gc_pad_data)
    (gcbuttons : Nat) (xval yval : Int) :
    (-100 ≤ (buildReportFromGC_swap c gc_data gcbuttons xval yval).2.1 ∧
      (buildReportFromGC_swap c gc_data gcbuttons xval yval).2.1 ≤ 100) ∧
    (-100 ≤ (buildReportFromGC_swap c gc_data gcbuttons xval yval).2.2 ∧
      (buildReportFromGC_swap c gc_data gcbuttons xval yval).2.2 ≤ 100) := by
  constructor
  · simp only [buildReportFromGC_swap]
    split_ifs <;> omega
  · simp only [buildReportFromGC_swap]
    split_ifs <;> omega

/-- The stick values of `buildReportFromGC` lie in 0..32000, for every reading
and every flag combination. -/
theorem buildReportFromGC_values_sticks (c : pad_constants) (flags : Nat)
    (gc_data : gc_pad_data) :
    (0 ≤ (buildReportFromGC_values c flags gc_data).xval ∧
      (buildReportFromGC_values c flags gc_data).xval ≤ 32000) ∧
    (0 ≤ (buildReportFromGC_values c flags gc_data).yval ∧
      (buildReportFromGC_values c flags gc_data).yval ≤ 32000) ∧
    (0 ≤ (buildReportFromGC_values c flags gc_data).cxval ∧
      (buildReportFromGC_values c flags gc_data).cxval ≤ 32000) ∧
    (0 ≤ (buildReportFromGC_values c flags gc_data).cyval ∧
      (buildReportFromGC_values c flags gc_data).cyval ≤ 32000) := by
  have hs := buildReportFromGC_swap_range c gc_data (gc_data.buttons % 65536)
    (minmax gc_data.x (-100) 100) (minmax gc_data.y (-100) 100)
  refine ⟨?_, ?_, ?_, ?_⟩
  · apply scale_stick _ _ _ (Or.inl rfl)
    split_ifs
    · exact hs.1
    · exact minmax_100 _
  · apply scale_stick _ _ _ (Or.inr rfl)
    split_ifs
    · exact hs.2
    · exact minmax_100 _
  · exact scale_stick _ _ (minmax_100 _) (Or.inl rfl)
  · exact scale_stick _ _ (minmax_100 _) (Or.inr rfl)

/-- The trigger values after the trigger block are in -16000..16000 when the
full sliders are not in effect: `FLAG_GC_FULL_SLIDERS` is clear, or the sliders
are buttons, or the analog triggers are disabled. -/
theorem buildReportFromGC_triggers_range (c : pad_constants) (flags gcbuttons : Nat)
    (ltrig rtrig : Int) (hl : 0 ≤ ltrig ∧ ltrig < 256) (hr : 0 ≤ rtrig ∧ rtrig < 256)
    (h : flags &&& c.FLAG_GC_FULL_SLIDERS = 0 ∨ flags &&& c.FLAG_GC_SLIDERS_AS_BUTTONS ≠ 0 ∨
      flags &&& c.FLAG_DISABLE_ANALOG_TRIGGERS ≠ 0) :
    (-16000 ≤ (buildReportFromGC_triggers c flags gcbuttons ltrig rtrig).2.1 ∧
      (buildReportFromGC_triggers c flags gcbuttons ltrig rtrig).2.1 ≤ 16000) ∧
    (-16000 ≤ (buildReportFromGC_triggers c flags gcbuttons ltrig rtrig).2.2 ∧
      (buildReportFromGC_triggers c flags gcbuttons ltrig rtrig).2.2 ≤ 16000) := by
  have hclamp : ∀ t : Int, 0 ≤ t ∧ t < 256 →
      0 ≤ (if int16_of_int (t * 63) > 16000 then 16000 else int16_of_int (t * 63)) ∧
      (if int16_of_int (t * 63) > 16000 then 16000 else int16_of_int (t * 63)) ≤ 16000 := by
    intro t ht
    rw [int16_of_int_eq (t * 63) (by omega) (by omega)]
    split_ifs <;> omega
  have hneg : ∀ v : Int, 0 ≤ v ∧ v ≤ 16000 →
      -16000 ≤ int16_of_int (-v) ∧ int16_of_int (-v) ≤ 16000 := by
    intro v hv
    rw [int16_of_int_eq (-v) (by omega) (by omega)]
    omega
  by_cases hd : flags &&& c.FLAG_DISABLE_ANALOG_TRIGGERS = 0
  · by_cases hb : flags &&& c.FLAG_GC_SLIDERS_AS_BUTTONS = 0
    · have hf : flags &&& c.FLAG_GC_FULL_SLIDERS = 0 := by
        rcases h with h | h | h
        · exact h
        · exact absurd hb h
        · exact absurd hd h
      have cl := hclamp ltrig hl
      have cr := hclamp rtrig hr
      by_cases hi : flags &&& c.FLAG_GC_INVERT_TRIGS = 0
      · simp only [buildReportFromGC_triggers, hd, hb, hf, hi, ne_eq, not_true_eq_false,
          if_false]
        exact ⟨⟨by omega, cl.2⟩, ⟨by omega, cr.2⟩⟩
      · simp only [buildReportFromGC_triggers, hd, hb, hf, hi, ne_eq, not_true_eq_false,
          not_false_eq_true, if_false, if_true]
        exact ⟨hneg _ cl, hneg _ cr⟩
    · simp [buildReportFromGC_triggers, hd, hb]
  · simp [buildReportFromGC_triggers, hd]

/-- The trigger values of `buildReportFromGC` lie in 0..32000 when the full
sliders are not in effect. -/
theorem buildReportFromGC_values_triggers (c : pad_constants) (flags : Nat)
    (gc_data : gc_pad_data) (hl : gc_data.lt < 256) (hr : gc_data.rt < 256)
    (h : flags &&& c.FLAG_GC_FULL_SLIDERS = 0 ∨ flags &&& c.FLAG_GC_SLIDERS_AS_BUTTONS ≠ 0 ∨
      flags &&& c.FLAG_DISABLE_ANALOG_TRIGGERS ≠ 0) :
    (0 ≤ (buildReportFromGC_values c flags gc_data).ltrig ∧
      (buildReportFromGC_values c flags gc_data).ltrig ≤ 32000) ∧
    (0 ≤ (buildReportFromGC_values c flags gc_data).rtrig ∧
      (buildReportFromGC_values c flags gc_data).rtrig ≤ 32000) := by
  have ht := fun g => buildReportFromGC_triggers_range c flags g (gc_data.lt : Int)
    (gc_data.rt : Int) (by omega) (by omega) h
  have hadd : ∀ v : Int, -16000 ≤ v ∧ v ≤ 16000 →
      0 ≤ int16_of_int (v + 16000) ∧ int16_of_int (v + 16000) ≤ 32000 := by
    intro v hv
    unfold int16_of_int
    omega
  exact ⟨hadd _ (ht _).1, hadd _ (ht _).2⟩

/-- The report of `buildReportFromGC`: the four stick axes lie in 0..32000 for
every reading and every flag combination, and the two trigger axes do when the
full sliders are not in effect. -/
theorem buildReportFromGC_report_range (c : pad_constants) (flags : Nat)
    (gc_data : gc_pad_data) (dstbuf : Nat → Nat) (hl : gc_data.lt < 256)
    (hr : gc_data.rt < 256) :
    ∃ d : Nat → Nat, buildReportFromGC c flags gc_data dstbuf = some d ∧
      (∀ k < 4, report_axis d k ≤ 32000) ∧
      ((flags &&& c.FLAG_GC_FULL_SLIDERS = 0 ∨ flags &&& c.FLAG_GC_SLIDERS_AS_BUTTONS ≠ 0 ∨
        flags &&& c.FLAG_DISABLE_ANALOG_TRIGGERS ≠ 0) →
        report_axis d 4 ≤ 32000 ∧ report_axis d 5 ≤ 32000) := by
  obtain ⟨d, hd, a0, a1, a2, a3, a4, a5⟩ := buildReportFromGC_axes c flags gc_data dstbuf
  obtain ⟨s0, s1, s2, s3⟩ := buildReportFromGC_values_sticks c flags gc_data
  have hu : ∀ v : Int, 0 ≤ v ∧ v ≤ 32000 → uint16_of_int v ≤ 32000 := by
    intro v hv
    unfold uint16_of_int
    omega
  refine ⟨d, hd, ?_, ?_⟩
  · intro k hk
    have hcases : k = 0 ∨ k = 1 ∨ k = 2 ∨ k = 3 := by omega
    rcases hcases with h | h | h | h <;> subst h
    · rw [a0]; exact hu _ s0
    · rw [a1]; exact hu _ s1
    · rw [a2]; exact hu _ s2
    · rw [a3]; exact hu _ s3
  · intro h
    obtain ⟨t0, t1⟩ := buildReportFromGC_values_triggers c flags gc_data hl hr h
    rw [a4, a5]
    exact ⟨hu _ t0, hu _ t1⟩

/-- C30 (the code at the failing input): with `FLAG_GC_FULL_SLIDERS` set and
the other flags clear, the reading `lt = 0`, `rt = 255` gives the left trigger
value `(0 - 127) * 126 + 16000 = -2`, written as the 16-bit word 65534, and the
right trigger value `(255 - 127) * 126 + 16000 = 32128`: both outside
0..32000.  The branch without full sliders clamps at 16000 before the offset;
the six axes of the idle report are 16000. -/
theorem full_sliders_axes_out_of_range :
    0x01 &&& sample_constants.FLAG_GC_FULL_SLIDERS ≠ 0 ∧
    (buildReportFromGC_values sample_constants 0x01 ⟨0, 0, 0, 0, 0, 0, 255⟩).ltrig = -2 ∧
    (buildReportFromGC_values sample_constants 0x01 ⟨0, 0, 0, 0, 0, 0, 255⟩).rtrig = 32128 ∧
    (buildReportFromGC sample_constants 0x01 ⟨0, 0, 0, 0, 0, 0, 255⟩ (fun _ => 0)).map
      (fun d => (List.range 6).map (report_axis d)) =
      some [16000, 16000, 16000, 16000, 65534, 32128] ∧
    (buildReportFromGC sample_constants 0x00 ⟨0, 0, 0, 0, 0, 0, 255⟩ (fun _ => 0)).map
      (fun d => (List.range 6).map (report_axis d)) =
      some [16000, 16000, 16000, 16000, 16000, 32000] ∧
    (List.range 6).map (report_axis (buildIdleReport 0 (fun _ => 0))) =
      [16000, 16000, 16000, 16000, 16000, 16000] := by
  decide

/-! ## Reads of `usbpad_hid_set_report` -/

/-- With a declared length of 0, `usbpad_hid_set_report` reads no byte and
returns failure. -/
theorem usbpad_hid_set_report_empty (narrow : Nat → Nat) (pad : usbpad) (rq : usb_request)
    (data : Nat → Nat) :
    usbpad_hid_set_report narrow pad rq data 0 = ⟨pad, 0xFF, []⟩ := by
  simp [usbpad_hid_set_report]

/-- C27 (the code at the failing input): an Output report whose one-byte
payload is `REPORT_SET_EFFECT`, with declared length 1, in a buffer whose later
bytes are left from before.  Only the test `len < 1` guards the case (the case
`REPORT_EFFECT_OPERATION` tests `len != 4`): the function reads `data[1]`,
`data[3]` and `data[4]`, stores them as effect index and duration, and returns
success.  With length 0 it reads nothing and returns failure. -/
theorem set_report_reads_past_length :
    (usbpad_hid_set_report id sample_pad ⟨0x21, HID_CLSRQ_SET_REPORT, 0x0200, 0, 1⟩
      (bytes [REPORT_SET_EFFECT, 7, 0, 0x34, 0x12]) 1).reads = [0, 1, 3, 4, 1] ∧
    ¬ (∀ i ∈ (usbpad_hid_set_report id sample_pad ⟨0x21, HID_CLSRQ_SET_REPORT, 0x0200, 0, 1⟩
      (bytes [REPORT_SET_EFFECT, 7, 0, 0x34, 0x12]) 1).reads, i < 1) ∧
    (usbpad_hid_set_report id sample_pad ⟨0x21, HID_CLSRQ_SET_REPORT, 0x0200, 0, 1⟩
      (bytes [REPORT_SET_EFFECT, 7, 0, 0x34, 0x12]) 1).ret = 0 ∧
    (usbpad_hid_set_report id sample_pad ⟨0x21, HID_CLSRQ_SET_REPORT, 0x0200, 0, 1⟩
      (bytes [REPORT_SET_EFFECT, 7, 0, 0x34, 0x12]) 1).pad =
      { sample_pad with _FFB_effect_index := 7, _FFB_effect_duration := 0x1234 } ∧
    (usbpad_hid_set_report id sample_pad ⟨0x21, HID_CLSRQ_SET_REPORT, 0x0200, 0, 1⟩
      (bytes [REPORT_SET_EFFECT, 7, 0, 0x34, 0x12]) 3).reads = [0, 1, 3, 4, 1] ∧
    usbpad_hid_set_report id sample_pad ⟨0x21, HID_CLSRQ_SET_REPORT, 0x0200, 0, 1⟩
      (bytes [REPORT_SET_EFFECT, 7, 0, 0x34, 0x12]) 0 = ⟨sample_pad, 0xFF, []⟩ := by
  decide

end Usb
